import Mathlib

/-!
# Organization name registry: reservation engine

A shallow embedding of the reservation service
(`org-name-registry/pkg/services/org_reservation_mapper/mapper.go`), of the SQL
repository it talks to (`org-name-registry/pkg/repository/org_reservation_mapper/mysql.go`)
and of the error package (`org-name-registry/pkg/errors`).

Conventions of the embedding.

* A Go pointer result is an `Option` (`none` is `nil`); a Go `error` is an
  `Option GoError`; a Go function returning `(x, err)` returns the pair.
* Dereferencing a nil pointer is the outcome `Outcome.panic`.
* The database is a `Store` of three tables, each a list of rows in insertion
  order.  A `SELECT` read with `QueryRowx(...).StructScan` yields the first row of
  the result, `sql.ErrNoRows` when there is none.  `UPDATE` and `DELETE` act on
  every row their `WHERE` clause selects.  String comparison is equality.
* Every statement sent to the database is recorded in `Gateway.calls`.  Whether
  statement number `n` fails is decided by a `Faults` oracle; a failed statement
  changes no row.
* `uuid.NewString()` is an input of the operation that calls it.
* The columns `CREATED_AT` and `UPDATED_AT` are filled in by the database and are
  never written or compared by the service; the embedding leaves them out.
-/

namespace OrgNameRegistry

/-! ## Package `errors` -/

/-- Go type `ErrorCode` (an `int32`). -/
abbrev ErrorCode := Int

def Error_UNKNOWN : ErrorCode := 0
def Error_INVALID_REQUEST : ErrorCode := 1002
def Error_NOT_FOUND : ErrorCode := 1003
def Error_NOT_AUTHORIZED : ErrorCode := 1004
def Error_DUPLICATE_RESERVATION : ErrorCode := 1012
def Error_UNKNOWN_SERVER : ErrorCode := 2001
def Error_INTERNAL : ErrorCode := 2002
def Error_UNAVAILABLE : ErrorCode := 2003
def Error_UNIMPLEMENTED : ErrorCode := 2004

/-- Go struct `Error` of `serviceerror.go` (the unexported `state` is never set). -/
structure Error where
  Code : ErrorCode
  Message : String
  Cause : String
  deriving DecidableEq, Repr

/-- Go `error` values that reach the service: a `*serviceError`, an error that
carries a gRPC status (with its code, its message and the first status detail of
type `*Error`, if any), or any other error, such as one of the SQL driver. The
`text` is what the method `Error()` of the foreign error returns. -/
inductive GoError where
  | serviceError (e : Error)
  | grpcStatus (text : String) (code : Nat) (message : String) (detail : Option Error)
  | other (text : String)
  deriving DecidableEq, Repr

/-- Method `Error()`; for a `serviceError` the string built in `serviceerror.go`. -/
def GoError.Error : GoError → String
  | .serviceError e =>
    let sb := "\x7b\"code\":" ++ toString e.Code ++ ",\"msg\":" ++ e.Message ++ "\x7d"
    if e.Cause.length > 0 then sb ++ "\", \"cause\": " ++ e.Cause ++ "\"" else sb
  | .grpcStatus text _ _ _ => text
  | .other text => text

/-- `errors.New(code, msg, err)`. -/
def New (code : ErrorCode) (msg : String) (err : Option GoError) : GoError :=
  .serviceError
    { Code := code
      Message := msg
      Cause := match err with
        | some e => e.Error
        | none => "" }

/-- `errors.Newf(code, err, format, a...)`; `msg` is the formatted text. -/
def Newf (code : ErrorCode) (err : Option GoError) (msg : String) : GoError :=
  New code msg err

/-- `statusToError` on a status with code `code` (numbering of `grpc/codes`) and
message `message`; `none` for the code `OK`. -/
def statusToError (code : Nat) (message : String) : Option Error :=
  if code = 0 then none
  else
    let errCode : ErrorCode :=
      if code = 1 then Error_INTERNAL
      else if code = 3 then Error_INVALID_REQUEST
      else if code = 4 then Error_INTERNAL
      else if code = 5 then Error_NOT_FOUND
      else if code = 7 then Error_INTERNAL
      else if code = 16 then Error_NOT_AUTHORIZED
      else if code = 8 then Error_INTERNAL
      else if code = 9 then Error_INTERNAL
      else if code = 10 then Error_INTERNAL
      else if code = 11 then Error_INTERNAL
      else if code = 12 then Error_UNIMPLEMENTED
      else if code = 13 then Error_INTERNAL
      else if code = 14 then Error_UNAVAILABLE
      else if code = 15 then Error_INTERNAL
      else if code = 2 then Error_UNKNOWN_SERVER
      else if code = 6 then Error_DUPLICATE_RESERVATION
      else Error_UNKNOWN
    some { Code := errCode, Message := message, Cause := "" }

/-- `errors.FromError`. -/
def FromError (err : Option GoError) : Option Error :=
  match err with
  | none => none
  | some (.serviceError e) => some e
  | some (.grpcStatus _ code message detail) =>
    match detail with
    | some t => some t
    | none => statusToError code message
  | some (.other text) => some { Code := Error_UNKNOWN, Message := "unknown error", Cause := text }

/-- `errors.Is`. -/
def Is (err : Option GoError) (code : ErrorCode) : Bool :=
  match err with
  | none => false
  | some _ =>
    match FromError err with
    | none => false
    | some e => e.Code == code

/-! ## Regular expressions of `regexp.MustCompile`

The two patterns of `mapper.go` are anchored with `^` and `$` and carry no flag,
so `MatchString` decides whether the whole string belongs to the language of the
pattern. Membership is computed with derivatives. -/

/-- Regular expressions over characters; `cls p` is a character class. -/
inductive Regex where
  | never : Regex
  | eps : Regex
  | cls (p : Char → Bool) : Regex
  | cat (a b : Regex) : Regex
  | alt (a b : Regex) : Regex
  | star (a : Regex) : Regex

namespace Regex

/-- Whether the empty string matches. -/
def nullable : Regex → Bool
  | never => false
  | eps => true
  | cls _ => false
  | cat a b => nullable a && nullable b
  | alt a b => nullable a || nullable b
  | star _ => true

/-- The derivative with respect to the character `c`. -/
def deriv (c : Char) : Regex → Regex
  | never => never
  | eps => never
  | cls p => if p c then eps else never
  | cat a b =>
    if nullable a then alt (cat (deriv c a) b) (deriv c b) else cat (deriv c a) b
  | alt a b => alt (deriv c a) (deriv c b)
  | star a => cat (deriv c a) (star a)

/-- The pattern `a+`. -/
def plus (a : Regex) : Regex := cat a (star a)

/-- The pattern `a?`. -/
def opt (a : Regex) : Regex := alt a eps

/-- Whether the whole list of characters matches. -/
def matchList (r : Regex) : List Char → Bool
  | [] => nullable r
  | c :: cs => matchList (deriv c r) cs

/-- `Re.MatchString(s)` for an anchored pattern `^r$`. -/
def MatchString (r : Regex) (s : String) : Bool := matchList r s.toList

end Regex

/-- A range `lo-hi` of a character class. -/
def inRange (lo hi c : Char) : Bool :=
  decide (lo.toNat ≤ c.toNat) && decide (c.toNat ≤ hi.toNat)

/-- The class `[a-z0-9._%+\-]`. -/
def emailLocalClass (c : Char) : Bool :=
  inRange 'a' 'z' c || inRange '0' '9' c || c == '.' || c == '_' || c == '%' || c == '+'
    || c == '-'

/-- The class `[a-z0-9.\-]`. -/
def emailDomainClass (c : Char) : Bool :=
  inRange 'a' 'z' c || inRange '0' '9' c || c == '.' || c == '-'

/-- The class `[a-z]`. -/
def lowerClass (c : Char) : Bool := inRange 'a' 'z' c

/-- The class `[a-zA-Z0-9_]`. -/
def orgNameClass (c : Char) : Bool :=
  inRange 'a' 'z' c || inRange 'A' 'Z' c || inRange '0' '9' c || c == '_'

/-- The pattern `^[a-z0-9._%+\-]+@[a-z0-9.\-]+\.[a-z]{2,4}$`. -/
def emailRegex : Regex :=
  .cat (.plus (.cls emailLocalClass))
    (.cat (.cls (fun c => c == '@'))
      (.cat (.plus (.cls emailDomainClass))
        (.cat (.cls (fun c => c == '.'))
          (.cat (.cls lowerClass)
            (.cat (.cls lowerClass)
              (.opt (.cat (.cls lowerClass) (.opt (.cls lowerClass)))))))))

/-- The pattern `^[a-zA-Z0-9_]*$`. -/
def orgNameRegex : Regex := .star (.cls orgNameClass)

/-- Go `validateEmail`. -/
def validateEmail (email : String) : Bool := emailRegex.MatchString email

/-- Go `validateOrgName`. -/
def validateOrgName (orgName : String) : Bool := orgNameRegex.MatchString orgName

/-! ## Entities (`entity.go`) -/

/-- Go struct `Owner`. -/
structure Owner where
  Id : String := ""
  Email : String := ""
  deriving DecidableEq, Repr

/-- Go struct `OrgReservation`. -/
structure OrgReservation where
  Uuid : String := ""
  OrganizationName : String := ""
  OwnerId : String := ""
  deriving DecidableEq, Repr

/-- Go struct `CloudReservation`. -/
structure CloudReservation where
  ReservationId : String := ""
  ChoreoCloud : Bool := false
  AsgardioCloud : Bool := false
  BallerinaCloud : Bool := false
  deriving DecidableEq, Repr

/-- Go struct `OrgReservationMapping`. -/
structure OrgReservationMapping where
  OrgReservation : OrgReservation := {}
  Owner : Owner := {}
  CloudMapping : CloudReservation := {}
  deriving DecidableEq, Repr

/-- Go struct `OrgReservationPayload`. -/
structure OrgReservationPayload where
  OrganizationName : String := ""
  OwnerEmail : String := ""
  CloudService : String := ""
  deriving DecidableEq, Repr

/-- Go struct `OrgReservationDBMapping`, the row type of the joined query. -/
structure OrgReservationDBMapping where
  Uuid : String := ""
  OrganizationName : String := ""
  OwnerId : String := ""
  Email : String := ""
  ChoreoCloud : Bool := false
  AsgardioCloud : Bool := false
  BallerinaCloud : Bool := false
  deriving DecidableEq, Repr

/-- Go struct `MappingUpdatePayload`. -/
structure MappingUpdatePayload where
  OrganizationName : String := ""
  NewOwnersEmail : String := ""
  deriving DecidableEq, Repr

/-- Go struct `ReservationDeletePayload`. -/
structure ReservationDeletePayload where
  OrganizationName : String := ""
  CloudService : String := ""
  deriving DecidableEq, Repr

/-! ## The database -/

/-- The tables `OWNER`, `ORGANIZATION_RESERVATION` and `MAPPED_CLOUDS`. -/
structure Store where
  owners : List Owner := []
  orgs : List OrgReservation := []
  clouds : List CloudReservation := []
  deriving DecidableEq, Repr

/-- The statements of `mysql.go`, one constructor for each repository method. -/
inductive Call where
  | InsertNewOrgReservation (orgReservation : OrgReservation)
  | GetOrgReservationByName (orgName : String)
  | GetOrgReservationByNameAndEmail (orgName ownerEmail : String)
  | GetOwnerByEmail (currentMail : String)
  | UpdateOwnerById (ownerId newMail : String)
  | InsertNewOwner (entry : Owner)
  | UpdateOrgReservationById (uuid ownerId : String)
  | UpdateOrgReservationByName (name ownerId : String)
  | FindOrgReservationsByEmail (email : String)
  | UpdateCloudMappingById (cloud : CloudReservation)
  | InsertNewCloudMappingEntry (cloudMapping : CloudReservation)
  | DeleteCloudMappingEntryById (id : String)
  | DeleteOrgReservationById (uuid : String)
  deriving DecidableEq, Repr

/-- Whether the statement is an `INSERT`, `UPDATE` or `DELETE`. -/
def Call.isWrite : Call → Bool
  | .InsertNewOrgReservation _ => true
  | .GetOrgReservationByName _ => false
  | .GetOrgReservationByNameAndEmail _ _ => false
  | .GetOwnerByEmail _ => false
  | .UpdateOwnerById _ _ => true
  | .InsertNewOwner _ => true
  | .UpdateOrgReservationById _ _ => true
  | .UpdateOrgReservationByName _ _ => true
  | .FindOrgReservationsByEmail _ => false
  | .UpdateCloudMappingById _ => true
  | .InsertNewCloudMappingEntry _ => true
  | .DeleteCloudMappingEntryById _ => true
  | .DeleteOrgReservationById _ => true

/-- The Persistence Gateway: the database and the statements sent to it so far,
oldest first. -/
structure Gateway where
  store : Store := {}
  calls : List Call := []
  deriving DecidableEq, Repr

/-- The fault oracle: `F n` is the error with which statement number `n` (counted
from 0 over the life of the gateway) fails, `none` when it is executed. -/
abbrev Faults := Nat → Option GoError

/-- The gateway that never fails. -/
def noFaults : Faults := fun _ => none

/-- Record a statement. -/
def Gateway.record (g : Gateway) (c : Call) : Gateway :=
  { g with calls := g.calls ++ [c] }

/-- Outcome of a Go function: it returns, or it panics on a nil pointer. -/
inductive Outcome (α : Type) where
  | value (a : α)
  | panic
  deriving DecidableEq, Repr

/-! ## Repository (`mysql.go`) -/

/-- Rows of `ORGANIZATION_RESERVATION AS org, OWNER AS o, MAPPED_CLOUDS as c`. -/
def crossJoin (s : Store) : List (OrgReservation × Owner × CloudReservation) :=
  s.orgs.flatMap fun org => s.owners.flatMap fun o => s.clouds.map fun c => (org, o, c)

/-- The `WHERE` clause of `GetOrgReservationByOwnerEmailAndOrgNameQuery`. -/
def joinWhere (orgName ownerEmail : String)
    (t : OrgReservation × Owner × CloudReservation) : Bool :=
  t.1.OwnerId == t.2.1.Id && t.1.Uuid == t.2.2.ReservationId
    && t.1.OrganizationName == orgName && t.2.1.Email == ownerEmail

/-- The columns selected by `GetOrgReservationByOwnerEmailAndOrgNameQuery`. -/
def joinColumns (t : OrgReservation × Owner × CloudReservation) : OrgReservationDBMapping :=
  { Uuid := t.1.Uuid
    OrganizationName := t.1.OrganizationName
    OwnerId := t.1.OwnerId
    Email := t.2.1.Email
    ChoreoCloud := t.2.2.ChoreoCloud
    AsgardioCloud := t.2.2.AsgardioCloud
    BallerinaCloud := t.2.2.BallerinaCloud }

/-- Result set of `GetOrgReservationByOwnerEmailAndOrgNameQuery`. -/
def GetOrgReservationByOwnerEmailAndOrgNameQuery (s : Store) (orgName ownerEmail : String) :
    List OrgReservationDBMapping :=
  ((crossJoin s).filter (joinWhere orgName ownerEmail)).map joinColumns

/-- Result set of `GetOrgReservationByOrgNameQuery`. -/
def GetOrgReservationByOrgNameQuery (s : Store) (orgName : String) : List OrgReservation :=
  s.orgs.filter fun org => org.OrganizationName == orgName

/-- Result set of `GetOwnerByEmailQuery`. -/
def GetOwnerByEmailQuery (s : Store) (email : String) : List Owner :=
  s.owners.filter fun o => o.Email == email

/-- Result set of `SelectOrgReservationsByEmailQuery`. -/
def SelectOrgReservationsByEmailQuery (s : Store) (email : String) : List String :=
  s.orgs.flatMap fun org =>
    (s.owners.filter fun o => org.OwnerId == o.Id && o.Email == email).map
      fun _ => org.OrganizationName

/-- Repository method `InsertNewOrgReservation`. -/
def InsertNewOrgReservation (F : Faults) (orgReservation : OrgReservation) (g : Gateway) :
    (Option OrgReservation × Option GoError) × Gateway :=
  let g1 := g.record (.InsertNewOrgReservation orgReservation)
  match F g.calls.length with
  | some err => ((some {}, some err), g1)
  | none =>
    ((some orgReservation, none),
      { g1 with store := { g.store with orgs := g.store.orgs ++ [orgReservation] } })

/-- Repository method `GetOrgReservationByName`. -/
def GetOrgReservationByName (F : Faults) (orgName : String) (g : Gateway) :
    (Option OrgReservation × Option GoError) × Gateway :=
  let g1 := g.record (.GetOrgReservationByName orgName)
  match F g.calls.length with
  | some err => ((none, some err), g1)
  | none =>
    match (GetOrgReservationByOrgNameQuery g.store orgName).head? with
    | none => ((none, none), g1)
    | some found => ((some found, none), g1)

/-- Repository method `GetOrgReservationByNameAndEmail`. -/
def GetOrgReservationByNameAndEmail (F : Faults) (orgName ownerEmail : String) (g : Gateway) :
    (Option OrgReservationMapping × Option GoError) × Gateway :=
  let g1 := g.record (.GetOrgReservationByNameAndEmail orgName ownerEmail)
  match F g.calls.length with
  | some err => ((none, some err), g1)
  | none =>
    match (GetOrgReservationByOwnerEmailAndOrgNameQuery g.store orgName ownerEmail).head? with
    | none => ((none, none), g1)
    | some found =>
      let record : OrgReservationMapping :=
        { OrgReservation :=
            { Uuid := found.Uuid
              OrganizationName := found.OrganizationName
              OwnerId := found.OwnerId }
          Owner := { Id := found.OwnerId, Email := found.Email }
          CloudMapping :=
            { ReservationId := found.Uuid
              ChoreoCloud := found.ChoreoCloud
              AsgardioCloud := found.AsgardioCloud
              BallerinaCloud := found.BallerinaCloud } }
      ((some record, none), g1)

/-- Repository method `GetOwnerByEmail`. -/
def GetOwnerByEmail (F : Faults) (currentMail : String) (g : Gateway) :
    (Option Owner × Option GoError) × Gateway :=
  let g1 := g.record (.GetOwnerByEmail currentMail)
  match F g.calls.length with
  | some err => ((none, some err), g1)
  | none =>
    match (GetOwnerByEmailQuery g.store currentMail).head? with
    | none => ((none, none), g1)
    | some found => ((some found, none), g1)

/-- Repository method `UpdateOwnerById`. -/
def UpdateOwnerById (F : Faults) (ownerId newMail : String) (g : Gateway) :
    Option GoError × Gateway :=
  let g1 := g.record (.UpdateOwnerById ownerId newMail)
  match F g.calls.length with
  | some err => (some err, g1)
  | none =>
    (none,
      { g1 with
        store :=
          { g.store with
            owners := g.store.owners.map fun o =>
              if o.Id == ownerId then { o with Email := newMail } else o } })

/-- Repository method `InsertNewOwner`. -/
def InsertNewOwner (F : Faults) (entry : Owner) (g : Gateway) :
    (Option Owner × Option GoError) × Gateway :=
  let g1 := g.record (.InsertNewOwner entry)
  match F g.calls.length with
  | some err => ((some {}, some err), g1)
  | none =>
    ((some entry, none),
      { g1 with store := { g.store with owners := g.store.owners ++ [entry] } })

/-- Repository method `UpdateOrgReservationById`. -/
def UpdateOrgReservationById (F : Faults) (uuid ownerId : String) (g : Gateway) :
    Option GoError × Gateway :=
  let g1 := g.record (.UpdateOrgReservationById uuid ownerId)
  match F g.calls.length with
  | some err => (some err, g1)
  | none =>
    (none,
      { g1 with
        store :=
          { g.store with
            orgs := g.store.orgs.map fun org =>
              if org.Uuid == uuid then { org with OwnerId := ownerId } else org } })

/-- Repository method `UpdateOrgReservationByName`. -/
def UpdateOrgReservationByName (F : Faults) (name ownerId : String) (g : Gateway) :
    Option GoError × Gateway :=
  let g1 := g.record (.UpdateOrgReservationByName name ownerId)
  match F g.calls.length with
  | some err => (some err, g1)
  | none =>
    (none,
      { g1 with
        store :=
          { g.store with
            orgs := g.store.orgs.map fun org =>
              if org.OrganizationName == name then { org with OwnerId := ownerId } else org } })

/-- Repository method `FindOrgReservationsByEmail`; a nil slice is the empty list. -/
def FindOrgReservationsByEmail (F : Faults) (email : String) (g : Gateway) :
    (List String × Option GoError) × Gateway :=
  let g1 := g.record (.FindOrgReservationsByEmail email)
  match F g.calls.length with
  | some err => (([], some err), g1)
  | none => ((SelectOrgReservationsByEmailQuery g.store email, none), g1)

/-- Repository method `UpdateCloudMappingById`. -/
def UpdateCloudMappingById (F : Faults) (cloud : CloudReservation) (g : Gateway) :
    Option GoError × Gateway :=
  let g1 := g.record (.UpdateCloudMappingById cloud)
  match F g.calls.length with
  | some err => (some err, g1)
  | none =>
    (none,
      { g1 with
        store :=
          { g.store with
            clouds := g.store.clouds.map fun c =>
              if c.ReservationId == cloud.ReservationId then
                { c with
                  ChoreoCloud := cloud.ChoreoCloud
                  AsgardioCloud := cloud.AsgardioCloud
                  BallerinaCloud := cloud.BallerinaCloud }
              else c } })

/-- Repository method `InsertNewCloudMappingEntry`. -/
def InsertNewCloudMappingEntry (F : Faults) (cloudMapping : CloudReservation) (g : Gateway) :
    (Option CloudReservation × Option GoError) × Gateway :=
  let g1 := g.record (.InsertNewCloudMappingEntry cloudMapping)
  match F g.calls.length with
  | some err => ((some {}, some err), g1)
  | none =>
    ((some cloudMapping, none),
      { g1 with store := { g.store with clouds := g.store.clouds ++ [cloudMapping] } })

/-- Repository method `DeleteCloudMappingEntryById`. -/
def DeleteCloudMappingEntryById (F : Faults) (id : String) (g : Gateway) :
    Option GoError × Gateway :=
  let g1 := g.record (.DeleteCloudMappingEntryById id)
  match F g.calls.length with
  | some err => (some err, g1)
  | none =>
    (none,
      { g1 with
        store :=
          { g.store with
            clouds := g.store.clouds.filter fun c => !(c.ReservationId == id) } })

/-- Repository method `DeleteOrgReservationById`. -/
def DeleteOrgReservationById (F : Faults) (uuid : String) (g : Gateway) :
    Option GoError × Gateway :=
  let g1 := g.record (.DeleteOrgReservationById uuid)
  match F g.calls.length with
  | some err => (some err, g1)
  | none =>
    (none,
      { g1 with
        store := { g.store with orgs := g.store.orgs.filter fun org => !(org.Uuid == uuid) } })

/-! ## Service (`mapper.go`)

The service reaches the repository through the package variable `repo`; here the
gateway is passed in and handed back. -/

def ChoreoKey : String := "CH"
def AsgardioKey : String := "AG"
def BallerinaKey : String := "BL"

/-- Service method `GetOrgReservationByOrgName`. -/
def GetOrgReservationByOrgName (F : Faults) (orgName : String) (g : Gateway) :
    (Option OrgReservation × Option GoError) × Gateway :=
  match GetOrgReservationByName F orgName g with
  | ((_, some err), g1) => ((none, some err), g1)
  | ((found, none), g1) =>
    if found.isSome then
      ((none,
        some (Newf Error_DUPLICATE_RESERVATION none
          (orgName ++ " is already reserved by another user"))), g1)
    else ((found, none), g1)

/-- Service method `GetOwnReservationWithNameAndMail`. -/
def GetOwnReservationWithNameAndMail (F : Faults) (orgName ownerEmail : String) (g : Gateway) :
    (Option OrgReservationMapping × Bool × Option GoError) × Gateway :=
  if !validateEmail ownerEmail then
    ((none, false, some (Newf Error_INVALID_REQUEST none "Email is invalid")), g)
  else
    match GetOrgReservationByNameAndEmail F orgName ownerEmail g with
    | ((_, some err), g1) => ((none, false, some err), g1)
    | ((found, none), g1) =>
      if found.isSome then ((found, true, none), g1)
      else ((none, false, none), g1)

/-- Service method `CreateNewOrgReservation`. `newOwnerId` and `newUuid` are what
the two calls of `uuid.NewString()` return (lines 105 and 120 of `mapper.go`). -/
def CreateNewOrgReservation (F : Faults) (newOwnerId newUuid : String)
    (payload : OrgReservationPayload) (g : Gateway) :
    Outcome (Option OrgReservationMapping × Option GoError) × Gateway :=
  if !validateEmail payload.OwnerEmail then
    (.value (none, some (Newf Error_INVALID_REQUEST none "Email is invalid")), g)
  else if !validateOrgName payload.OrganizationName then
    (.value (none,
      some (Newf Error_INVALID_REQUEST none
        "Organization reservation should contain only alpha numeric characters")), g)
  else
    match GetOwnReservationWithNameAndMail F payload.OrganizationName payload.OwnerEmail g with
    | ((_, _, some error), g1) => (.value (none, some error), g1)
    | ((ownReservation, owned, none), g1) =>
      let cloudMappingEntry : CloudReservation :=
        match ownReservation with
        | some r => r.CloudMapping
        | none => {}
      let newCloudMapping : CloudReservation :=
        if payload.CloudService = ChoreoKey then { cloudMappingEntry with ChoreoCloud := true }
        else if payload.CloudService = AsgardioKey then
          { cloudMappingEntry with AsgardioCloud := true }
        else if payload.CloudService = BallerinaKey then
          { cloudMappingEntry with BallerinaCloud := true }
        else cloudMappingEntry
      if owned then
        if newCloudMapping = cloudMappingEntry then (.value (ownReservation, none), g1)
        else
          match UpdateCloudMappingById F newCloudMapping g1 with
          | (some err, g2) => (.value (none, some err), g2)
          | (none, g2) =>
            match ownReservation with
            | none => (.panic, g2)
            | some r => (.value (some { r with CloudMapping := newCloudMapping }, none), g2)
      else
        match GetOrgReservationByOrgName F payload.OrganizationName g1 with
        | ((_, err), g2) =>
          if !Is err Error_DUPLICATE_RESERVATION then
            match GetOwnerByEmail F payload.OwnerEmail g2 with
            | ((_, some errr), g3) => (.value (none, some errr), g3)
            | ((found, none), g3) =>
              let resolved : Option GoError × Owner × Gateway :=
                match found with
                | none =>
                  let ownerObj : Owner := { Id := newOwnerId, Email := payload.OwnerEmail }
                  match InsertNewOwner F ownerObj g3 with
                  | ((_, some err), g4) => (some err, ownerObj, g4)
                  | ((_, none), g4) => (none, ownerObj, g4)
                | some o => (none, o, g3)
              match resolved with
              | (some err, _, g4) => (.value (none, some err), g4)
              | (none, ownerObj, g4) =>
                let reservationObj : OrgReservation :=
                  { Uuid := newUuid
                    OrganizationName := payload.OrganizationName
                    OwnerId := ownerObj.Id }
                match InsertNewOrgReservation F reservationObj g4 with
                | ((_, some err), g5) => (.value (none, some err), g5)
                | ((_, none), g5) =>
                  let newCloudMapping1 : CloudReservation :=
                    { newCloudMapping with ReservationId := reservationObj.Uuid }
                  match InsertNewCloudMappingEntry F newCloudMapping1 g5 with
                  | ((_, some err1), g6) => (.value (none, some err1), g6)
                  | ((_, none), g6) =>
                    (.value
                      (some
                        { Owner := ownerObj
                          OrgReservation := reservationObj
                          CloudMapping := newCloudMapping1 }, none), g6)
          else if err.isSome then (.value (none, err), g2)
          else (.value (none, err), g2)

/-- Service method `UpdateOrgMapping`. `newOwnerId` is what `uuid.NewString()`
returns (line 249 of `mapper.go`). -/
def UpdateOrgMapping (F : Faults) (newOwnerId : String) (currentMail : String)
    (payload : MappingUpdatePayload) (g : Gateway) :
    Outcome (Option OrgReservationMapping × Option GoError) × Gateway :=
  if !validateOrgName payload.OrganizationName then
    (.value (none,
      some (Newf Error_INVALID_REQUEST none
        "Organization reservation should contain only alpha numeric characters")), g)
  else if !validateEmail payload.NewOwnersEmail then
    (.value (none, some (Newf Error_INVALID_REQUEST none "Email is invalid")), g)
  else
    match GetOwnReservationWithNameAndMail F payload.OrganizationName currentMail g with
    | ((_, _, some errr), g1) => (.value (none, some errr), g1)
    | ((ownReservation, recordFound, none), g1) =>
      if !recordFound then
        (.value (none,
          some (Newf Error_NOT_FOUND none
            ("Cannot find a reservation mapping with " ++ payload.OrganizationName
              ++ " reservation name"))), g1)
      else
        match GetOwnerByEmail F payload.NewOwnersEmail g1 with
        | ((_, some err), g2) => (.value (none, some err), g2)
        | ((found, none), g2) =>
          let resolved : Outcome (Option GoError × Owner) × Gateway :=
            if found.isSome then
              match GetOwnerByEmail F payload.NewOwnersEmail g2 with
              | ((_, some err), g3) => (.value (some err, {}), g3)
              | ((none, none), g3) => (.panic, g3)
              | ((some result, none), g3) => (.value (none, result), g3)
            else
              let ownerEntry : Owner := { Id := newOwnerId, Email := payload.NewOwnersEmail }
              match InsertNewOwner F ownerEntry g2 with
              | ((_, some error), g3) => (.value (some error, {}), g3)
              | ((none, none), g3) => (.panic, g3)
              | ((some result, none), g3) => (.value (none, result), g3)
          match resolved with
          | (.panic, g3) => (.panic, g3)
          | (.value (some err, _), g3) => (.value (none, some err), g3)
          | (.value (none, newOwner), g3) =>
            match ownReservation with
            | none => (.panic, g3)
            | some own =>
              match UpdateOrgReservationById F own.OrgReservation.Uuid newOwner.Id g3 with
              | (some err1, g4) => (.value (none, some err1), g4)
              | (none, g4) =>
                match GetOrgReservationByName F payload.OrganizationName g4 with
                | ((_, some err2), g5) => (.value (none, some err2), g5)
                | ((none, none), g5) => (.panic, g5)
                | ((some updatedEntry, none), g5) =>
                  (.value
                    (some
                      { OrgReservation := updatedEntry
                        Owner := newOwner
                        CloudMapping := own.CloudMapping }, none), g5)

/-- Service method `SearchReservationByName`. -/
def SearchReservationByName (F : Faults) (orgName : String) (g : Gateway) :
    (String × Option GoError) × Gateway :=
  match GetOrgReservationByName F orgName g with
  | ((_, some err), g1) => (("", some err), g1)
  | ((some found, none), g1) => ((found.OrganizationName, none), g1)
  | ((none, none), g1) =>
    (("", some (Newf Error_NOT_FOUND none (orgName ++ " is not found in the registry"))), g1)

/-- Service method `GetReservationsOfOwner`; a nil slice is the empty list. -/
def GetReservationsOfOwner (F : Faults) (email : String) (g : Gateway) :
    (List String × Option GoError) × Gateway :=
  match FindOrgReservationsByEmail F email g with
  | ((_, some err), g1) => (([], some err), g1)
  | ((found, none), g1) =>
    if found ≠ [] then ((found, none), g1)
    else
      (([], some (Newf Error_NOT_FOUND none "No reservations are not found in the registry")),
        g1)

/-- Service method `DeleteReservationsOfOwner`. The error built when `email` is
invalid (line 325 of `mapper.go`) is not returned. -/
def DeleteReservationsOfOwner (F : Faults) (email : String)
    (payload : ReservationDeletePayload) (g : Gateway) : Outcome (Option GoError) × Gateway :=
  let _discarded : Option GoError :=
    if !validateEmail email then some (Newf Error_INVALID_REQUEST none "Email is invalid")
    else none
  match GetOwnReservationWithNameAndMail F payload.OrganizationName email g with
  | ((_, _, some error), g1) => (.value (some error), g1)
  | ((ownReservation, owned, none), g1) =>
    if !owned then
      (.value
        (some (Newf Error_NOT_FOUND none
          (payload.OrganizationName ++ " is not found in the registry with your ownership"))),
        g1)
    else
      match ownReservation with
      | none => (.panic, g1)
      | some own =>
        let cloudMappingEntry : CloudReservation := own.CloudMapping
        let newCloudMapping : CloudReservation :=
          if payload.CloudService = ChoreoKey then
            { cloudMappingEntry with ChoreoCloud := false }
          else if payload.CloudService = AsgardioKey then
            { cloudMappingEntry with AsgardioCloud := false }
          else if payload.CloudService = BallerinaKey then
            { cloudMappingEntry with BallerinaCloud := false }
          else cloudMappingEntry
        if newCloudMapping.BallerinaCloud = false && newCloudMapping.ChoreoCloud = false
            && newCloudMapping.AsgardioCloud = false then
          match DeleteCloudMappingEntryById F newCloudMapping.ReservationId g1 with
          | (some err, g2) => (.value (some err), g2)
          | (none, g2) => (.value none, g2)
        else
          match UpdateCloudMappingById F newCloudMapping g1 with
          | (some err, g2) => (.value (some err), g2)
          | (none, g2) => (.value none, g2)

/-! ### The constructor and the package variable `repo`

`NewOrgReservationService` stores the repository it is given in the new `Service`
and in the package variable `repo` (lines 12 to 34 of `mapper.go`). The methods
above take the gateway `repo` refers to; the methods below make the variable
explicit. No method body reads its receiver; every repository call is a call
`repo.X(...)`, and with a nil `repo` the first such call panics. -/

/-- The state of the package `org_reservation_mapper` of `mapper.go`: the
repositories that exist, each known by its position in the list, and the package
variable `repo` (line 17), which refers to one of them or is nil. -/
structure Package where
  repositories : List Gateway := []
  repo : Option Nat := none
  deriving DecidableEq, Repr

/-- Go struct `Service`; its field `orgNameMapper` refers to a repository. -/
structure Service where
  orgNameMapper : Nat
  deriving DecidableEq, Repr

/-- `NewOrgReservationService`: the assignment to the package variable `repo` and
the new `Service` value. -/
def NewOrgReservationService (repository : Nat) (w : Package) : Service × Package :=
  ({ orgNameMapper := repository }, { w with repo := some repository })

/-- Method `SearchReservationByName` of `Service` with the package variable made
explicit: the body calls `repo.GetOrgReservationByName` and never reads the
receiver. A method call on a nil `repo` panics. -/
def Service.SearchReservationByName (_s : Service) (F : Faults) (orgName : String)
    (w : Package) : Outcome (String × Option GoError) × Package :=
  match w.repo with
  | none => (.panic, w)
  | some i =>
    match w.repositories[i]? with
    | none => (.panic, w)
    | some g =>
      let r := OrgNameRegistry.SearchReservationByName F orgName g
      (.value r.1, { w with repositories := w.repositories.set i r.2 })

/-- Method `CreateNewOrgReservation` of `Service` with the package variable made
explicit: every repository call of the body goes through `repo`. With a nil
`repo` the two validations still return; the lookup that follows panics. -/
def Service.CreateNewOrgReservation (_s : Service) (F : Faults) (newOwnerId newUuid : String)
    (payload : OrgReservationPayload) (w : Package) :
    Outcome (Option OrgReservationMapping × Option GoError) × Package :=
  match w.repo with
  | none =>
    if !validateEmail payload.OwnerEmail then
      (.value (none, some (Newf Error_INVALID_REQUEST none "Email is invalid")), w)
    else if !validateOrgName payload.OrganizationName then
      (.value (none,
        some (Newf Error_INVALID_REQUEST none
          "Organization reservation should contain only alpha numeric characters")), w)
    else (.panic, w)
  | some i =>
    match w.repositories[i]? with
    | none => (.panic, w)
    | some g =>
      let r := OrgNameRegistry.CreateNewOrgReservation F newOwnerId newUuid payload g
      (r.1, { w with repositories := w.repositories.set i r.2 })

/-- Method `GetOrgReservationByOrgName` of `Service` with the package variable
made explicit. -/
def Service.GetOrgReservationByOrgName (_s : Service) (F : Faults) (orgName : String)
    (w : Package) : Outcome (Option OrgReservation × Option GoError) × Package :=
  match w.repo with
  | none => (.panic, w)
  | some i =>
    match w.repositories[i]? with
    | none => (.panic, w)
    | some g =>
      let r := OrgNameRegistry.GetOrgReservationByOrgName F orgName g
      (.value r.1, { w with repositories := w.repositories.set i r.2 })

/-- Method `GetOwnReservationWithNameAndMail` of `Service` with the package
variable made explicit. With a nil `repo` the validation of the email still
returns; the repository call that follows panics. -/
def Service.GetOwnReservationWithNameAndMail (_s : Service) (F : Faults)
    (orgName ownerEmail : String) (w : Package) :
    Outcome (Option OrgReservationMapping × Bool × Option GoError) × Package :=
  match w.repo with
  | none =>
    if !validateEmail ownerEmail then
      (.value (none, false, some (Newf Error_INVALID_REQUEST none "Email is invalid")), w)
    else (.panic, w)
  | some i =>
    match w.repositories[i]? with
    | none => (.panic, w)
    | some g =>
      let r := OrgNameRegistry.GetOwnReservationWithNameAndMail F orgName ownerEmail g
      (.value r.1, { w with repositories := w.repositories.set i r.2 })

/-- Method `UpdateOrgMapping` of `Service` with the package variable made
explicit. With a nil `repo` the validations of the name, of the new email and, in
`GetOwnReservationWithNameAndMail`, of the current email still return; the
repository call that follows panics. -/
def Service.UpdateOrgMapping (_s : Service) (F : Faults) (newOwnerId currentMail : String)
    (payload : MappingUpdatePayload) (w : Package) :
    Outcome (Option OrgReservationMapping × Option GoError) × Package :=
  match w.repo with
  | none =>
    if !validateOrgName payload.OrganizationName then
      (.value (none,
        some (Newf Error_INVALID_REQUEST none
          "Organization reservation should contain only alpha numeric characters")), w)
    else if !validateEmail payload.NewOwnersEmail then
      (.value (none, some (Newf Error_INVALID_REQUEST none "Email is invalid")), w)
    else if !validateEmail currentMail then
      (.value (none, some (Newf Error_INVALID_REQUEST none "Email is invalid")), w)
    else (.panic, w)
  | some i =>
    match w.repositories[i]? with
    | none => (.panic, w)
    | some g =>
      let r := OrgNameRegistry.UpdateOrgMapping F newOwnerId currentMail payload g
      (r.1, { w with repositories := w.repositories.set i r.2 })

/-- Method `GetReservationsOfOwner` of `Service` with the package variable made
explicit. -/
def Service.GetReservationsOfOwner (_s : Service) (F : Faults) (email : String)
    (w : Package) : Outcome (List String × Option GoError) × Package :=
  match w.repo with
  | none => (.panic, w)
  | some i =>
    match w.repositories[i]? with
    | none => (.panic, w)
    | some g =>
      let r := OrgNameRegistry.GetReservationsOfOwner F email g
      (.value r.1, { w with repositories := w.repositories.set i r.2 })

/-- Method `DeleteReservationsOfOwner` of `Service` with the package variable made
explicit. With a nil `repo` the validation of the email in
`GetOwnReservationWithNameAndMail` still returns its error; the repository call
that follows panics. -/
def Service.DeleteReservationsOfOwner (_s : Service) (F : Faults) (email : String)
    (payload : ReservationDeletePayload) (w : Package) :
    Outcome (Option GoError) × Package :=
  match w.repo with
  | none =>
    if !validateEmail email then
      (.value (some (Newf Error_INVALID_REQUEST none "Email is invalid")), w)
    else (.panic, w)
  | some i =>
    match w.repositories[i]? with
    | none => (.panic, w)
    | some g =>
      let r := OrgNameRegistry.DeleteReservationsOfOwner F email payload g
      (r.1, { w with repositories := w.repositories.set i r.2 })

/-! ## Auxiliary definitions for the statements -/

/-- Modelled from the spec: the declaration of the table `OWNER` is not part of
the sources. Section 3 of the specification: "all identifiers are opaque unique
strings"; no two rows of `OWNER` have the same `ID`. -/
def Store.uniqueOwnerIds (s : Store) : Prop := (s.owners.map fun o => o.Id).Nodup

/-- Modelled from the spec: the declaration of the table `ORGANIZATION_RESERVATION`
is not part of the sources. Section 3 of the specification: "all identifiers are
opaque unique strings"; no two rows of `ORGANIZATION_RESERVATION` have the same
`UUID`. -/
def Store.uniqueUuids (s : Store) : Prop := (s.orgs.map fun r => r.Uuid).Nodup

/-- Organization names are unique: no two rows of `ORGANIZATION_RESERVATION` have
the same `ORGANIZATION_NAME`. -/
def Store.uniqueNames (s : Store) : Prop := (s.orgs.map fun r => r.OrganizationName).Nodup

instance (s : Store) : Decidable s.uniqueOwnerIds := by
  unfold Store.uniqueOwnerIds; infer_instance

instance (s : Store) : Decidable s.uniqueNames := by
  unfold Store.uniqueNames; infer_instance

instance (s : Store) : Decidable s.uniqueUuids := by
  unfold Store.uniqueUuids; infer_instance

/-- The record built from a row of the joined query. -/
def joinRecord (found : OrgReservationDBMapping) : OrgReservationMapping :=
  { OrgReservation :=
      { Uuid := found.Uuid
        OrganizationName := found.OrganizationName
        OwnerId := found.OwnerId }
    Owner := { Id := found.OwnerId, Email := found.Email }
    CloudMapping :=
      { ReservationId := found.Uuid
        ChoreoCloud := found.ChoreoCloud
        AsgardioCloud := found.AsgardioCloud
        BallerinaCloud := found.BallerinaCloud } }

/-- What the joined query answers on a store. -/
def ownLookup (s : Store) (orgName ownerEmail : String) : Option OrgReservationMapping :=
  ((crossJoin s).find? (joinWhere orgName ownerEmail)).map fun t => joinRecord (joinColumns t)

/-- What `GetOrgReservationByOrgNameQuery` answers on a store. -/
def nameLookup (s : Store) (orgName : String) : Option OrgReservation :=
  s.orgs.find? fun org => org.OrganizationName == orgName

/-- What `GetOwnerByEmailQuery` answers on a store. -/
def ownerLookup (s : Store) (email : String) : Option Owner :=
  s.owners.find? fun o => o.Email == email

/-- The `switch` of `CreateNewOrgReservation`. -/
def setCloud (key : String) (c : CloudReservation) : CloudReservation :=
  if key = ChoreoKey then { c with ChoreoCloud := true }
  else if key = AsgardioKey then { c with AsgardioCloud := true }
  else if key = BallerinaKey then { c with BallerinaCloud := true }
  else c

/-- The `switch` of `DeleteReservationsOfOwner`. -/
def clearCloud (key : String) (c : CloudReservation) : CloudReservation :=
  if key = ChoreoKey then { c with ChoreoCloud := false }
  else if key = AsgardioKey then { c with AsgardioCloud := false }
  else if key = BallerinaKey then { c with BallerinaCloud := false }
  else c

/-- The table `MAPPED_CLOUDS` after `UpdateOrgCloudMappingByIdQuery`. -/
def updateClouds (cloud : CloudReservation) (l : List CloudReservation) : List CloudReservation :=
  l.map fun c =>
    if c.ReservationId == cloud.ReservationId then
      { c with
        ChoreoCloud := cloud.ChoreoCloud
        AsgardioCloud := cloud.AsgardioCloud
        BallerinaCloud := cloud.BallerinaCloud }
    else c

/-- The owner a new reservation is entered under. -/
def resolveOwner (s : Store) (newOwnerId email : String) : Owner :=
  match ownerLookup s email with
  | some o => o
  | none => { Id := newOwnerId, Email := email }

/-- The store after the inserts of a successful new reservation. -/
def storeAfterCreate (s : Store) (newOwnerId newUuid : String) (p : OrgReservationPayload) :
    Store :=
  { owners :=
      match ownerLookup s p.OwnerEmail with
      | some _ => s.owners
      | none => s.owners ++ [{ Id := newOwnerId, Email := p.OwnerEmail }]
    orgs := s.orgs ++
      [{ Uuid := newUuid
         OrganizationName := p.OrganizationName
         OwnerId := (resolveOwner s newOwnerId p.OwnerEmail).Id }]
    clouds := s.clouds ++ [{ setCloud p.CloudService {} with ReservationId := newUuid }] }

/-- The statements of a successful new reservation. -/
def callsOfCreate (s : Store) (newOwnerId newUuid : String) (p : OrgReservationPayload) :
    List Call :=
  [.GetOrgReservationByNameAndEmail p.OrganizationName p.OwnerEmail,
   .GetOrgReservationByName p.OrganizationName,
   .GetOwnerByEmail p.OwnerEmail] ++
  (match ownerLookup s p.OwnerEmail with
    | some _ => []
    | none => [.InsertNewOwner { Id := newOwnerId, Email := p.OwnerEmail }]) ++
  [.InsertNewOrgReservation
      { Uuid := newUuid
        OrganizationName := p.OrganizationName
        OwnerId := (resolveOwner s newOwnerId p.OwnerEmail).Id },
   .InsertNewCloudMappingEntry { setCloud p.CloudService {} with ReservationId := newUuid }]

/-- The mapping a successful new reservation returns. -/
def createdMapping (s : Store) (newOwnerId newUuid : String) (p : OrgReservationPayload) :
    OrgReservationMapping :=
  { Owner := resolveOwner s newOwnerId p.OwnerEmail
    OrgReservation :=
      { Uuid := newUuid
        OrganizationName := p.OrganizationName
        OwnerId := (resolveOwner s newOwnerId p.OwnerEmail).Id }
    CloudMapping := { setCloud p.CloudService {} with ReservationId := newUuid } }

/-- The effect of `UpdateOrgCloudMappingByIdQuery` on one record of the join. -/
def updateRecord (cloud : CloudReservation) (m : OrgReservationMapping) :
    OrgReservationMapping :=
  if m.OrgReservation.Uuid = cloud.ReservationId then
    { m with
      CloudMapping :=
        { m.CloudMapping with
          ChoreoCloud := cloud.ChoreoCloud
          AsgardioCloud := cloud.AsgardioCloud
          BallerinaCloud := cloud.BallerinaCloud } }
  else m

/-- A store in which `a@x.com` holds `AcmeCorp` in the Choreo cloud. -/
def acmeStore : Store :=
  { owners := [{ Id := "o1", Email := "a@x.com" }]
    orgs := [{ Uuid := "u1", OrganizationName := "AcmeCorp", OwnerId := "o1" }]
    clouds := [{ ReservationId := "u1", ChoreoCloud := true }] }

/-- The table `ORGANIZATION_RESERVATION` after `UpdateOrgReservationByIdQuery`. -/
def updateOrgOwner (uuid ownerId : String) (l : List OrgReservation) : List OrgReservation :=
  l.map fun org => if org.Uuid == uuid then { org with OwnerId := ownerId } else org

/-- The store after the writes of a successful transfer. -/
def storeAfterTransfer (s : Store) (newOwnerId newEmail uuid : String) : Store :=
  { owners :=
      match ownerLookup s newEmail with
      | some _ => s.owners
      | none => s.owners ++ [{ Id := newOwnerId, Email := newEmail }]
    orgs := updateOrgOwner uuid (resolveOwner s newOwnerId newEmail).Id s.orgs
    clouds := s.clouds }

/-- The statements of a successful transfer. -/
def callsOfTransfer (s : Store) (newOwnerId currentMail newEmail name uuid : String) :
    List Call :=
  [.GetOrgReservationByNameAndEmail name currentMail, .GetOwnerByEmail newEmail] ++
  (match ownerLookup s newEmail with
    | some _ => [.GetOwnerByEmail newEmail]
    | none => [.InsertNewOwner { Id := newOwnerId, Email := newEmail }]) ++
  [.UpdateOrgReservationById uuid (resolveOwner s newOwnerId newEmail).Id,
   .GetOrgReservationByName name]

/-- A store in which `a@x.com` holds `AcmeCorp` and `b@x.com` holds `Globex`. -/
def twoOwnersStore : Store :=
  { owners := [{ Id := "o1", Email := "a@x.com" }, { Id := "o2", Email := "b@x.com" }]
    orgs := [{ Uuid := "u1", OrganizationName := "AcmeCorp", OwnerId := "o1" },
      { Uuid := "u2", OrganizationName := "Globex", OwnerId := "o2" }]
    clouds := [{ ReservationId := "u1", ChoreoCloud := true, AsgardioCloud := true },
      { ReservationId := "u2", BallerinaCloud := true }] }

/-- The cloud mapping `f` with the flag of `key` set to false. -/
def withoutFlag (key : String) (f : CloudReservation) : CloudReservation :=
  { ReservationId := f.ReservationId
    ChoreoCloud := f.ChoreoCloud && !decide (key = ChoreoKey)
    AsgardioCloud := f.AsgardioCloud && !decide (key = AsgardioKey)
    BallerinaCloud := f.BallerinaCloud && !decide (key = BallerinaKey) }

/-- The gateway after `a@x.com` has reserved `AcmeCorp` with the key `"CH"` on the
empty store. -/
def acmeCreated : Gateway :=
  { store := acmeStore
    calls :=
      [.GetOrgReservationByNameAndEmail "AcmeCorp" "a@x.com",
       .GetOrgReservationByName "AcmeCorp",
       .GetOwnerByEmail "a@x.com",
       .InsertNewOwner { Id := "o1", Email := "a@x.com" },
       .InsertNewOrgReservation { Uuid := "u1", OrganizationName := "AcmeCorp", OwnerId := "o1" },
       .InsertNewCloudMappingEntry { ReservationId := "u1", ChoreoCloud := true }] }

/-- Whether some `OWNER` row with the email `email` has the id `org.OwnerId`. -/
def ownedBy (s : Store) (email : String) (org : OrgReservation) : Bool :=
  s.owners.any fun o => o.Id == org.OwnerId && o.Email == email

/-- The keys of the active flags of a cloud mapping. -/
def activeKeys (f : CloudReservation) : List String :=
  (if f.ChoreoCloud then [ChoreoKey] else [])
    ++ (if f.AsgardioCloud then [AsgardioKey] else [])
    ++ (if f.BallerinaCloud then [BallerinaKey] else [])

/-- One call of `DeleteReservationsOfOwner` for each key of the list, in order;
the results of the calls and the gateway after the last one. -/
def retractEach (F : Faults) (email name : String) :
    List String → Gateway → List (Outcome (Option GoError)) × Gateway
  | [], g => ([], g)
  | key :: keys, g =>
    let r := DeleteReservationsOfOwner F email { OrganizationName := name, CloudService := key } g
    let rest := retractEach F email name keys r.2
    (r.1 :: rest.1, rest.2)

/-- Whether all three flags are false. -/
def noFlag (f : CloudReservation) : Bool :=
  !f.ChoreoCloud && !f.AsgardioCloud && !f.BallerinaCloud

/-- The gateway on which statement number `n` fails with `err` and every other
statement is executed. -/
def failAt (n : Nat) (err : GoError) : Faults := fun k => if k = n then some err else none

/-- Lines 98 to 144 of `mapper.go`: the owner is resolved and the reservation and
its cloud mapping are inserted. -/
def createEntries (F : Faults) (newOwnerId newUuid : String) (payload : OrgReservationPayload)
    (newCloudMapping : CloudReservation) (g2 : Gateway) :
    Outcome (Option OrgReservationMapping × Option GoError) × Gateway :=
  match GetOwnerByEmail F payload.OwnerEmail g2 with
  | ((_, some errr), g3) => (.value (none, some errr), g3)
  | ((found, none), g3) =>
    let resolved : Option GoError × Owner × Gateway :=
      match found with
      | none =>
        let ownerObj : Owner := { Id := newOwnerId, Email := payload.OwnerEmail }
        match InsertNewOwner F ownerObj g3 with
        | ((_, some err), g4) => (some err, ownerObj, g4)
        | ((_, none), g4) => (none, ownerObj, g4)
      | some o => (none, o, g3)
    match resolved with
    | (some err, _, g4) => (.value (none, some err), g4)
    | (none, ownerObj, g4) =>
      let reservationObj : OrgReservation :=
        { Uuid := newUuid
          OrganizationName := payload.OrganizationName
          OwnerId := ownerObj.Id }
      match InsertNewOrgReservation F reservationObj g4 with
      | ((_, some err), g5) => (.value (none, some err), g5)
      | ((_, none), g5) =>
        let newCloudMapping1 : CloudReservation :=
          { newCloudMapping with ReservationId := reservationObj.Uuid }
        match InsertNewCloudMappingEntry F newCloudMapping1 g5 with
        | ((_, some err1), g6) => (.value (none, some err1), g6)
        | ((_, none), g6) =>
          (.value
            (some
              { Owner := ownerObj
                OrgReservation := reservationObj
                CloudMapping := newCloudMapping1 }, none), g6)

/-- `CreateNewOrgReservation` together with the line of `mapper.go` that holds the
`return` statement the call leaves by (0 when it panics instead). -/
def CreateNewOrgReservationTraced (F : Faults) (newOwnerId newUuid : String)
    (payload : OrgReservationPayload) (g : Gateway) :
    Nat × Outcome (Option OrgReservationMapping × Option GoError) × Gateway :=
  if !validateEmail payload.OwnerEmail then
    (49, .value (none, some (Newf Error_INVALID_REQUEST none "Email is invalid")), g)
  else if !validateOrgName payload.OrganizationName then
    (55, .value (none,
      some (Newf Error_INVALID_REQUEST none
        "Organization reservation should contain only alpha numeric characters")), g)
  else
    match GetOwnReservationWithNameAndMail F payload.OrganizationName payload.OwnerEmail g with
    | ((_, _, some error), g1) => (61, .value (none, some error), g1)
    | ((ownReservation, owned, none), g1) =>
      let cloudMappingEntry : CloudReservation :=
        match ownReservation with
        | some r => r.CloudMapping
        | none => {}
      let newCloudMapping : CloudReservation :=
        if payload.CloudService = ChoreoKey then { cloudMappingEntry with ChoreoCloud := true }
        else if payload.CloudService = AsgardioKey then
          { cloudMappingEntry with AsgardioCloud := true }
        else if payload.CloudService = BallerinaKey then
          { cloudMappingEntry with BallerinaCloud := true }
        else cloudMappingEntry
      if owned then
        if newCloudMapping = cloudMappingEntry then (82, .value (ownReservation, none), g1)
        else
          match UpdateCloudMappingById F newCloudMapping g1 with
          | (some err, g2) => (87, .value (none, some err), g2)
          | (none, g2) =>
            match ownReservation with
            | none => (0, .panic, g2)
            | some r => (90, .value (some { r with CloudMapping := newCloudMapping }, none), g2)
      else
        match GetOrgReservationByOrgName F payload.OrganizationName g1 with
        | ((_, err), g2) =>
          if !Is err Error_DUPLICATE_RESERVATION then
            match GetOwnerByEmail F payload.OwnerEmail g2 with
            | ((_, some errr), g3) => (102, .value (none, some errr), g3)
            | ((found, none), g3) =>
              let resolved : Option GoError × Owner × Gateway :=
                match found with
                | none =>
                  let ownerObj : Owner := { Id := newOwnerId, Email := payload.OwnerEmail }
                  match InsertNewOwner F ownerObj g3 with
                  | ((_, some err), g4) => (some err, ownerObj, g4)
                  | ((_, none), g4) => (none, ownerObj, g4)
                | some o => (none, o, g3)
              match resolved with
              | (some err, _, g4) => (111, .value (none, some err), g4)
              | (none, ownerObj, g4) =>
                let reservationObj : OrgReservation :=
                  { Uuid := newUuid
                    OrganizationName := payload.OrganizationName
                    OwnerId := ownerObj.Id }
                match InsertNewOrgReservation F reservationObj g4 with
                | ((_, some err), g5) => (127, .value (none, some err), g5)
                | ((_, none), g5) =>
                  let newCloudMapping1 : CloudReservation :=
                    { newCloudMapping with ReservationId := reservationObj.Uuid }
                  match InsertNewCloudMappingEntry F newCloudMapping1 g5 with
                  | ((_, some err1), g6) => (136, .value (none, some err1), g6)
                  | ((_, none), g6) =>
                    (140, .value
                      (some
                        { Owner := ownerObj
                          OrgReservation := reservationObj
                          CloudMapping := newCloudMapping1 }, none), g6)
          else if err.isSome then (146, .value (none, err), g2)
          else (148, .value (none, err), g2)

/-- The number of the statement `InsertNewOrgReservation` in a call of
`CreateNewOrgReservation` on `g` for a free name: it follows the two lookups, the
`GetOwnerByEmail` and, when no owner has the email, the `InsertNewOwner`. -/
def insertReservationIndex (g : Gateway) (email : String) : Nat :=
  g.calls.length + (if (ownerLookup g.store email).isSome then 3 else 4)

/-- An error of the SQL driver for a violated unique key. The driver is not part
of the sources; its errors are neither a `*serviceError` nor carry a gRPC status,
so `FromError` reaches its last `return`. -/
def duplicateEntry : GoError :=
  .other "Error 1062: Duplicate entry AcmeCorp for key ORGANIZATION_NAME"

/-- No two rows of `OWNER` have the same `EMAIL`. -/
def Store.uniqueEmails (s : Store) : Prop := (s.owners.map fun o => o.Email).Nodup

instance (s : Store) : Decidable s.uniqueEmails := by
  unfold Store.uniqueEmails; infer_instance

/-- A call of one of the three writing operations of the engine, with its
arguments and with the values `uuid.NewString()` returns during the call. -/
inductive Op where
  | create (newOwnerId newUuid : String) (payload : OrgReservationPayload)
  | update (newOwnerId currentMail : String) (payload : MappingUpdatePayload)
  | delete (email : String) (payload : ReservationDeletePayload)
  deriving DecidableEq, Repr

/-- The gateway after the call. -/
def Op.run (F : Faults) : Op → Gateway → Gateway
  | .create newOwnerId newUuid payload, g =>
    (CreateNewOrgReservation F newOwnerId newUuid payload g).2
  | .update newOwnerId currentMail payload, g =>
    (UpdateOrgMapping F newOwnerId currentMail payload g).2
  | .delete email payload, g => (DeleteReservationsOfOwner F email payload g).2

/-- The gateway after a sequence of calls, the first of the list first. -/
def runOps (F : Faults) : List Op → Gateway → Gateway
  | [], g => g
  | op :: ops, g => runOps F ops (op.run F g)

/-- Whether the uuid drawn for the reservation of a `CreateNewOrgReservation` is
not the uuid of a stored reservation. -/
def Op.fresh : Op → Gateway → Bool
  | .create _ newUuid _, g => !(g.store.orgs.any fun r => r.Uuid == newUuid)
  | .update _ _ _, _ => true
  | .delete _ _, _ => true

/-- Whether every uuid drawn for a reservation in the sequence of calls is fresh at
the time of its call. -/
def freshRun (F : Faults) : List Op → Gateway → Bool
  | [], _ => true
  | op :: ops, g => op.fresh g && freshRun F ops (op.run F g)

/-- Whether the cloud key of a `CreateNewOrgReservation` is one of the three keys
of the `switch`. -/
def Op.keyKnown : Op → Bool
  | .create _ _ payload =>
    payload.CloudService == ChoreoKey || payload.CloudService == AsgardioKey
      || payload.CloudService == BallerinaKey
  | .update _ _ _ => true
  | .delete _ _ => true

/-- Every row of `MAPPED_CLOUDS` belongs to a row of `ORGANIZATION_RESERVATION`. -/
def Store.cloudsHaveParent (s : Store) : Prop :=
  ∀ c ∈ s.clouds, ∃ r ∈ s.orgs, r.Uuid = c.ReservationId

/-- No two rows of `MAPPED_CLOUDS` have the same `RESERVATION_ID`: a reservation
has at most one cloud mapping. -/
def Store.uniqueCloudIds (s : Store) : Prop := (s.clouds.map fun c => c.ReservationId).Nodup

/-- A sequence of calls: `a@x.com` reserves `AcmeCorp` with `"CH"`, extends it with
`"AG"`, retracts `"CH"`, and `b@x.com` reserves `Globex` with `"BL"`. -/
def sampleOps : List Op :=
  [.create "o1" "u1"
    { OrganizationName := "AcmeCorp", OwnerEmail := "a@x.com", CloudService := "CH" },
   .create "o9" "u9"
    { OrganizationName := "AcmeCorp", OwnerEmail := "a@x.com", CloudService := "AG" },
   .delete "a@x.com" { OrganizationName := "AcmeCorp", CloudService := "CH" },
   .create "o2" "u2"
    { OrganizationName := "Globex", OwnerEmail := "b@x.com", CloudService := "BL" }]

/-- The characters of an organization name, stated without the pattern: an ASCII
letter, an ASCII digit or the underscore. -/
def isNameChar (c : Char) : Bool := c.isAlpha || c.isDigit || c == '_'

/-- ASCII punctuation other than the underscore, by code point. -/
def isOtherPunctuation (c : Char) : Bool :=
  (decide (33 ≤ c.toNat ∧ c.toNat ≤ 47) || decide (58 ≤ c.toNat ∧ c.toNat ≤ 64)
    || decide (91 ≤ c.toNat ∧ c.toNat ≤ 96) || decide (123 ≤ c.toNat ∧ c.toNat ≤ 126))
    && !(c == '_')

/-- The characters of the local part of an email, stated without the pattern: a
lowercase ASCII letter, an ASCII digit or one of `.`, `_`, `%`, `+`, `-`. -/
def isLocalChar (c : Char) : Bool :=
  c.isLower || c.isDigit || c == '.' || c == '_' || c == '%' || c == '+' || c == '-'

/-- The characters of the domain of an email, stated without the pattern: a
lowercase ASCII letter, an ASCII digit or one of `.`, `-`. -/
def isDomainChar (c : Char) : Bool := c.isLower || c.isDigit || c == '.' || c == '-'

/-- Two repositories, the first holding the reservation `AcmeCorp` of `a@x.com`, the
second empty, before any service is built. -/
def acmeAndEmpty : Package := { repositories := [{ store := acmeStore }, {}] }

/-- The service built on the first of the repositories of `acmeAndEmpty`. -/
def firstService : Service := (NewOrgReservationService 0 acmeAndEmpty).1

/-- The package after `firstService` was built. -/
def afterFirst : Package := (NewOrgReservationService 0 acmeAndEmpty).2

/-! ## Lemmas -/

theorem head?_filter_eq_find? {α : Type} (p : α → Bool) (l : List α) :
    (l.filter p).head? = l.find? p := by
  induction l with
  | nil => rfl
  | cons a l ih =>
    by_cases h : p a <;> simp [List.filter, List.find?, h, ih]

theorem repo_own_noFaults (orgName ownerEmail : String) (g : Gateway) :
    GetOrgReservationByNameAndEmail noFaults orgName ownerEmail g
      = ((ownLookup g.store orgName ownerEmail, none),
          g.record (.GetOrgReservationByNameAndEmail orgName ownerEmail)) := by
  unfold GetOrgReservationByNameAndEmail ownLookup GetOrgReservationByOwnerEmailAndOrgNameQuery
  simp only [noFaults, List.head?_map, head?_filter_eq_find?]
  cases (crossJoin g.store).find? (joinWhere orgName ownerEmail) <;> rfl

theorem repo_name_noFaults (orgName : String) (g : Gateway) :
    GetOrgReservationByName noFaults orgName g
      = ((nameLookup g.store orgName, none), g.record (.GetOrgReservationByName orgName)) := by
  unfold GetOrgReservationByName nameLookup GetOrgReservationByOrgNameQuery
  simp only [noFaults, head?_filter_eq_find?]
  cases g.store.orgs.find? _ <;> rfl

theorem repo_owner_noFaults (email : String) (g : Gateway) :
    GetOwnerByEmail noFaults email g
      = ((ownerLookup g.store email, none), g.record (.GetOwnerByEmail email)) := by
  unfold GetOwnerByEmail ownerLookup GetOwnerByEmailQuery
  simp only [noFaults, head?_filter_eq_find?]
  cases g.store.owners.find? _ <;> rfl

theorem service_own_noFaults (orgName ownerEmail : String) (g : Gateway)
    (hmail : validateEmail ownerEmail = true) :
    GetOwnReservationWithNameAndMail noFaults orgName ownerEmail g
      = ((ownLookup g.store orgName ownerEmail, (ownLookup g.store orgName ownerEmail).isSome,
            none),
          g.record (.GetOrgReservationByNameAndEmail orgName ownerEmail)) := by
  unfold GetOwnReservationWithNameAndMail
  rw [repo_own_noFaults]
  simp only [hmail]
  cases ownLookup g.store orgName ownerEmail <;> rfl


theorem create_owned_same (newOwnerId newUuid : String) (p : OrgReservationPayload)
    (g : Gateway) (m : OrgReservationMapping)
    (hmail : validateEmail p.OwnerEmail = true) (hname : validateOrgName p.OrganizationName = true)
    (hown : ownLookup g.store p.OrganizationName p.OwnerEmail = some m)
    (hsame : setCloud p.CloudService m.CloudMapping = m.CloudMapping) :
    CreateNewOrgReservation noFaults newOwnerId newUuid p g
      = (.value (some m, none),
          g.record (.GetOrgReservationByNameAndEmail p.OrganizationName p.OwnerEmail)) := by
  unfold CreateNewOrgReservation
  rw [service_own_noFaults _ _ _ hmail, hown]
  unfold setCloud at hsame
  simp only [hmail, hname, Option.isSome_some, hsame]
  simp

theorem create_owned_changed (newOwnerId newUuid : String) (p : OrgReservationPayload)
    (g : Gateway) (m : OrgReservationMapping)
    (hmail : validateEmail p.OwnerEmail = true) (hname : validateOrgName p.OrganizationName = true)
    (hown : ownLookup g.store p.OrganizationName p.OwnerEmail = some m)
    (hdiff : setCloud p.CloudService m.CloudMapping ≠ m.CloudMapping) :
    CreateNewOrgReservation noFaults newOwnerId newUuid p g
      = (.value (some { m with CloudMapping := setCloud p.CloudService m.CloudMapping }, none),
          { store :=
              { g.store with
                clouds := updateClouds (setCloud p.CloudService m.CloudMapping) g.store.clouds }
            calls := g.calls ++
              [.GetOrgReservationByNameAndEmail p.OrganizationName p.OwnerEmail,
               .UpdateCloudMappingById (setCloud p.CloudService m.CloudMapping)] }) := by
  unfold CreateNewOrgReservation
  rw [service_own_noFaults _ _ _ hmail, hown]
  unfold setCloud at hdiff
  simp only [hmail, hname, Option.isSome_some, hdiff]
  simp [UpdateCloudMappingById, noFaults, Gateway.record, updateClouds, setCloud]


@[simp] theorem record_store (g : Gateway) (c : Call) : (g.record c).store = g.store := rfl

@[simp] theorem record_calls (g : Gateway) (c : Call) : (g.record c).calls = g.calls ++ [c] := rfl

theorem Is_Newf (code : ErrorCode) (msg : String) : Is (some (Newf code none msg)) code = true := by
  simp [Is, FromError, Newf, New]

theorem Is_none (code : ErrorCode) : Is none code = false := rfl

theorem service_name_taken (orgName : String) (g : Gateway) (r : OrgReservation)
    (h : nameLookup g.store orgName = some r) :
    GetOrgReservationByOrgName noFaults orgName g
      = ((none,
          some (Newf Error_DUPLICATE_RESERVATION none
            (orgName ++ " is already reserved by another user"))),
          g.record (.GetOrgReservationByName orgName)) := by
  unfold GetOrgReservationByOrgName
  rw [repo_name_noFaults, h]
  rfl

theorem service_name_free (orgName : String) (g : Gateway)
    (h : nameLookup g.store orgName = none) :
    GetOrgReservationByOrgName noFaults orgName g
      = ((none, none), g.record (.GetOrgReservationByName orgName)) := by
  unfold GetOrgReservationByOrgName
  rw [repo_name_noFaults, h]
  rfl

theorem create_taken (newOwnerId newUuid : String) (p : OrgReservationPayload)
    (g : Gateway) (r : OrgReservation)
    (hmail : validateEmail p.OwnerEmail = true) (hname : validateOrgName p.OrganizationName = true)
    (hown : ownLookup g.store p.OrganizationName p.OwnerEmail = none)
    (htaken : nameLookup g.store p.OrganizationName = some r) :
    CreateNewOrgReservation noFaults newOwnerId newUuid p g
      = (.value (none,
            some (Newf Error_DUPLICATE_RESERVATION none
              (p.OrganizationName ++ " is already reserved by another user"))),
          { store := g.store
            calls := g.calls ++
              [.GetOrgReservationByNameAndEmail p.OrganizationName p.OwnerEmail,
               .GetOrgReservationByName p.OrganizationName] }) := by
  unfold CreateNewOrgReservation
  rw [service_own_noFaults _ _ _ hmail, hown]
  simp only [hmail, hname, Option.isSome_none]
  rw [service_name_taken _ _ r (by simpa using htaken)]
  simp only [Is_Newf]
  simp [Gateway.record]

theorem create_free (newOwnerId newUuid : String) (p : OrgReservationPayload)
    (g : Gateway)
    (hmail : validateEmail p.OwnerEmail = true) (hname : validateOrgName p.OrganizationName = true)
    (hown : ownLookup g.store p.OrganizationName p.OwnerEmail = none)
    (hfree : nameLookup g.store p.OrganizationName = none) :
    CreateNewOrgReservation noFaults newOwnerId newUuid p g
      = (.value (some (createdMapping g.store newOwnerId newUuid p), none),
          { store := storeAfterCreate g.store newOwnerId newUuid p
            calls := g.calls ++ callsOfCreate g.store newOwnerId newUuid p }) := by
  unfold CreateNewOrgReservation
  rw [service_own_noFaults _ _ _ hmail, hown]
  simp only [hmail, hname, Option.isSome_none]
  rw [service_name_free _ _ (by simpa using hfree)]
  simp only [Is_none, repo_owner_noFaults, record_store]
  unfold createdMapping storeAfterCreate callsOfCreate resolveOwner
  cases hO : ownerLookup g.store p.OwnerEmail with
  | none =>
    simp [InsertNewOwner, InsertNewOrgReservation, InsertNewCloudMappingEntry, noFaults,
      Gateway.record, setCloud]
  | some o =>
    simp [InsertNewOwner, InsertNewOrgReservation, InsertNewCloudMappingEntry, noFaults,
      Gateway.record, setCloud]


theorem mem_crossJoin (s : Store) (t : OrgReservation × Owner × CloudReservation) :
    t ∈ crossJoin s ↔ t.1 ∈ s.orgs ∧ t.2.1 ∈ s.owners ∧ t.2.2 ∈ s.clouds := by
  obtain ⟨r, o, c⟩ := t
  simp only [crossJoin, List.mem_flatMap, List.mem_map, Prod.mk.injEq]
  constructor
  · rintro ⟨r1, hr, o1, ho, c1, hc, rfl, rfl, rfl⟩
    exact ⟨hr, ho, hc⟩
  · rintro ⟨hr, ho, hc⟩
    exact ⟨r, hr, o, ho, c, hc, rfl, rfl, rfl⟩

theorem joinWhere_iff (orgName ownerEmail : String)
    (t : OrgReservation × Owner × CloudReservation) :
    joinWhere orgName ownerEmail t = true ↔
      t.1.OwnerId = t.2.1.Id ∧ t.1.Uuid = t.2.2.ReservationId
        ∧ t.1.OrganizationName = orgName ∧ t.2.1.Email = ownerEmail := by
  simp [joinWhere, and_assoc]

theorem ownLookup_some {s : Store} {orgName ownerEmail : String} {m : OrgReservationMapping}
    (h : ownLookup s orgName ownerEmail = some m) :
    ∃ r o c, r ∈ s.orgs ∧ o ∈ s.owners ∧ c ∈ s.clouds ∧ r.OwnerId = o.Id
      ∧ r.Uuid = c.ReservationId ∧ r.OrganizationName = orgName ∧ o.Email = ownerEmail
      ∧ m = joinRecord (joinColumns (r, o, c)) := by
  unfold ownLookup at h
  cases hf : (crossJoin s).find? (joinWhere orgName ownerEmail) with
  | none => simp [hf] at h
  | some t =>
    rw [hf] at h
    obtain ⟨r, o, c⟩ := t
    have hmem := (mem_crossJoin s _).1 (List.mem_of_find?_eq_some hf)
    have hw := (joinWhere_iff _ _ _).1 (List.find?_some hf)
    simp only [Option.map_some', Option.some.injEq] at h
    exact ⟨r, o, c, hmem.1, hmem.2.1, hmem.2.2, hw.1, hw.2.1, hw.2.2.1, hw.2.2.2, h.symm⟩

theorem ownLookup_eq_none {s : Store} {orgName ownerEmail : String} :
    ownLookup s orgName ownerEmail = none ↔
      ∀ r ∈ s.orgs, ∀ o ∈ s.owners, ∀ c ∈ s.clouds,
        ¬ (r.OwnerId = o.Id ∧ r.Uuid = c.ReservationId ∧ r.OrganizationName = orgName
          ∧ o.Email = ownerEmail) := by
  unfold ownLookup
  rw [Option.map_eq_none', List.find?_eq_none]
  constructor
  · intro h r hr o ho c hc hw
    exact h (r, o, c) ((mem_crossJoin s _).2 ⟨hr, ho, hc⟩) ((joinWhere_iff _ _ _).2 hw)
  · intro h t ht hw
    have hmem := (mem_crossJoin s _).1 ht
    exact h t.1 hmem.1 t.2.1 hmem.2.1 t.2.2 hmem.2.2 ((joinWhere_iff _ _ _).1 hw)

/-- A lookup that is determined: some row matches and all matching rows give the
same record. -/
theorem ownLookup_eq_some_of_forall {s : Store} {orgName ownerEmail : String}
    {m : OrgReservationMapping}
    (hex : ∃ t ∈ crossJoin s, joinWhere orgName ownerEmail t = true)
    (hall : ∀ t ∈ crossJoin s, joinWhere orgName ownerEmail t = true →
      joinRecord (joinColumns t) = m) :
    ownLookup s orgName ownerEmail = some m := by
  unfold ownLookup
  cases hf : (crossJoin s).find? (joinWhere orgName ownerEmail) with
  | none =>
    obtain ⟨t, ht, hw⟩ := hex
    exact absurd hw (List.find?_eq_none.1 hf t ht)
  | some t =>
    simp only [Option.map_some', Option.some.injEq]
    exact hall t (List.mem_of_find?_eq_some hf) (List.find?_some hf)

theorem nameLookup_eq_none {s : Store} {orgName : String} :
    nameLookup s orgName = none ↔ ∀ r ∈ s.orgs, r.OrganizationName ≠ orgName := by
  simp [nameLookup]

theorem nameLookup_isSome_of_mem {s : Store} {orgName : String} {r : OrgReservation}
    (hr : r ∈ s.orgs) (hn : r.OrganizationName = orgName) :
    ∃ r1, nameLookup s orgName = some r1 := by
  cases h : nameLookup s orgName with
  | none => exact absurd hn (nameLookup_eq_none.1 h r hr)
  | some r1 => exact ⟨r1, rfl⟩

theorem ownLookup_cloud_id {s : Store} {orgName ownerEmail : String} {m : OrgReservationMapping}
    (h : ownLookup s orgName ownerEmail = some m) :
    m.CloudMapping.ReservationId = m.OrgReservation.Uuid := by
  obtain ⟨r, o, c, -, -, -, -, -, -, -, rfl⟩ := ownLookup_some h
  rfl

theorem ownLookup_name {s : Store} {orgName ownerEmail : String} {m : OrgReservationMapping}
    (h : ownLookup s orgName ownerEmail = some m) :
    m.OrgReservation.OrganizationName = orgName ∧ m.Owner.Email = ownerEmail
      ∧ m.Owner.Id = m.OrgReservation.OwnerId := by
  obtain ⟨r, o, c, -, -, -, -, -, hn, he, rfl⟩ := ownLookup_some h
  exact ⟨hn, he, rfl⟩

theorem crossJoin_updateClouds (s : Store) (cloud : CloudReservation) :
    crossJoin { s with clouds := updateClouds cloud s.clouds }
      = (crossJoin s).map fun t => (t.1, t.2.1,
          if t.2.2.ReservationId == cloud.ReservationId then
            { t.2.2 with
              ChoreoCloud := cloud.ChoreoCloud
              AsgardioCloud := cloud.AsgardioCloud
              BallerinaCloud := cloud.BallerinaCloud }
          else t.2.2) := by
  simp only [crossJoin, updateClouds, List.map_flatMap, List.map_map]
  rfl

theorem ownLookup_updateClouds (s : Store) (cloud : CloudReservation)
    (orgName ownerEmail : String) :
    ownLookup { s with clouds := updateClouds cloud s.clouds } orgName ownerEmail
      = (ownLookup s orgName ownerEmail).map (updateRecord cloud) := by
  unfold ownLookup
  rw [crossJoin_updateClouds, List.find?_map]
  have hp : (joinWhere orgName ownerEmail ∘ fun t : OrgReservation × Owner × CloudReservation =>
      (t.1, t.2.1,
          if t.2.2.ReservationId == cloud.ReservationId then
            { t.2.2 with
              ChoreoCloud := cloud.ChoreoCloud
              AsgardioCloud := cloud.AsgardioCloud
              BallerinaCloud := cloud.BallerinaCloud }
          else t.2.2)) = joinWhere orgName ownerEmail := by
    funext t
    simp only [Function.comp, joinWhere]
    split <;> rfl
  rw [hp]
  cases hf : (crossJoin s).find? (joinWhere orgName ownerEmail) with
  | none => rfl
  | some t =>
    have hw := (joinWhere_iff _ _ _).1 (List.find?_some hf)
    simp only [Option.map_some', Option.some.injEq, updateRecord, joinRecord, joinColumns]
    by_cases hc : t.2.2.ReservationId = cloud.ReservationId
    · simp [hc, hw.2.1]
    · simp [hc, hw.2.1]


theorem setCloud_CH (c : CloudReservation) :
    setCloud ChoreoKey c = { c with ChoreoCloud := true } := by
  simp [setCloud]

theorem setCloud_AG (c : CloudReservation) :
    setCloud AsgardioKey c = { c with AsgardioCloud := true } := by
  simp [setCloud, ChoreoKey, AsgardioKey]

theorem setCloud_BL (c : CloudReservation) :
    setCloud BallerinaKey c = { c with BallerinaCloud := true } := by
  simp [setCloud, ChoreoKey, AsgardioKey, BallerinaKey]

theorem setCloud_other (key : String) (c : CloudReservation)
    (h1 : key ≠ ChoreoKey) (h2 : key ≠ AsgardioKey) (h3 : key ≠ BallerinaKey) :
    setCloud key c = c := by
  simp [setCloud, h1, h2, h3]

theorem setCloud_idem (key : String) (c : CloudReservation) :
    setCloud key (setCloud key c) = setCloud key c := by
  by_cases h1 : key = ChoreoKey
  · subst h1; simp [setCloud_CH]
  · by_cases h2 : key = AsgardioKey
    · subst h2; simp [setCloud_AG]
    · by_cases h3 : key = BallerinaKey
      · subst h3; simp [setCloud_BL]
      · simp [setCloud_other _ _ h1 h2 h3]

theorem setCloud_id (key : String) (c : CloudReservation) :
    (setCloud key c).ReservationId = c.ReservationId := by
  unfold setCloud
  split
  · rfl
  · split
    · rfl
    · split <;> rfl

theorem ownerLookup_some {s : Store} {email : String} {o : Owner}
    (h : ownerLookup s email = some o) : o ∈ s.owners ∧ o.Email = email := by
  unfold ownerLookup at h
  exact ⟨List.mem_of_find?_eq_some h, by simpa using List.find?_some h⟩

theorem resolveOwner_email (s : Store) (newOwnerId email : String) :
    (resolveOwner s newOwnerId email).Email = email := by
  unfold resolveOwner
  cases h : ownerLookup s email with
  | none => rfl
  | some o => exact (ownerLookup_some h).2

theorem resolveOwner_mem (s : Store) (newOwnerId newUuid : String) (p : OrgReservationPayload) :
    resolveOwner s newOwnerId p.OwnerEmail ∈ (storeAfterCreate s newOwnerId newUuid p).owners := by
  unfold resolveOwner storeAfterCreate
  cases h : ownerLookup s p.OwnerEmail with
  | none => simp
  | some o => exact (ownerLookup_some h).1

theorem ownLookup_storeAfterCreate (s : Store) (newOwnerId newUuid : String)
    (p : OrgReservationPayload)
    (hfree : nameLookup s p.OrganizationName = none)
    (hfresh : ∀ c ∈ s.clouds, c.ReservationId ≠ newUuid) :
    ownLookup (storeAfterCreate s newOwnerId newUuid p) p.OrganizationName p.OwnerEmail
      = some (createdMapping s newOwnerId newUuid p) := by
  have horgs : (storeAfterCreate s newOwnerId newUuid p).orgs
      = s.orgs ++ [(createdMapping s newOwnerId newUuid p).OrgReservation] := rfl
  have hclouds : (storeAfterCreate s newOwnerId newUuid p).clouds
      = s.clouds ++ [(createdMapping s newOwnerId newUuid p).CloudMapping] := rfl
  apply ownLookup_eq_some_of_forall
  · refine ⟨((createdMapping s newOwnerId newUuid p).OrgReservation,
              resolveOwner s newOwnerId p.OwnerEmail,
              (createdMapping s newOwnerId newUuid p).CloudMapping), ?_, ?_⟩
    · rw [mem_crossJoin]
      refine ⟨?_, resolveOwner_mem s newOwnerId newUuid p, ?_⟩
      · simp [horgs]
      · simp [hclouds]
    · rw [joinWhere_iff]
      exact ⟨rfl, rfl, rfl, resolveOwner_email _ _ _⟩
  · rintro ⟨r, o, c⟩ ht hw
    rw [mem_crossJoin] at ht
    rw [joinWhere_iff] at hw
    obtain ⟨hr, -, hc⟩ := ht
    obtain ⟨h1, h2, h3, h4⟩ := hw
    simp only at hr hc h1 h2 h3 h4
    have hr1 : r = (createdMapping s newOwnerId newUuid p).OrgReservation := by
      rw [horgs, List.mem_append, List.mem_singleton] at hr
      rcases hr with hr | hr
      · exact absurd h3 (nameLookup_eq_none.1 hfree r hr)
      · exact hr
    subst hr1
    have hc1 : c = (createdMapping s newOwnerId newUuid p).CloudMapping := by
      rw [hclouds, List.mem_append, List.mem_singleton] at hc
      rcases hc with hc | hc
      · exact absurd h2.symm (hfresh c hc)
      · exact hc
    subst hc1
    obtain ⟨oid, oemail⟩ := o
    simp only at h1 h4
    subst h4
    simp only [joinRecord, joinColumns, createdMapping] at h1 ⊢
    have he := resolveOwner_email s newOwnerId p.OwnerEmail
    generalize resolveOwner s newOwnerId p.OwnerEmail = ro at he h1 ⊢
    obtain ⟨i, e⟩ := ro
    simp only at he h1
    subst he h1
    rfl

theorem setCloud_withId (key newUuid : String) (c : CloudReservation) :
    setCloud key { setCloud key c with ReservationId := newUuid }
      = { setCloud key c with ReservationId := newUuid } := by
  by_cases h1 : key = ChoreoKey
  · subst h1; simp [setCloud_CH]
  · by_cases h2 : key = AsgardioKey
    · subst h2; simp [setCloud_AG]
    · by_cases h3 : key = BallerinaKey
      · subst h3; simp [setCloud_BL]
      · simp [setCloud_other _ _ h1 h2 h3]

theorem updateRecord_setCloud {s : Store} {orgName ownerEmail key : String}
    {m : OrgReservationMapping} (h : ownLookup s orgName ownerEmail = some m) :
    updateRecord (setCloud key m.CloudMapping) m
      = { m with CloudMapping := setCloud key m.CloudMapping } := by
  have hid := ownLookup_cloud_id h
  have hid2 := setCloud_id key m.CloudMapping
  unfold updateRecord
  rw [if_pos (by rw [hid2, hid])]
  generalize setCloud key m.CloudMapping = cl at hid2 ⊢
  obtain ⟨i, a, b, c⟩ := cl
  simp only at hid2
  subst hid2
  rfl

theorem create_valid_of_success {F : Faults} {newOwnerId newUuid : String}
    {p : OrgReservationPayload} {g g1 : Gateway} {m : OrgReservationMapping}
    (h : CreateNewOrgReservation F newOwnerId newUuid p g = (.value (some m, none), g1)) :
    validateEmail p.OwnerEmail = true ∧ validateOrgName p.OrganizationName = true := by
  unfold CreateNewOrgReservation at h
  by_cases hmail : validateEmail p.OwnerEmail = true
  · by_cases hname : validateOrgName p.OrganizationName = true
    · exact ⟨hmail, hname⟩
    · simp [hmail, hname] at h
  · simp [hmail] at h

theorem setCloud_flags (key : String) (c : CloudReservation) :
    (setCloud key c).ChoreoCloud = (c.ChoreoCloud || decide (key = ChoreoKey))
      ∧ (setCloud key c).AsgardioCloud = (c.AsgardioCloud || decide (key = AsgardioKey))
      ∧ (setCloud key c).BallerinaCloud = (c.BallerinaCloud || decide (key = BallerinaKey)) := by
  by_cases h1 : key = ChoreoKey
  · subst h1; rw [setCloud_CH]; simp [ChoreoKey, AsgardioKey, BallerinaKey]
  · by_cases h2 : key = AsgardioKey
    · subst h2; rw [setCloud_AG]; simp [ChoreoKey, AsgardioKey, BallerinaKey]
    · by_cases h3 : key = BallerinaKey
      · subst h3; rw [setCloud_BL]; simp [ChoreoKey, AsgardioKey, BallerinaKey]
      · simp [setCloud_other _ _ h1 h2 h3, h1, h2, h3]

theorem insert_owner_noFaults (entry : Owner) (g : Gateway) :
    InsertNewOwner noFaults entry g
      = ((some entry, none),
          { store := { g.store with owners := g.store.owners ++ [entry] }
            calls := g.calls ++ [.InsertNewOwner entry] }) := rfl

theorem update_org_noFaults (uuid ownerId : String) (g : Gateway) :
    UpdateOrgReservationById noFaults uuid ownerId g
      = (none,
          { store := { g.store with orgs := updateOrgOwner uuid ownerId g.store.orgs }
            calls := g.calls ++ [.UpdateOrgReservationById uuid ownerId] }) := rfl

theorem update_not_found (newOwnerId currentMail : String) (payload : MappingUpdatePayload)
    (g : Gateway)
    (hname : validateOrgName payload.OrganizationName = true)
    (hnew : validateEmail payload.NewOwnersEmail = true)
    (hcur : validateEmail currentMail = true)
    (hown : ownLookup g.store payload.OrganizationName currentMail = none) :
    UpdateOrgMapping noFaults newOwnerId currentMail payload g
      = (.value (none,
            some (Newf Error_NOT_FOUND none
              ("Cannot find a reservation mapping with " ++ payload.OrganizationName
                ++ " reservation name"))),
          g.record (.GetOrgReservationByNameAndEmail payload.OrganizationName currentMail)) := by
  unfold UpdateOrgMapping
  rw [service_own_noFaults _ _ _ hcur, hown]
  simp only [hname, hnew, Option.isSome_none]
  rfl

theorem update_found (newOwnerId currentMail : String) (payload : MappingUpdatePayload)
    (g : Gateway) (m : OrgReservationMapping) (u : OrgReservation)
    (hname : validateOrgName payload.OrganizationName = true)
    (hnew : validateEmail payload.NewOwnersEmail = true)
    (hcur : validateEmail currentMail = true)
    (hown : ownLookup g.store payload.OrganizationName currentMail = some m)
    (hu : nameLookup
        (storeAfterTransfer g.store newOwnerId payload.NewOwnersEmail m.OrgReservation.Uuid)
        payload.OrganizationName = some u) :
    UpdateOrgMapping noFaults newOwnerId currentMail payload g
      = (.value
          (some
            { OrgReservation := u
              Owner := resolveOwner g.store newOwnerId payload.NewOwnersEmail
              CloudMapping := m.CloudMapping }, none),
          { store :=
              storeAfterTransfer g.store newOwnerId payload.NewOwnersEmail m.OrgReservation.Uuid
            calls := g.calls ++
              callsOfTransfer g.store newOwnerId currentMail payload.NewOwnersEmail
                payload.OrganizationName m.OrgReservation.Uuid }) := by
  unfold UpdateOrgMapping
  rw [service_own_noFaults _ _ _ hcur, hown]
  simp only [hname, hnew, Option.isSome_some, repo_owner_noFaults, record_store]
  unfold storeAfterTransfer resolveOwner at hu
  unfold storeAfterTransfer callsOfTransfer resolveOwner
  cases hO : ownerLookup g.store payload.NewOwnersEmail with
  | none =>
    rw [hO] at hu
    simp only at hu
    simp [insert_owner_noFaults, update_org_noFaults, repo_name_noFaults, hu, Gateway.record]
  | some o =>
    rw [hO] at hu
    simp only at hu
    simp [hO, update_org_noFaults, repo_name_noFaults, hu, Gateway.record]

theorem nameLookup_updateOrgOwner (s s1 : Store) (uuid ownerId orgName : String)
    (h : s1.orgs = updateOrgOwner uuid ownerId s.orgs) :
    nameLookup s1 orgName
      = (nameLookup s orgName).map fun org =>
          if org.Uuid == uuid then { org with OwnerId := ownerId } else org := by
  unfold nameLookup
  rw [h, updateOrgOwner, List.find?_map]
  congr 1
  apply congrArg (fun p => List.find? p s.orgs)
  funext org
  simp only [Function.comp]
  split <;> rfl

theorem nameLookup_of_unique {s : Store} {orgName : String} {r : OrgReservation}
    (hnames : s.uniqueNames) (hr : r ∈ s.orgs) (hn : r.OrganizationName = orgName) :
    nameLookup s orgName = some r := by
  obtain ⟨r1, h1⟩ := nameLookup_isSome_of_mem hr hn
  have hmem : r1 ∈ s.orgs := List.mem_of_find?_eq_some h1
  have hname : r1.OrganizationName = orgName := by simpa using List.find?_some h1
  rw [h1, List.inj_on_of_nodup_map hnames hmem hr (hname.trans hn.symm)]

theorem ownLookup_org_mem {s : Store} {orgName ownerEmail : String} {m : OrgReservationMapping}
    (h : ownLookup s orgName ownerEmail = some m) : m.OrgReservation ∈ s.orgs := by
  obtain ⟨r, o, c, hr, -, -, -, -, -, -, rfl⟩ := ownLookup_some h
  exact hr

theorem clearCloud_eq_withoutFlag (key : String) (f : CloudReservation) :
    clearCloud key f = withoutFlag key f := by
  unfold clearCloud withoutFlag
  by_cases h1 : key = ChoreoKey
  · subst h1; simp [ChoreoKey, AsgardioKey, BallerinaKey]
  · by_cases h2 : key = AsgardioKey
    · subst h2; simp [ChoreoKey, AsgardioKey, BallerinaKey]
    · by_cases h3 : key = BallerinaKey
      · subst h3; simp [ChoreoKey, AsgardioKey, BallerinaKey]
      · simp [h1, h2, h3]

theorem search_noFaults (orgName : String) (g : Gateway) :
    SearchReservationByName noFaults orgName g
      = (match nameLookup g.store orgName with
          | some found => (found.OrganizationName, none)
          | none =>
            ("", some (Newf Error_NOT_FOUND none (orgName ++ " is not found in the registry"))),
          g.record (.GetOrgReservationByName orgName)) := by
  unfold SearchReservationByName
  rw [repo_name_noFaults]
  cases nameLookup g.store orgName <;> rfl

theorem nameLookup_name {s : Store} {orgName : String} {r : OrgReservation}
    (h : nameLookup s orgName = some r) : r.OrganizationName = orgName := by
  unfold nameLookup at h
  simpa using List.find?_some h

theorem nameLookup_congr {s s1 : Store} (orgName : String)
    (h : s.orgs.map (fun r => r.OrganizationName) = s1.orgs.map (fun r => r.OrganizationName)) :
    (nameLookup s orgName).map (fun r => r.OrganizationName)
      = (nameLookup s1 orgName).map (fun r => r.OrganizationName) := by
  have key : ∀ l : List OrgReservation,
      (l.find? fun org => org.OrganizationName == orgName).map (fun r => r.OrganizationName)
        = (l.map fun r => r.OrganizationName).find? (fun n => n == orgName) := by
    intro l
    rw [List.find?_map]
    rfl
  unfold nameLookup
  rw [key, key, h]

theorem owners_filter_unique (l : List Owner) (id email n : String)
    (h : (l.map fun o => o.Id).Nodup) :
    ((l.filter fun o => id == o.Id && o.Email == email).map fun _ => n)
      = if (l.any fun o => o.Id == id && o.Email == email) then [n] else [] := by
  induction l with
  | nil => rfl
  | cons o l ih =>
    rw [List.map_cons, List.nodup_cons] at h
    by_cases ho : o.Id = id
    · have hnone : ∀ x ∈ l, ¬ (x.Id = id) := by
        intro x hx hxi
        exact h.1 (List.mem_map.2 ⟨x, hx, hxi.trans ho.symm⟩)
      have hf : (l.filter fun o => id == o.Id && o.Email == email) = [] := by
        rw [List.filter_eq_nil_iff]
        intro x hx
        have hx1 : ¬ (id = x.Id) := fun hh => hnone x hx hh.symm
        simp [hx1]
      have ha : (l.any fun o => o.Id == id && o.Email == email) = false := by
        rw [List.any_eq_false]
        intro x hx
        simp [hnone x hx]
      by_cases he : o.Email = email
      · simp [List.filter_cons, ho, he, hf]
      · simp [List.filter_cons, ho, he, hf, ha]
    · have ho2 : ¬ (id = o.Id) := fun hh => ho hh.symm
      have h1 : (id == o.Id && o.Email == email) = false := by simp [ho2]
      have h2 : (o.Id == id && o.Email == email) = false := by simp [ho]
      rw [List.filter_cons, List.any_cons, h1, h2]
      simpa using ih h.2

theorem select_names_eq (s : Store) (email : String) (hids : s.uniqueOwnerIds) :
    SelectOrgReservationsByEmailQuery s email
      = (s.orgs.filter (ownedBy s email)).map fun r => r.OrganizationName := by
  unfold SelectOrgReservationsByEmailQuery ownedBy
  induction s.orgs with
  | nil => rfl
  | cons r l ih =>
    rw [List.flatMap_cons, ih, owners_filter_unique s.owners r.OwnerId email _ hids,
      List.filter_cons]
    split <;> rfl

theorem delete_owned_last (g : Gateway) (email name key : String)
    (m : OrgReservationMapping) (hmail : validateEmail email = true)
    (hown : ownLookup g.store name email = some m)
    (hlast : noFlag (withoutFlag key m.CloudMapping) = true) :
    DeleteReservationsOfOwner noFaults email { OrganizationName := name, CloudService := key } g
      = (.value none,
          { store :=
              { g.store with
                clouds := g.store.clouds.filter fun c =>
                  !(c.ReservationId == m.OrgReservation.Uuid) }
            calls := g.calls ++
              [.GetOrgReservationByNameAndEmail name email,
               .DeleteCloudMappingEntryById m.OrgReservation.Uuid] }) := by
  have hid := ownLookup_cloud_id hown
  unfold DeleteReservationsOfOwner
  rw [service_own_noFaults _ _ _ hmail, hown]
  have hclear := clearCloud_eq_withoutFlag key m.CloudMapping
  unfold clearCloud at hclear
  simp only [Option.isSome_some, hclear]
  have hrid : (withoutFlag key m.CloudMapping).ReservationId = m.OrgReservation.Uuid := hid
  simp only [noFlag, Bool.and_eq_true, Bool.not_eq_true'] at hlast
  simp [hlast.1.1, hlast.1.2, hlast.2, DeleteCloudMappingEntryById, noFaults, Gateway.record,
    hrid]

theorem delete_owned_more (g : Gateway) (email name key : String)
    (m : OrgReservationMapping) (hmail : validateEmail email = true)
    (hown : ownLookup g.store name email = some m)
    (hmore : noFlag (withoutFlag key m.CloudMapping) = false) :
    DeleteReservationsOfOwner noFaults email { OrganizationName := name, CloudService := key } g
      = (.value none,
          { store :=
              { g.store with
                clouds := updateClouds (withoutFlag key m.CloudMapping) g.store.clouds }
            calls := g.calls ++
              [.GetOrgReservationByNameAndEmail name email,
               .UpdateCloudMappingById (withoutFlag key m.CloudMapping)] }) := by
  unfold DeleteReservationsOfOwner
  rw [service_own_noFaults _ _ _ hmail, hown]
  have hclear := clearCloud_eq_withoutFlag key m.CloudMapping
  unfold clearCloud at hclear
  simp only [Option.isSome_some, hclear]
  have hcond : ¬ (((withoutFlag key m.CloudMapping).BallerinaCloud = false
      && (withoutFlag key m.CloudMapping).ChoreoCloud = false
      && (withoutFlag key m.CloudMapping).AsgardioCloud = false) = true) := by
    intro h
    simp only [Bool.and_eq_true, decide_eq_true_eq] at h
    simp [noFlag, h.1.1, h.1.2, h.2] at hmore
  rw [if_neg hcond]
  simp [UpdateCloudMappingById, noFaults, Gateway.record, updateClouds]

theorem updateRecord_withoutFlag {s : Store} {orgName ownerEmail key : String}
    {m : OrgReservationMapping} (h : ownLookup s orgName ownerEmail = some m) :
    updateRecord (withoutFlag key m.CloudMapping) m
      = { m with CloudMapping := withoutFlag key m.CloudMapping } := by
  have hid := ownLookup_cloud_id h
  unfold updateRecord
  rw [if_pos (by rw [← hid]; rfl)]
  rfl

theorem ownLookup_after_retract (key : String) {s : Store} {orgName ownerEmail : String}
    {m : OrgReservationMapping} (h : ownLookup s orgName ownerEmail = some m) :
    ownLookup { s with clouds := updateClouds (withoutFlag key m.CloudMapping) s.clouds }
        orgName ownerEmail
      = some { m with CloudMapping := withoutFlag key m.CloudMapping } := by
  rw [ownLookup_updateClouds, h, Option.map_some', updateRecord_withoutFlag h]

theorem mem_activeKeys (f : CloudReservation) (k : String) :
    k ∈ activeKeys f ↔
      (k = ChoreoKey ∧ f.ChoreoCloud = true) ∨ (k = AsgardioKey ∧ f.AsgardioCloud = true)
        ∨ (k = BallerinaKey ∧ f.BallerinaCloud = true) := by
  unfold activeKeys
  rcases f with ⟨i, a, b, c⟩
  cases a <;> cases b <;> cases c <;> simp

theorem mem_activeKeys_withoutFlag (f : CloudReservation) (key k : String) :
    k ∈ activeKeys (withoutFlag key f) ↔ k ∈ activeKeys f ∧ k ≠ key := by
  rw [mem_activeKeys, mem_activeKeys]
  simp only [withoutFlag, Bool.and_eq_true, Bool.not_eq_true', decide_eq_false_iff_not]
  constructor
  · rintro (⟨h1, h2, h3⟩ | ⟨h1, h2, h3⟩ | ⟨h1, h2, h3⟩)
    · exact ⟨Or.inl ⟨h1, h2⟩, fun h => h3 (h ▸ h1)⟩
    · exact ⟨Or.inr (Or.inl ⟨h1, h2⟩), fun h => h3 (h ▸ h1)⟩
    · exact ⟨Or.inr (Or.inr ⟨h1, h2⟩), fun h => h3 (h ▸ h1)⟩
  · rintro ⟨(⟨h1, h2⟩ | ⟨h1, h2⟩ | ⟨h1, h2⟩), h3⟩
    · exact Or.inl ⟨h1, h2, fun h => h3 (h1.trans h.symm)⟩
    · exact Or.inr (Or.inl ⟨h1, h2, fun h => h3 (h1.trans h.symm)⟩)
    · exact Or.inr (Or.inr ⟨h1, h2, fun h => h3 (h1.trans h.symm)⟩)

theorem noFlag_iff (f : CloudReservation) : noFlag f = true ↔ activeKeys f = [] := by
  unfold noFlag activeKeys
  rcases f with ⟨i, a, b, c⟩
  cases a <;> cases b <;> cases c <;> simp

theorem retractEach_spec (email name : String) (hmail : validateEmail email = true) :
    ∀ (keys : List String) (g : Gateway) (m : OrgReservationMapping),
      ownLookup g.store name email = some m → keys ≠ [] → keys.Nodup →
      (∀ k, k ∈ keys ↔ k ∈ activeKeys m.CloudMapping) →
      (retractEach noFaults email name keys g).1 = keys.map (fun _ => Outcome.value none)
        ∧ (∀ c ∈ (retractEach noFaults email name keys g).2.store.clouds,
            c.ReservationId ≠ m.OrgReservation.Uuid)
        ∧ (retractEach noFaults email name keys g).2.store.orgs = g.store.orgs
        ∧ (retractEach noFaults email name keys g).2.store.owners = g.store.owners := by
  intro keys
  induction keys with
  | nil => intro g m _ h; exact absurd rfl h
  | cons key keys ih =>
    intro g m hown _ hnd hmem
    rw [List.nodup_cons] at hnd
    have hrest : ∀ k, k ∈ keys ↔ k ∈ activeKeys (withoutFlag key m.CloudMapping) := by
      intro k
      rw [mem_activeKeys_withoutFlag, ← hmem k, List.mem_cons]
      constructor
      · intro hk
        exact ⟨Or.inr hk, fun h => hnd.1 (h ▸ hk)⟩
      · rintro ⟨hk | hk, hne⟩
        · exact absurd hk hne
        · exact hk
    cases keys with
    | nil =>
      have hlast : noFlag (withoutFlag key m.CloudMapping) = true := by
        rw [noFlag_iff, List.eq_nil_iff_forall_not_mem]
        intro k hk
        exact absurd ((hrest k).2 hk) (List.not_mem_nil k)
      rw [retractEach, delete_owned_last g email name key m hmail hown hlast]
      refine ⟨rfl, ?_, rfl, rfl⟩
      intro c hc
      have hc2 : c ∈ g.store.clouds.filter fun c =>
          !(c.ReservationId == m.OrgReservation.Uuid) := hc
      simpa using (List.mem_filter.1 hc2).2
    | cons key2 keys2 =>
      have hmore : noFlag (withoutFlag key m.CloudMapping) = false := by
        cases hn : noFlag (withoutFlag key m.CloudMapping) with
        | false => rfl
        | true =>
          rw [noFlag_iff] at hn
          have := (hrest key2).1 (List.mem_cons_self _ _)
          rw [hn] at this
          exact absurd this (List.not_mem_nil _)
      have hstep := delete_owned_more g email name key m hmail hown hmore
      have hih := ih
        { store :=
            { g.store with
              clouds := updateClouds (withoutFlag key m.CloudMapping) g.store.clouds }
          calls := g.calls ++
            [.GetOrgReservationByNameAndEmail name email,
             .UpdateCloudMappingById (withoutFlag key m.CloudMapping)] }
        { m with CloudMapping := withoutFlag key m.CloudMapping }
        (ownLookup_after_retract key hown) (List.cons_ne_nil _ _) hnd.2 hrest
      rw [retractEach, hstep]
      exact ⟨by rw [List.map_cons, ← hih.1], hih.2.1, hih.2.2.1, hih.2.2.2⟩

theorem activeKeys_nodup (f : CloudReservation) : (activeKeys f).Nodup := by
  unfold activeKeys
  rcases f with ⟨i, a, b, c⟩
  cases a <;> cases b <;> cases c <;> simp [ChoreoKey, AsgardioKey, BallerinaKey]

theorem withoutFlag_other (key : String) (f : CloudReservation)
    (h1 : key ≠ ChoreoKey) (h2 : key ≠ AsgardioKey) (h3 : key ≠ BallerinaKey) :
    withoutFlag key f = f := by
  simp [withoutFlag, h1, h2, h3]

theorem noFlag_eq_false_of_flag (f : CloudReservation)
    (h : f.ChoreoCloud = true ∨ f.AsgardioCloud = true ∨ f.BallerinaCloud = true) :
    noFlag f = false := by
  unfold noFlag
  rcases h with h | h | h <;> simp [h]

theorem noFlag_of_flags (f : CloudReservation)
    (h : f.ChoreoCloud = false ∧ f.AsgardioCloud = false ∧ f.BallerinaCloud = false) :
    noFlag f = true := by
  simp [noFlag, h.1, h.2.1, h.2.2]

theorem ownLookup_none_of_no_cloud {s : Store} {orgName ownerEmail : String}
    (h : ∀ r ∈ s.orgs, r.OrganizationName = orgName →
      ∀ c ∈ s.clouds, c.ReservationId ≠ r.Uuid) :
    ownLookup s orgName ownerEmail = none := by
  rw [ownLookup_eq_none]
  rintro r hr o - c hc ⟨-, h2, h3, -⟩
  exact h r hr h3 c hc h2.symm

theorem repo_own_ok (F : Faults) (orgName ownerEmail : String) (g : Gateway)
    (h : F g.calls.length = none) :
    GetOrgReservationByNameAndEmail F orgName ownerEmail g
      = ((ownLookup g.store orgName ownerEmail, none),
          g.record (.GetOrgReservationByNameAndEmail orgName ownerEmail)) := by
  rw [← repo_own_noFaults]
  unfold GetOrgReservationByNameAndEmail
  simp only [h, noFaults]

theorem repo_name_ok (F : Faults) (orgName : String) (g : Gateway)
    (h : F g.calls.length = none) :
    GetOrgReservationByName F orgName g
      = ((nameLookup g.store orgName, none), g.record (.GetOrgReservationByName orgName)) := by
  rw [← repo_name_noFaults]
  unfold GetOrgReservationByName
  simp only [h, noFaults]

theorem repo_owner_ok (F : Faults) (email : String) (g : Gateway)
    (h : F g.calls.length = none) :
    GetOwnerByEmail F email g
      = ((ownerLookup g.store email, none), g.record (.GetOwnerByEmail email)) := by
  rw [← repo_owner_noFaults]
  unfold GetOwnerByEmail
  simp only [h, noFaults]

theorem service_own_ok (F : Faults) (orgName ownerEmail : String) (g : Gateway)
    (hmail : validateEmail ownerEmail = true) (h : F g.calls.length = none) :
    GetOwnReservationWithNameAndMail F orgName ownerEmail g
      = ((ownLookup g.store orgName ownerEmail, (ownLookup g.store orgName ownerEmail).isSome,
            none),
          g.record (.GetOrgReservationByNameAndEmail orgName ownerEmail)) := by
  unfold GetOwnReservationWithNameAndMail
  rw [repo_own_ok F _ _ _ h]
  simp only [hmail]
  cases ownLookup g.store orgName ownerEmail <;> rfl

theorem service_own_fault (F : Faults) (orgName ownerEmail : String) (g : Gateway)
    (err : GoError) (hmail : validateEmail ownerEmail = true)
    (h : F g.calls.length = some err) :
    GetOwnReservationWithNameAndMail F orgName ownerEmail g
      = ((none, false, some err),
          g.record (.GetOrgReservationByNameAndEmail orgName ownerEmail)) := by
  unfold GetOwnReservationWithNameAndMail GetOrgReservationByNameAndEmail
  simp only [hmail, h]
  rfl

theorem service_name_fault (F : Faults) (orgName : String) (g : Gateway) (err : GoError)
    (h : F g.calls.length = some err) :
    GetOrgReservationByOrgName F orgName g
      = ((none, some err), g.record (.GetOrgReservationByName orgName)) := by
  unfold GetOrgReservationByOrgName GetOrgReservationByName
  simp only [h]

theorem service_name_ok (F : Faults) (orgName : String) (g : Gateway)
    (h : F g.calls.length = none) :
    GetOrgReservationByOrgName F orgName g
      = (match nameLookup g.store orgName with
          | some _ =>
            (none, some (Newf Error_DUPLICATE_RESERVATION none
              (orgName ++ " is already reserved by another user")))
          | none => (none, none),
          g.record (.GetOrgReservationByName orgName)) := by
  unfold GetOrgReservationByOrgName
  rw [repo_name_ok F _ _ h]
  cases nameLookup g.store orgName <;> rfl

/-- The shape of `CreateNewOrgReservation` once the payload is valid and the
joined lookup was executed and found nothing. -/
theorem create_not_owned (F : Faults) (newOwnerId newUuid : String)
    (p : OrgReservationPayload) (g : Gateway)
    (hmail : validateEmail p.OwnerEmail = true) (hname : validateOrgName p.OrganizationName = true)
    (h0 : F g.calls.length = none)
    (hown : ownLookup g.store p.OrganizationName p.OwnerEmail = none) :
    CreateNewOrgReservation F newOwnerId newUuid p g
      = match GetOrgReservationByOrgName F p.OrganizationName
            (g.record (.GetOrgReservationByNameAndEmail p.OrganizationName p.OwnerEmail)) with
        | ((_, err), g2) =>
          if !Is err Error_DUPLICATE_RESERVATION then
            createEntries F newOwnerId newUuid p (setCloud p.CloudService {}) g2
          else (.value (none, err), g2) := by
  unfold CreateNewOrgReservation
  rw [service_own_ok F _ _ _ hmail h0, hown]
  simp only [hmail, hname, Option.isSome_none]
  generalize GetOrgReservationByOrgName F p.OrganizationName
    (g.record (.GetOrgReservationByNameAndEmail p.OrganizationName p.OwnerEmail)) = res
  obtain ⟨⟨a, err⟩, g2⟩ := res
  cases hIs : Is err Error_DUPLICATE_RESERVATION
  · simp only [hIs]
    rfl
  · simp only [hIs]
    cases err <;> rfl

theorem createEntries_error_frame (F : Faults) (newOwnerId newUuid : String)
    (p : OrgReservationPayload) (cm : CloudReservation) (g2 g1 : Gateway)
    (r : Option OrgReservationMapping) (e : GoError)
    (h : createEntries F newOwnerId newUuid p cm g2 = (.value (r, some e), g1)) :
    g1.store.clouds = g2.store.clouds
    ∧ (g1.store.owners = g2.store.owners
        ∨ g1.store.owners = g2.store.owners ++ [{ Id := newOwnerId, Email := p.OwnerEmail }])
    ∧ (g1.store.orgs = g2.store.orgs
        ∨ ∃ ownerId, g1.store.orgs = g2.store.orgs ++
            [{ Uuid := newUuid, OrganizationName := p.OrganizationName, OwnerId := ownerId }]) := by
  unfold createEntries at h
  cases h2 : F g2.calls.length with
  | some err =>
    simp only [GetOwnerByEmail, h2] at h
    obtain ⟨-, rfl⟩ := Prod.mk.inj h
    exact ⟨rfl, Or.inl rfl, Or.inl rfl⟩
  | none =>
    rw [repo_owner_ok F _ _ h2] at h
    cases hO : ownerLookup g2.store p.OwnerEmail with
    | some o =>
      simp only [hO, InsertNewOrgReservation, InsertNewCloudMappingEntry, record_calls,
        record_store, List.length_append, List.length_singleton] at h
      cases h3 : F (g2.calls.length + 1) with
      | some err =>
        simp only [h3, List.length_append, List.length_singleton, record_calls, record_store] at h
        obtain ⟨-, rfl⟩ := Prod.mk.inj h
        exact ⟨rfl, Or.inl rfl, Or.inl rfl⟩
      | none =>
        simp only [h3, List.length_append, List.length_singleton, record_calls, record_store] at h
        cases h4 : F (g2.calls.length + 1 + 1) with
        | some err =>
          simp only [h4, List.length_append, List.length_singleton, record_calls, record_store] at h
          obtain ⟨-, rfl⟩ := Prod.mk.inj h
          exact ⟨rfl, Or.inl rfl, Or.inr ⟨_, rfl⟩⟩
        | none =>
          simp [h4] at h
    | none =>
      simp only [hO, InsertNewOwner, InsertNewOrgReservation, InsertNewCloudMappingEntry,
        record_calls, record_store, List.length_append, List.length_singleton] at h
      cases h3 : F (g2.calls.length + 1) with
      | some err =>
        simp only [h3, List.length_append, List.length_singleton, record_calls, record_store] at h
        obtain ⟨-, rfl⟩ := Prod.mk.inj h
        exact ⟨rfl, Or.inl rfl, Or.inl rfl⟩
      | none =>
        simp only [h3, List.length_append, List.length_singleton, record_calls, record_store] at h
        cases h4 : F (g2.calls.length + 1 + 1) with
        | some err =>
          simp only [h4, List.length_append, List.length_singleton, record_calls, record_store] at h
          obtain ⟨-, rfl⟩ := Prod.mk.inj h
          exact ⟨rfl, Or.inr rfl, Or.inl rfl⟩
        | none =>
          simp only [h4, List.length_append, List.length_singleton, record_calls, record_store] at h
          cases h5 : F (g2.calls.length + 1 + 1 + 1) with
          | some err =>
            simp only [h5, List.length_append, List.length_singleton, record_calls, record_store] at h
            obtain ⟨-, rfl⟩ := Prod.mk.inj h
            exact ⟨rfl, Or.inr rfl, Or.inr ⟨_, rfl⟩⟩
          | none =>
            simp [h5] at h

theorem create_owned (F : Faults) (newOwnerId newUuid : String)
    (p : OrgReservationPayload) (g : Gateway) (m : OrgReservationMapping)
    (hmail : validateEmail p.OwnerEmail = true) (hname : validateOrgName p.OrganizationName = true)
    (h0 : F g.calls.length = none)
    (hown : ownLookup g.store p.OrganizationName p.OwnerEmail = some m) :
    CreateNewOrgReservation F newOwnerId newUuid p g
      = if setCloud p.CloudService m.CloudMapping = m.CloudMapping then
          (.value (some m, none),
            g.record (.GetOrgReservationByNameAndEmail p.OrganizationName p.OwnerEmail))
        else
          match UpdateCloudMappingById F (setCloud p.CloudService m.CloudMapping)
              (g.record (.GetOrgReservationByNameAndEmail p.OrganizationName p.OwnerEmail)) with
          | (some err, g2) => (.value (none, some err), g2)
          | (none, g2) =>
            (.value
              (some { m with CloudMapping := setCloud p.CloudService m.CloudMapping }, none),
              g2) := by
  unfold CreateNewOrgReservation
  rw [service_own_ok F _ _ _ hmail h0, hown]
  simp only [hmail, hname, Option.isSome_some, Bool.not_true, Bool.false_eq_true, if_false,
    if_true]
  rfl

theorem create_error_frame (F : Faults) (g g1 : Gateway) (newOwnerId newUuid : String)
    (p : OrgReservationPayload) (r : Option OrgReservationMapping) (e : GoError)
    (h : CreateNewOrgReservation F newOwnerId newUuid p g = (.value (r, some e), g1)) :
    g1.store.clouds = g.store.clouds
    ∧ (g1.store.owners = g.store.owners
        ∨ g1.store.owners = g.store.owners ++ [{ Id := newOwnerId, Email := p.OwnerEmail }])
    ∧ (g1.store.orgs = g.store.orgs
        ∨ ∃ ownerId, g1.store.orgs = g.store.orgs ++
            [{ Uuid := newUuid, OrganizationName := p.OrganizationName, OwnerId := ownerId }]) := by
  by_cases hmail : validateEmail p.OwnerEmail = true
  swap
  · unfold CreateNewOrgReservation at h
    simp only [hmail] at h
    obtain ⟨-, rfl⟩ := Prod.mk.inj h
    exact ⟨rfl, Or.inl rfl, Or.inl rfl⟩
  by_cases hname : validateOrgName p.OrganizationName = true
  swap
  · unfold CreateNewOrgReservation at h
    simp only [hmail, hname] at h
    obtain ⟨-, rfl⟩ := Prod.mk.inj h
    exact ⟨rfl, Or.inl rfl, Or.inl rfl⟩
  cases h0 : F g.calls.length with
  | some err =>
    unfold CreateNewOrgReservation at h
    rw [service_own_fault F _ _ _ err hmail h0] at h
    simp only [hmail, hname] at h
    obtain ⟨-, rfl⟩ := Prod.mk.inj h
    exact ⟨rfl, Or.inl rfl, Or.inl rfl⟩
  | none =>
    cases hown : ownLookup g.store p.OrganizationName p.OwnerEmail with
    | none =>
      rw [create_not_owned F _ _ p g hmail hname h0 hown] at h
      cases h1 : F (g.record
          (.GetOrgReservationByNameAndEmail p.OrganizationName p.OwnerEmail)).calls.length with
      | some err =>
        rw [service_name_fault F _ _ err h1] at h
        simp only at h
        cases hIs : Is (some err) Error_DUPLICATE_RESERVATION with
        | true =>
          simp only [hIs, Bool.not_true, Bool.false_eq_true, if_false] at h
          obtain ⟨-, rfl⟩ := Prod.mk.inj h
          exact ⟨rfl, Or.inl rfl, Or.inl rfl⟩
        | false =>
          simp only [hIs, Bool.not_false, if_true] at h
          exact createEntries_error_frame F _ _ p _
            ((g.record (.GetOrgReservationByNameAndEmail p.OrganizationName p.OwnerEmail)).record
              (.GetOrgReservationByName p.OrganizationName)) _ _ _ h
      | none =>
        rw [service_name_ok F _ _ h1] at h
        cases hnm : nameLookup g.store p.OrganizationName with
        | some r0 =>
          simp only [record_store, hnm, Is_Newf, Bool.not_true, Bool.false_eq_true,
            if_false] at h
          obtain ⟨-, rfl⟩ := Prod.mk.inj h
          exact ⟨rfl, Or.inl rfl, Or.inl rfl⟩
        | none =>
          simp only [record_store, hnm, Is_none, Bool.not_false, if_true] at h
          exact createEntries_error_frame F _ _ p _
            ((g.record (.GetOrgReservationByNameAndEmail p.OrganizationName p.OwnerEmail)).record
              (.GetOrgReservationByName p.OrganizationName)) _ _ _ h
    | some m =>
      rw [create_owned F _ _ p g m hmail hname h0 hown] at h
      by_cases hsame : setCloud p.CloudService m.CloudMapping = m.CloudMapping
      · rw [if_pos hsame] at h
        simp at h
      · rw [if_neg hsame] at h
        simp only [UpdateCloudMappingById, record_calls, record_store, List.length_append,
          List.length_singleton] at h
        cases h1 : F (g.calls.length + 1) with
        | some err =>
          simp only [h1] at h
          obtain ⟨-, rfl⟩ := Prod.mk.inj h
          exact ⟨rfl, Or.inl rfl, Or.inl rfl⟩
        | none =>
          simp [h1] at h

theorem create_cloud_insert_fails (g : Gateway) (newOwnerId newUuid : String)
    (p : OrgReservationPayload) (err : GoError)
    (hmail : validateEmail p.OwnerEmail = true) (hname : validateOrgName p.OrganizationName = true)
    (hown : ownLookup g.store p.OrganizationName p.OwnerEmail = none)
    (hfree : nameLookup g.store p.OrganizationName = none)
    (hnew : ownerLookup g.store p.OwnerEmail = none) :
    CreateNewOrgReservation (failAt (g.calls.length + 5) err) newOwnerId newUuid p g
      = (.value (none, some err),
          { store :=
              { owners := g.store.owners ++ [{ Id := newOwnerId, Email := p.OwnerEmail }]
                orgs := g.store.orgs ++
                  [{ Uuid := newUuid
                     OrganizationName := p.OrganizationName
                     OwnerId := newOwnerId }]
                clouds := g.store.clouds }
            calls := g.calls ++
              [.GetOrgReservationByNameAndEmail p.OrganizationName p.OwnerEmail,
               .GetOrgReservationByName p.OrganizationName,
               .GetOwnerByEmail p.OwnerEmail,
               .InsertNewOwner { Id := newOwnerId, Email := p.OwnerEmail },
               .InsertNewOrgReservation
                  { Uuid := newUuid
                    OrganizationName := p.OrganizationName
                    OwnerId := newOwnerId },
               .InsertNewCloudMappingEntry
                  { setCloud p.CloudService {} with ReservationId := newUuid }] }) := by
  have hF : ∀ k, k < 5 → failAt (g.calls.length + 5) err (g.calls.length + k) = none := by
    intro k hk
    simp only [failAt]
    rw [if_neg (by omega)]
  have h0 := hF 0 (by omega)
  rw [create_not_owned _ _ _ p g hmail hname h0 hown]
  rw [service_name_ok _ _ _ (by simpa using hF 1 (by omega))]
  simp only [record_store, hfree, Is_none, Bool.not_false, if_true]
  unfold createEntries
  rw [repo_owner_ok _ _ _ (by simpa using hF 2 (by omega))]
  simp only [record_store, hnew, InsertNewOwner, InsertNewOrgReservation,
    InsertNewCloudMappingEntry, record_calls, List.length_append, List.length_singleton]
  have h3 : failAt (g.calls.length + 5) err (g.calls.length + 1 + 1 + 1) = none :=
    hF 3 (by omega)
  have h4 : failAt (g.calls.length + 5) err (g.calls.length + 1 + 1 + 1 + 1) = none :=
    hF 4 (by omega)
  have h5 : failAt (g.calls.length + 5) err (g.calls.length + 1 + 1 + 1 + 1 + 1) = some err := by
    simp [failAt]
  simp only [h3, h4, h5, record_calls, record_store, List.length_append, List.length_singleton]
  simp [Gateway.record]

/-! ### The return statements of `CreateNewOrgReservation` -/

theorem traced_snd (F : Faults) (newOwnerId newUuid : String)
    (payload : OrgReservationPayload) (g : Gateway) :
    (CreateNewOrgReservationTraced F newOwnerId newUuid payload g).2
      = CreateNewOrgReservation F newOwnerId newUuid payload g := by
  unfold CreateNewOrgReservationTraced CreateNewOrgReservation
  cases h1 : validateEmail payload.OwnerEmail
  · rfl
  cases h2 : validateOrgName payload.OrganizationName
  · rfl
  simp only [Bool.not_true, Bool.false_eq_true, if_false]
  generalize GetOwnReservationWithNameAndMail F payload.OrganizationName payload.OwnerEmail g
    = res
  obtain ⟨⟨own, owned, e⟩, g1⟩ := res
  cases e with
  | some e => rfl
  | none =>
    cases own <;> simp only
    all_goals generalize (if payload.CloudService = ChoreoKey then _ else _ : CloudReservation) = ncm
    all_goals cases owned with
    | true =>
      simp only [if_true]
      split
      · rfl
      · generalize UpdateCloudMappingById F _ g1 = res2
        obtain ⟨e2, g2⟩ := res2
        cases e2 <;> rfl
    | false =>
      simp only [Bool.false_eq_true, if_false]
      generalize GetOrgReservationByOrgName F payload.OrganizationName g1 = res2
      obtain ⟨⟨a, err⟩, g2⟩ := res2
      simp only
      cases hIs : Is err Error_DUPLICATE_RESERVATION with
      | true =>
        simp only [Bool.not_true, Bool.false_eq_true, if_false]
        cases err <;> rfl
      | false =>
        simp only [Bool.not_false, if_true]
        generalize GetOwnerByEmail F payload.OwnerEmail g2 = res3
        obtain ⟨⟨found, e3⟩, g3⟩ := res3
        cases e3 with
        | some e3 => rfl
        | none =>
          simp only
          cases found with
          | some o =>
            simp only
            generalize InsertNewOrgReservation F _ g3 = res5
            obtain ⟨⟨r5, e5⟩, g5⟩ := res5
            cases e5 with
            | some e5 => rfl
            | none =>
              simp only
              generalize InsertNewCloudMappingEntry F _ g5 = res6
              obtain ⟨⟨r6, e6⟩, g6⟩ := res6
              cases e6 <;> rfl
          | none =>
            simp only
            generalize InsertNewOwner F _ g3 = res4
            obtain ⟨⟨r4, e4⟩, g4⟩ := res4
            cases e4 with
            | some e4 => rfl
            | none =>
              simp only
              generalize InsertNewOrgReservation F _ g4 = res5
              obtain ⟨⟨r5, e5⟩, g5⟩ := res5
              cases e5 with
              | some e5 => rfl
              | none =>
                simp only
                generalize InsertNewCloudMappingEntry F _ g5 = res6
                obtain ⟨⟨r6, e6⟩, g6⟩ := res6
                cases e6 <;> rfl

theorem own_result (F : Faults) (orgName ownerEmail : String) (g : Gateway) :
    ∃ own owned e g1,
      GetOwnReservationWithNameAndMail F orgName ownerEmail g = ((own, owned, e), g1)
      ∧ (e = none → owned = own.isSome) := by
  unfold GetOwnReservationWithNameAndMail
  cases validateEmail ownerEmail
  · exact ⟨_, _, _, _, rfl, fun h => by cases h⟩
  simp only [Bool.not_true, Bool.false_eq_true, if_false]
  generalize GetOrgReservationByNameAndEmail F orgName ownerEmail g = res
  obtain ⟨⟨found, e⟩, g1⟩ := res
  cases e with
  | some e => exact ⟨_, _, _, _, rfl, fun h => by cases h⟩
  | none =>
    cases found with
    | none => exact ⟨_, _, _, _, rfl, fun _ => rfl⟩
    | some m => exact ⟨_, _, _, _, rfl, fun _ => rfl⟩

theorem traced_ok (F : Faults) (newOwnerId newUuid : String)
    (payload : OrgReservationPayload) (g : Gateway) :
    ∃ line r g1,
      CreateNewOrgReservationTraced F newOwnerId newUuid payload g = (line, .value r, g1)
      ∧ line ≠ 148
      ∧ ((r.1.isSome = true ∧ r.2 = none) ∨ (r.1 = none ∧ r.2.isSome = true)) := by
  unfold CreateNewOrgReservationTraced
  cases h1 : validateEmail payload.OwnerEmail
  · exact ⟨_, _, _, rfl, by decide, Or.inr ⟨rfl, rfl⟩⟩
  cases h2 : validateOrgName payload.OrganizationName
  · exact ⟨_, _, _, rfl, by decide, Or.inr ⟨rfl, rfl⟩⟩
  simp only [Bool.not_true, Bool.false_eq_true, if_false]
  obtain ⟨own, owned, e, g1, hres, hprop⟩ :=
    own_result F payload.OrganizationName payload.OwnerEmail g
  rw [hres]
  cases e with
  | some e => exact ⟨_, _, _, rfl, by decide, Or.inr ⟨rfl, rfl⟩⟩
  | none =>
    have howned := hprop rfl
    subst howned
    cases own with
    | some r =>
      simp only [Option.isSome_some, if_true]
      generalize (if payload.CloudService = ChoreoKey then _ else _ : CloudReservation) = ncm
      split
      · exact ⟨_, _, _, rfl, by decide, Or.inl ⟨rfl, rfl⟩⟩
      · generalize UpdateCloudMappingById F _ g1 = res2
        obtain ⟨e2, g2⟩ := res2
        cases e2 with
        | some e2 => exact ⟨_, _, _, rfl, by decide, Or.inr ⟨rfl, rfl⟩⟩
        | none => exact ⟨_, _, _, rfl, by decide, Or.inl ⟨rfl, rfl⟩⟩
    | none =>
      simp only [Option.isSome_none, Bool.false_eq_true, if_false]
      generalize (if payload.CloudService = ChoreoKey then _ else _ : CloudReservation) = ncm
      generalize GetOrgReservationByOrgName F payload.OrganizationName g1 = res2
      obtain ⟨⟨a, err⟩, g2⟩ := res2
      simp only
      cases hIs : Is err Error_DUPLICATE_RESERVATION with
      | true =>
        simp only [Bool.not_true, Bool.false_eq_true, if_false]
        cases err with
        | none => rw [Is_none] at hIs; cases hIs
        | some e => exact ⟨_, _, _, rfl, by decide, Or.inr ⟨rfl, rfl⟩⟩
      | false =>
        simp only [Bool.not_false, if_true]
        generalize GetOwnerByEmail F payload.OwnerEmail g2 = res3
        obtain ⟨⟨found, e3⟩, g3⟩ := res3
        cases e3 with
        | some e3 => exact ⟨_, _, _, rfl, by decide, Or.inr ⟨rfl, rfl⟩⟩
        | none =>
          simp only
          cases found with
          | some o =>
            simp only
            generalize InsertNewOrgReservation F _ g3 = res5
            obtain ⟨⟨r5, e5⟩, g5⟩ := res5
            cases e5 with
            | some e5 => exact ⟨_, _, _, rfl, by decide, Or.inr ⟨rfl, rfl⟩⟩
            | none =>
              simp only
              generalize InsertNewCloudMappingEntry F _ g5 = res6
              obtain ⟨⟨r6, e6⟩, g6⟩ := res6
              cases e6 with
              | some e6 => exact ⟨_, _, _, rfl, by decide, Or.inr ⟨rfl, rfl⟩⟩
              | none => exact ⟨_, _, _, rfl, by decide, Or.inl ⟨rfl, rfl⟩⟩
          | none =>
            simp only
            generalize InsertNewOwner F _ g3 = res4
            obtain ⟨⟨r4, e4⟩, g4⟩ := res4
            cases e4 with
            | some e4 => exact ⟨_, _, _, rfl, by decide, Or.inr ⟨rfl, rfl⟩⟩
            | none =>
              simp only
              generalize InsertNewOrgReservation F _ g4 = res5
              obtain ⟨⟨r5, e5⟩, g5⟩ := res5
              cases e5 with
              | some e5 => exact ⟨_, _, _, rfl, by decide, Or.inr ⟨rfl, rfl⟩⟩
              | none =>
                simp only
                generalize InsertNewCloudMappingEntry F _ g5 = res6
                obtain ⟨⟨r6, e6⟩, g6⟩ := res6
                cases e6 with
                | some e6 => exact ⟨_, _, _, rfl, by decide, Or.inr ⟨rfl, rfl⟩⟩
                | none => exact ⟨_, _, _, rfl, by decide, Or.inl ⟨rfl, rfl⟩⟩

/-! ### A failing insert of the reservation -/

theorem ownLookup_none_of_name_free {s : Store} {orgName ownerEmail : String}
    (h : nameLookup s orgName = none) : ownLookup s orgName ownerEmail = none := by
  rw [ownLookup_eq_none]
  rintro r hr o - c - ⟨-, -, h3, -⟩
  exact nameLookup_eq_none.1 h r hr h3

theorem create_org_insert_fails (F : Faults) (g : Gateway) (newOwnerId newUuid : String)
    (p : OrgReservationPayload) (err : GoError)
    (hmail : validateEmail p.OwnerEmail = true) (hname : validateOrgName p.OrganizationName = true)
    (hfree : nameLookup g.store p.OrganizationName = none)
    (hbefore : ∀ k, g.calls.length ≤ k → k < insertReservationIndex g p.OwnerEmail → F k = none)
    (hfail : F (insertReservationIndex g p.OwnerEmail) = some err) :
    CreateNewOrgReservation F newOwnerId newUuid p g
      = (.value (none, some err),
          { store :=
              { g.store with
                owners :=
                  match ownerLookup g.store p.OwnerEmail with
                  | some _ => g.store.owners
                  | none => g.store.owners ++ [{ Id := newOwnerId, Email := p.OwnerEmail }] }
            calls := g.calls ++
              [.GetOrgReservationByNameAndEmail p.OrganizationName p.OwnerEmail,
               .GetOrgReservationByName p.OrganizationName,
               .GetOwnerByEmail p.OwnerEmail] ++
              (match ownerLookup g.store p.OwnerEmail with
                | some _ => []
                | none => [.InsertNewOwner { Id := newOwnerId, Email := p.OwnerEmail }]) ++
              [.InsertNewOrgReservation
                  { Uuid := newUuid
                    OrganizationName := p.OrganizationName
                    OwnerId := (resolveOwner g.store newOwnerId p.OwnerEmail).Id }] }) := by
  have hown : ownLookup g.store p.OrganizationName p.OwnerEmail = none :=
    ownLookup_none_of_name_free hfree
  have hlt : g.calls.length + 3 ≤ insertReservationIndex g p.OwnerEmail := by
    unfold insertReservationIndex; split <;> omega
  have h0 : F g.calls.length = none := hbefore _ (by omega) (by omega)
  have h1 : F (g.calls.length + 1) = none := hbefore _ (by omega) (by omega)
  have h2 : F (g.calls.length + 1 + 1) = none := hbefore _ (by omega) (by omega)
  rw [create_not_owned _ _ _ p g hmail hname h0 hown]
  rw [service_name_ok _ _ _ (by simpa using h1)]
  simp only [record_store, hfree, Is_none, Bool.not_false, if_true]
  unfold createEntries
  rw [repo_owner_ok _ _ _ (by simpa using h2)]
  unfold insertReservationIndex at hbefore hfail
  unfold resolveOwner
  cases hnew : ownerLookup g.store p.OwnerEmail with
  | some o =>
    simp only [hnew, Option.isSome_some, if_true] at hfail
    have h3 : F (g.calls.length + 1 + 1 + 1) = some err := hfail
    simp only [record_store, hnew, InsertNewOrgReservation,
      record_calls, List.length_append, List.length_singleton, h3]
    simp [Gateway.record]
  | none =>
    simp only [hnew, Option.isSome_none, Bool.false_eq_true, if_false] at hfail hbefore
    have h3 : F (g.calls.length + 1 + 1 + 1) = none := hbefore _ (by omega) (by omega)
    have h4 : F (g.calls.length + 1 + 1 + 1 + 1) = some err := hfail
    simp only [record_store, hnew, InsertNewOwner, InsertNewOrgReservation,
      record_calls, List.length_append, List.length_singleton, h3, h4]
    simp [Gateway.record]

/-! ### Reads after the last retract -/

theorem reservations_noFaults (email : String) (g : Gateway) :
    GetReservationsOfOwner noFaults email g
      = (if SelectOrgReservationsByEmailQuery g.store email ≠ [] then
            (SelectOrgReservationsByEmailQuery g.store email, none)
          else
            ([], some (Newf Error_NOT_FOUND none
              "No reservations are not found in the registry")),
          g.record (.FindOrgReservationsByEmail email)) := by
  unfold GetReservationsOfOwner FindOrgReservationsByEmail
  simp only [noFaults]
  split <;> rfl

theorem mem_select_names {s : Store} {email : String} {r : OrgReservation} {o : Owner}
    (hr : r ∈ s.orgs) (ho : o ∈ s.owners) (hid : r.OwnerId = o.Id) (he : o.Email = email) :
    r.OrganizationName ∈ SelectOrgReservationsByEmailQuery s email := by
  unfold SelectOrgReservationsByEmailQuery
  rw [List.mem_flatMap]
  refine ⟨r, hr, ?_⟩
  rw [List.mem_map]
  refine ⟨o, ?_, rfl⟩
  rw [List.mem_filter]
  exact ⟨ho, by simp [hid, he]⟩

theorem delete_absent (g : Gateway) (email : String) (payload : ReservationDeletePayload)
    (hmail : validateEmail email = true)
    (habsent : ownLookup g.store payload.OrganizationName email = none) :
    DeleteReservationsOfOwner noFaults email payload g
      = (.value
          (some (Newf Error_NOT_FOUND none
            (payload.OrganizationName ++ " is not found in the registry with your ownership"))),
          g.record (.GetOrgReservationByNameAndEmail payload.OrganizationName email)) := by
  unfold DeleteReservationsOfOwner
  rw [service_own_noFaults _ _ _ hmail, habsent]
  rfl

/-! ### The effect of the operations on the tables -/

theorem service_own_invalid (F : Faults) (orgName ownerEmail : String) (g : Gateway)
    (hmail : validateEmail ownerEmail = false) :
    GetOwnReservationWithNameAndMail F orgName ownerEmail g
      = ((none, false, some (Newf Error_INVALID_REQUEST none "Email is invalid")), g) := by
  unfold GetOwnReservationWithNameAndMail
  simp only [hmail, Bool.not_false, if_true]

/-- The effect of `CreateNewOrgReservation` on the tables, on a gateway that does
not fail: none, the update of the flags of an owned reservation, or the inserts of
a new reservation under a free name. -/
theorem create_store_cases (newOwnerId newUuid : String) (p : OrgReservationPayload)
    (g : Gateway) :
    (CreateNewOrgReservation noFaults newOwnerId newUuid p g).2.store = g.store
    ∨ (∃ m, ownLookup g.store p.OrganizationName p.OwnerEmail = some m
        ∧ setCloud p.CloudService m.CloudMapping ≠ m.CloudMapping
        ∧ (CreateNewOrgReservation noFaults newOwnerId newUuid p g).2.store
            = { g.store with
                clouds := updateClouds (setCloud p.CloudService m.CloudMapping) g.store.clouds })
    ∨ (nameLookup g.store p.OrganizationName = none
        ∧ (CreateNewOrgReservation noFaults newOwnerId newUuid p g).2.store
            = storeAfterCreate g.store newOwnerId newUuid p) := by
  cases hmail : validateEmail p.OwnerEmail with
  | false =>
    left
    unfold CreateNewOrgReservation
    simp only [hmail, Bool.not_false, if_true]
  | true =>
    cases hname : validateOrgName p.OrganizationName with
    | false =>
      left
      unfold CreateNewOrgReservation
      simp only [hmail, hname, Bool.not_false, Bool.not_true, Bool.false_eq_true, if_true,
        if_false]
    | true =>
      cases hown : ownLookup g.store p.OrganizationName p.OwnerEmail with
      | some m =>
        by_cases hsame : setCloud p.CloudService m.CloudMapping = m.CloudMapping
        · left
          rw [create_owned_same newOwnerId newUuid p g m hmail hname hown hsame]
          rfl
        · right; left
          refine ⟨m, rfl, hsame, ?_⟩
          rw [create_owned_changed newOwnerId newUuid p g m hmail hname hown hsame]
      | none =>
        cases hfree : nameLookup g.store p.OrganizationName with
        | some r =>
          left
          rw [create_taken newOwnerId newUuid p g r hmail hname hown hfree]
        | none =>
          right; right
          refine ⟨rfl, ?_⟩
          rw [create_free newOwnerId newUuid p g hmail hname hown hfree]

theorem names_updateOrgOwner (uuid ownerId : String) (l : List OrgReservation) :
    (updateOrgOwner uuid ownerId l).map (fun r => r.OrganizationName)
      = l.map fun r => r.OrganizationName := by
  unfold updateOrgOwner
  rw [List.map_map]
  apply List.map_congr_left
  intro r _
  simp only [Function.comp]
  split <;> rfl

theorem uuids_updateOrgOwner (uuid ownerId : String) (l : List OrgReservation) :
    (updateOrgOwner uuid ownerId l).map (fun r => r.Uuid) = l.map fun r => r.Uuid := by
  unfold updateOrgOwner
  rw [List.map_map]
  apply List.map_congr_left
  intro r _
  simp only [Function.comp]
  split <;> rfl

/-- The effect of `UpdateOrgMapping` on the tables, on a gateway that does not
fail: none, or the writes of a transfer of an owned reservation. -/
theorem update_store_cases (newOwnerId currentMail : String) (payload : MappingUpdatePayload)
    (g : Gateway) :
    (UpdateOrgMapping noFaults newOwnerId currentMail payload g).2.store = g.store
    ∨ ∃ m, ownLookup g.store payload.OrganizationName currentMail = some m
        ∧ (UpdateOrgMapping noFaults newOwnerId currentMail payload g).2.store
            = storeAfterTransfer g.store newOwnerId payload.NewOwnersEmail
                m.OrgReservation.Uuid := by
  cases hname : validateOrgName payload.OrganizationName with
  | false =>
    left
    unfold UpdateOrgMapping
    simp only [hname, Bool.not_false, if_true]
  | true =>
    cases hnew : validateEmail payload.NewOwnersEmail with
    | false =>
      left
      unfold UpdateOrgMapping
      simp only [hname, hnew, Bool.not_false, Bool.not_true, Bool.false_eq_true, if_true,
        if_false]
    | true =>
      cases hcur : validateEmail currentMail with
      | false =>
        left
        unfold UpdateOrgMapping
        rw [service_own_invalid _ _ _ _ hcur]
        simp only [hname, hnew, Bool.not_true, Bool.false_eq_true, if_false]
      | true =>
        cases hown : ownLookup g.store payload.OrganizationName currentMail with
        | none =>
          left
          rw [update_not_found newOwnerId currentMail payload g hname hnew hcur hown]
          rfl
        | some m =>
          right
          refine ⟨m, rfl, ?_⟩
          have hmem := ownLookup_org_mem hown
          have hmname := (ownLookup_name hown).1
          obtain ⟨r1, hr1⟩ := nameLookup_isSome_of_mem hmem hmname
          have hu := nameLookup_updateOrgOwner g.store
            (storeAfterTransfer g.store newOwnerId payload.NewOwnersEmail m.OrgReservation.Uuid)
            m.OrgReservation.Uuid (resolveOwner g.store newOwnerId payload.NewOwnersEmail).Id
            payload.OrganizationName rfl
          rw [hr1] at hu
          rw [update_found newOwnerId currentMail payload g m _ hname hnew hcur hown hu]

/-- The effect of `DeleteReservationsOfOwner` on the tables, on a gateway that does
not fail: none, the removal of the cloud mapping of an owned reservation, or the
update of its flags. -/
theorem delete_store_cases (email : String) (payload : ReservationDeletePayload)
    (g : Gateway) :
    (DeleteReservationsOfOwner noFaults email payload g).2.store = g.store
    ∨ ∃ m, ownLookup g.store payload.OrganizationName email = some m
        ∧ ((DeleteReservationsOfOwner noFaults email payload g).2.store
              = { g.store with
                  clouds := g.store.clouds.filter fun c =>
                    !(c.ReservationId == m.OrgReservation.Uuid) }
          ∨ (noFlag (withoutFlag payload.CloudService m.CloudMapping) = false
            ∧ (DeleteReservationsOfOwner noFaults email payload g).2.store
                = { g.store with
                    clouds := updateClouds (withoutFlag payload.CloudService m.CloudMapping)
                      g.store.clouds })) := by
  cases hmail : validateEmail email with
  | false =>
    left
    unfold DeleteReservationsOfOwner
    rw [service_own_invalid _ _ _ _ hmail]
  | true =>
    cases hown : ownLookup g.store payload.OrganizationName email with
    | none =>
      left
      unfold DeleteReservationsOfOwner
      rw [service_own_noFaults _ _ _ hmail, hown]
      rfl
    | some m =>
      right
      refine ⟨m, rfl, ?_⟩
      cases hlast : noFlag (withoutFlag payload.CloudService m.CloudMapping) with
      | true =>
        left
        have := delete_owned_last g email payload.OrganizationName payload.CloudService m hmail
          hown hlast
        rw [this]
      | false =>
        right
        refine ⟨rfl, ?_⟩
        have := delete_owned_more g email payload.OrganizationName payload.CloudService m hmail
          hown hlast
        rw [this]

theorem runOps_invariant (P : Store → Prop)
    (hstep : ∀ op g, P g.store → P (Op.run noFaults op g).store) :
    ∀ (ops : List Op) (g : Gateway), P g.store → P (runOps noFaults ops g).store := by
  intro ops
  induction ops with
  | nil => intro g h; exact h
  | cons op ops ih => intro g h; exact ih _ (hstep op g h)

theorem step_uniqueNames (op : Op) (g : Gateway) (h : g.store.uniqueNames) :
    (Op.run noFaults op g).store.uniqueNames := by
  cases op with
  | create newOwnerId newUuid p =>
    rcases create_store_cases newOwnerId newUuid p g with h1 | ⟨m, -, -, h1⟩ | ⟨hfree, h1⟩
    · show Store.uniqueNames (CreateNewOrgReservation noFaults newOwnerId newUuid p g).2.store
      rw [h1]; exact h
    · show Store.uniqueNames (CreateNewOrgReservation noFaults newOwnerId newUuid p g).2.store
      rw [h1]; exact h
    · show Store.uniqueNames (CreateNewOrgReservation noFaults newOwnerId newUuid p g).2.store
      rw [h1]
      unfold Store.uniqueNames storeAfterCreate
      simp only [List.map_append, List.map_cons, List.map_nil]
      rw [List.nodup_append]
      refine ⟨h, List.nodup_singleton _, ?_⟩
      intro n hn hn1
      rw [List.mem_singleton] at hn1
      subst hn1
      obtain ⟨r, hr, hrn⟩ := List.mem_map.1 hn
      exact nameLookup_eq_none.1 hfree r hr hrn
  | update newOwnerId currentMail p =>
    rcases update_store_cases newOwnerId currentMail p g with h1 | ⟨m, -, h1⟩
    · show Store.uniqueNames (UpdateOrgMapping noFaults newOwnerId currentMail p g).2.store
      rw [h1]; exact h
    · show Store.uniqueNames (UpdateOrgMapping noFaults newOwnerId currentMail p g).2.store
      rw [h1]
      unfold Store.uniqueNames storeAfterTransfer
      simp only
      rw [names_updateOrgOwner]
      exact h
  | delete email p =>
    rcases delete_store_cases email p g with h1 | ⟨m, -, h1 | ⟨-, h1⟩⟩
    all_goals
      show Store.uniqueNames (DeleteReservationsOfOwner noFaults email p g).2.store
      rw [h1]; exact h

theorem step_owners (op : Op) (g : Gateway) (h : g.store.uniqueEmails) :
    (Op.run noFaults op g).store.uniqueEmails
    ∧ ∃ added, (Op.run noFaults op g).store.owners = g.store.owners ++ added
        ∧ added.length ≤ 1 := by
  have hsame : ∀ s : Store, s.owners = g.store.owners →
      s.uniqueEmails ∧ ∃ added, s.owners = g.store.owners ++ added ∧ added.length ≤ 1 := by
    intro s hs
    refine ⟨?_, [], by simp [hs], by simp⟩
    unfold Store.uniqueEmails
    rw [hs]; exact h
  have hadd : ∀ (s : Store) (newOwnerId email : String),
      s.owners = (match ownerLookup g.store email with
        | some _ => g.store.owners
        | none => g.store.owners ++ [{ Id := newOwnerId, Email := email }]) →
      s.uniqueEmails ∧ ∃ added, s.owners = g.store.owners ++ added ∧ added.length ≤ 1 := by
    intro s newOwnerId email hs
    cases ho : ownerLookup g.store email with
    | some o =>
      rw [ho] at hs
      exact hsame s hs
    | none =>
      rw [ho] at hs
      refine ⟨?_, _, hs, by simp⟩
      unfold Store.uniqueEmails
      rw [hs]
      simp only [List.map_append, List.map_cons, List.map_nil]
      rw [List.nodup_append]
      refine ⟨h, List.nodup_singleton _, ?_⟩
      intro n hn hn1
      rw [List.mem_singleton] at hn1
      subst hn1
      obtain ⟨o, ho1, ho2⟩ := List.mem_map.1 hn
      unfold ownerLookup at ho
      have := List.find?_eq_none.1 ho o ho1
      simp at this
      exact this ho2
  cases op with
  | create newOwnerId newUuid p =>
    rcases create_store_cases newOwnerId newUuid p g with h1 | ⟨m, -, -, h1⟩ | ⟨hfree, h1⟩
    · exact hsame _ (congrArg Store.owners h1)
    · exact hsame _ ((congrArg Store.owners h1).trans rfl)
    · exact hadd _ newOwnerId p.OwnerEmail (congrArg Store.owners h1)
  | update newOwnerId currentMail p =>
    rcases update_store_cases newOwnerId currentMail p g with h1 | ⟨m, -, h1⟩
    · exact hsame _ (congrArg Store.owners h1)
    · exact hadd _ newOwnerId p.NewOwnersEmail (congrArg Store.owners h1)
  | delete email p =>
    rcases delete_store_cases email p g with h1 | ⟨m, -, h1 | ⟨-, h1⟩⟩
    · exact hsame _ (congrArg Store.owners h1)
    · exact hsame _ ((congrArg Store.owners h1).trans rfl)
    · exact hsame _ ((congrArg Store.owners h1).trans rfl)

theorem ids_updateClouds (cloud : CloudReservation) (l : List CloudReservation) :
    (updateClouds cloud l).map (fun c => c.ReservationId) = l.map fun c => c.ReservationId := by
  unfold updateClouds
  rw [List.map_map]
  apply List.map_congr_left
  intro c _
  simp only [Function.comp]
  split <;> rfl

theorem cloudsHaveParent_iff (s : Store) :
    s.cloudsHaveParent ↔
      ∀ id ∈ s.clouds.map (fun c => c.ReservationId), id ∈ s.orgs.map fun r => r.Uuid := by
  unfold Store.cloudsHaveParent
  constructor
  · intro h id hid
    obtain ⟨c, hc, rfl⟩ := List.mem_map.1 hid
    obtain ⟨r, hr, hrc⟩ := h c hc
    exact List.mem_map.2 ⟨r, hr, hrc⟩
  · intro h c hc
    obtain ⟨r, hr, hrc⟩ := List.mem_map.1 (h _ (List.mem_map.2 ⟨c, hc, rfl⟩))
    exact ⟨r, hr, hrc⟩

/-- The three invariants depend on the reservation ids of `MAPPED_CLOUDS` and on
the uuids of `ORGANIZATION_RESERVATION` only. -/
theorem cloud_inv_of_lists {s s1 : Store}
    (h : s.cloudsHaveParent ∧ s.uniqueCloudIds ∧ s.uniqueUuids)
    (hids : (s1.clouds.map fun c => c.ReservationId).Sublist
      (s.clouds.map fun c => c.ReservationId))
    (huuids : (s1.orgs.map fun r => r.Uuid) = s.orgs.map fun r => r.Uuid) :
    s1.cloudsHaveParent ∧ s1.uniqueCloudIds ∧ s1.uniqueUuids := by
  obtain ⟨h1, h2, h3⟩ := h
  rw [cloudsHaveParent_iff] at h1 ⊢
  unfold Store.uniqueCloudIds Store.uniqueUuids at *
  rw [huuids]
  exact ⟨fun id hid => h1 id (hids.subset hid), h2.sublist hids, h3⟩

theorem setCloud_known_flag {key : String} (c : CloudReservation)
    (h : (key == ChoreoKey || key == AsgardioKey || key == BallerinaKey) = true) :
    noFlag (setCloud key c) = false := by
  simp only [Bool.or_eq_true, beq_iff_eq] at h
  obtain ⟨f1, f2, f3⟩ := setCloud_flags key c
  apply noFlag_eq_false_of_flag
  rcases h with (h | h) | h
  · left; rw [f1]; simp [h]
  · right; left; rw [f2]; simp [h]
  · right; right; rw [f3]; simp [h]

theorem setCloud_changed_flag {key : String} {c : CloudReservation}
    (h : setCloud key c ≠ c) : noFlag (setCloud key c) = false := by
  by_cases hk : (key == ChoreoKey || key == AsgardioKey || key == BallerinaKey) = true
  · exact setCloud_known_flag c hk
  · simp only [Bool.or_eq_true, beq_iff_eq, not_or] at hk
    exact absurd (setCloud_other key c hk.1.1 hk.1.2 hk.2) h

theorem flags_updateClouds (cloud : CloudReservation) (l : List CloudReservation)
    (hcloud : noFlag cloud = false) (h : ∀ c ∈ l, noFlag c = false) :
    ∀ c ∈ updateClouds cloud l, noFlag c = false := by
  intro c hc
  unfold updateClouds at hc
  obtain ⟨c0, hc0, rfl⟩ := List.mem_map.1 hc
  split
  · exact hcloud
  · exact h c0 hc0

/-- The effect of lines 98 to 144 of `mapper.go` on the reservations and the cloud
mappings, for every fault oracle. -/
theorem createEntries_frame (F : Faults) (newOwnerId newUuid : String)
    (p : OrgReservationPayload) (cm : CloudReservation) (g2 : Gateway) :
    ((createEntries F newOwnerId newUuid p cm g2).2.store.clouds = g2.store.clouds
      ∧ ((createEntries F newOwnerId newUuid p cm g2).2.store.orgs = g2.store.orgs
        ∨ ∃ ownerId, (createEntries F newOwnerId newUuid p cm g2).2.store.orgs
            = g2.store.orgs ++
              [{ Uuid := newUuid, OrganizationName := p.OrganizationName, OwnerId := ownerId }]))
    ∨ ∃ ownerId,
        (createEntries F newOwnerId newUuid p cm g2).2.store.orgs
          = g2.store.orgs ++
            [{ Uuid := newUuid, OrganizationName := p.OrganizationName, OwnerId := ownerId }]
        ∧ (createEntries F newOwnerId newUuid p cm g2).2.store.clouds
          = g2.store.clouds ++ [{ cm with ReservationId := newUuid }] := by
  unfold createEntries
  cases h2 : F g2.calls.length with
  | some err =>
    simp only [GetOwnerByEmail, h2]
    exact Or.inl ⟨rfl, Or.inl rfl⟩
  | none =>
    rw [repo_owner_ok F _ _ h2]
    cases hO : ownerLookup g2.store p.OwnerEmail with
    | some o =>
      simp only [InsertNewOrgReservation, InsertNewCloudMappingEntry, record_calls,
        record_store, List.length_append, List.length_singleton]
      cases h3 : F (g2.calls.length + 1) with
      | some err => exact Or.inl ⟨rfl, Or.inl rfl⟩
      | none =>
        simp only [List.length_append, List.length_singleton, record_calls, record_store]
        cases h4 : F (g2.calls.length + 1 + 1) with
        | some err => exact Or.inl ⟨rfl, Or.inr ⟨_, rfl⟩⟩
        | none => exact Or.inr ⟨_, rfl, rfl⟩
    | none =>
      simp only [InsertNewOwner, InsertNewOrgReservation, InsertNewCloudMappingEntry,
        record_calls, record_store, List.length_append, List.length_singleton]
      cases h3 : F (g2.calls.length + 1) with
      | some err => exact Or.inl ⟨rfl, Or.inl rfl⟩
      | none =>
        simp only [List.length_append, List.length_singleton, record_calls, record_store]
        cases h4 : F (g2.calls.length + 1 + 1) with
        | some err => exact Or.inl ⟨rfl, Or.inl rfl⟩
        | none =>
          simp only [List.length_append, List.length_singleton, record_calls, record_store]
          cases h5 : F (g2.calls.length + 1 + 1 + 1) with
          | some err => exact Or.inl ⟨rfl, Or.inr ⟨_, rfl⟩⟩
          | none => exact Or.inr ⟨_, rfl, rfl⟩

/-- The effect of `CreateNewOrgReservation` on the reservations and the cloud
mappings, for every fault oracle: the cloud mappings are as before and at most the
new reservation was inserted; or the flags of the owned reservation were updated;
or the new reservation and its cloud mapping were inserted. -/
theorem create_frame (F : Faults) (newOwnerId newUuid : String) (p : OrgReservationPayload)
    (g g1 : Gateway) (h : g1 = (CreateNewOrgReservation F newOwnerId newUuid p g).2) :
    (g1.store.clouds = g.store.clouds
      ∧ (g1.store.orgs = g.store.orgs
        ∨ ∃ ownerId, g1.store.orgs = g.store.orgs ++
            [{ Uuid := newUuid, OrganizationName := p.OrganizationName, OwnerId := ownerId }]))
    ∨ (∃ m : OrgReservationMapping, setCloud p.CloudService m.CloudMapping ≠ m.CloudMapping
        ∧ g1.store.orgs = g.store.orgs
        ∧ g1.store.clouds
            = updateClouds (setCloud p.CloudService m.CloudMapping) g.store.clouds)
    ∨ ∃ ownerId,
        g1.store.orgs = g.store.orgs ++
          [{ Uuid := newUuid, OrganizationName := p.OrganizationName, OwnerId := ownerId }]
        ∧ g1.store.clouds
            = g.store.clouds ++ [{ setCloud p.CloudService {} with ReservationId := newUuid }] := by
  subst h
  have hentries : ∀ g2 : Gateway, g2.store = g.store →
      ((createEntries F newOwnerId newUuid p (setCloud p.CloudService {}) g2).2.store.clouds
          = g.store.clouds
        ∧ ((createEntries F newOwnerId newUuid p (setCloud p.CloudService {}) g2).2.store.orgs
            = g.store.orgs
          ∨ ∃ ownerId,
              (createEntries F newOwnerId newUuid p (setCloud p.CloudService {}) g2).2.store.orgs
                = g.store.orgs ++
                  [{ Uuid := newUuid, OrganizationName := p.OrganizationName,
                     OwnerId := ownerId }]))
      ∨ (∃ m : OrgReservationMapping, setCloud p.CloudService m.CloudMapping ≠ m.CloudMapping
          ∧ (createEntries F newOwnerId newUuid p (setCloud p.CloudService {}) g2).2.store.orgs
              = g.store.orgs
          ∧ (createEntries F newOwnerId newUuid p (setCloud p.CloudService {}) g2).2.store.clouds
              = updateClouds (setCloud p.CloudService m.CloudMapping) g.store.clouds)
      ∨ ∃ ownerId,
          (createEntries F newOwnerId newUuid p (setCloud p.CloudService {}) g2).2.store.orgs
            = g.store.orgs ++
              [{ Uuid := newUuid, OrganizationName := p.OrganizationName, OwnerId := ownerId }]
          ∧ (createEntries F newOwnerId newUuid p (setCloud p.CloudService {}) g2).2.store.clouds
            = g.store.clouds
                ++ [{ setCloud p.CloudService {} with ReservationId := newUuid }] := by
    intro g2 hg2
    rw [← hg2]
    rcases createEntries_frame F newOwnerId newUuid p (setCloud p.CloudService {}) g2
      with h1 | h1
    · exact Or.inl h1
    · exact Or.inr (Or.inr h1)
  by_cases hmail : validateEmail p.OwnerEmail = true
  swap
  · unfold CreateNewOrgReservation
    simp only [hmail]
    exact Or.inl ⟨rfl, Or.inl rfl⟩
  by_cases hname : validateOrgName p.OrganizationName = true
  swap
  · unfold CreateNewOrgReservation
    simp only [hmail, hname]
    exact Or.inl ⟨rfl, Or.inl rfl⟩
  cases h0 : F g.calls.length with
  | some err =>
    unfold CreateNewOrgReservation
    rw [service_own_fault F _ _ _ err hmail h0]
    simp only [hmail, hname]
    exact Or.inl ⟨rfl, Or.inl rfl⟩
  | none =>
    cases hown : ownLookup g.store p.OrganizationName p.OwnerEmail with
    | none =>
      rw [create_not_owned F _ _ p g hmail hname h0 hown]
      cases h1 : F (g.record
          (.GetOrgReservationByNameAndEmail p.OrganizationName p.OwnerEmail)).calls.length with
      | some err =>
        rw [service_name_fault F _ _ err h1]
        simp only
        cases hIs : Is (some err) Error_DUPLICATE_RESERVATION with
        | true =>
          simp only [Bool.not_true, Bool.false_eq_true, if_false]
          exact Or.inl ⟨rfl, Or.inl rfl⟩
        | false =>
          simp only [Bool.not_false, if_true]
          exact hentries _ rfl
      | none =>
        rw [service_name_ok F _ _ h1]
        cases hnm : nameLookup g.store p.OrganizationName with
        | some r0 =>
          simp only [record_store, hnm, Is_Newf, Bool.not_true, Bool.false_eq_true, if_false]
          exact Or.inl ⟨trivial, Or.inl trivial⟩
        | none =>
          simp only [record_store, hnm, Is_none, Bool.not_false, if_true]
          exact hentries _ rfl
    | some m =>
      rw [create_owned F _ _ p g m hmail hname h0 hown]
      by_cases hsame : setCloud p.CloudService m.CloudMapping = m.CloudMapping
      · rw [if_pos hsame]
        exact Or.inl ⟨rfl, Or.inl rfl⟩
      · rw [if_neg hsame]
        simp only [UpdateCloudMappingById, record_calls, record_store, List.length_append,
          List.length_singleton]
        cases h1 : F (g.calls.length + 1) with
        | some err => exact Or.inl ⟨rfl, Or.inl rfl⟩
        | none => exact Or.inr (Or.inl ⟨m, hsame, rfl, rfl⟩)

/-- The effect of `DeleteReservationsOfOwner` on the tables, for every fault
oracle: none; or the cloud mappings of one reservation id were removed; or flags
were updated to values that are not all false. -/
theorem delete_frame (F : Faults) (email : String) (payload : ReservationDeletePayload)
    (g g1 : Gateway) (h : g1 = (DeleteReservationsOfOwner F email payload g).2) :
    g1.store.orgs = g.store.orgs
    ∧ (g1.store.clouds = g.store.clouds
      ∨ (∃ id, g1.store.clouds = g.store.clouds.filter fun c => !(c.ReservationId == id))
      ∨ ∃ cloud, noFlag cloud = false ∧ g1.store.clouds = updateClouds cloud g.store.clouds) := by
  subst h
  cases hmail : validateEmail email with
  | false =>
    unfold DeleteReservationsOfOwner
    rw [service_own_invalid _ _ _ _ hmail]
    exact ⟨rfl, Or.inl rfl⟩
  | true =>
    cases h0 : F g.calls.length with
    | some err =>
      unfold DeleteReservationsOfOwner
      rw [service_own_fault F _ _ _ err hmail h0]
      exact ⟨rfl, Or.inl rfl⟩
    | none =>
      unfold DeleteReservationsOfOwner
      rw [service_own_ok F _ _ _ hmail h0]
      cases hown : ownLookup g.store payload.OrganizationName email with
      | none => exact ⟨rfl, Or.inl rfl⟩
      | some m =>
        have hclear := clearCloud_eq_withoutFlag payload.CloudService m.CloudMapping
        unfold clearCloud at hclear
        simp only [Option.isSome_some, hclear, Bool.not_true, Bool.false_eq_true, if_false]
        cases hlast : noFlag (withoutFlag payload.CloudService m.CloudMapping) with
        | true =>
          have hl := hlast
          simp only [noFlag, Bool.and_eq_true, Bool.not_eq_true'] at hl
          simp only [hl.1.1, hl.1.2, hl.2, Bool.and_self, decide_True, if_true,
            DeleteCloudMappingEntryById, record_calls, record_store, List.length_append,
            List.length_singleton]
          cases h1 : F (g.calls.length + 1) with
          | some err => exact ⟨rfl, Or.inl rfl⟩
          | none => exact ⟨rfl, Or.inr (Or.inl ⟨_, rfl⟩)⟩
        | false =>
          have hne : ¬ ((withoutFlag payload.CloudService m.CloudMapping).BallerinaCloud = false
              ∧ (withoutFlag payload.CloudService m.CloudMapping).ChoreoCloud = false
              ∧ (withoutFlag payload.CloudService m.CloudMapping).AsgardioCloud = false) := by
            rintro ⟨a, b, c⟩
            rw [noFlag_of_flags _ ⟨b, c, a⟩] at hlast
            cases hlast
          have hcond : (decide ((withoutFlag payload.CloudService m.CloudMapping).BallerinaCloud
                = false)
              && decide ((withoutFlag payload.CloudService m.CloudMapping).ChoreoCloud = false)
              && decide ((withoutFlag payload.CloudService m.CloudMapping).AsgardioCloud = false))
              = false := by
            rw [Bool.eq_false_iff]
            intro hc
            simp only [Bool.and_eq_true, decide_eq_true_eq] at hc
            exact hne ⟨hc.1.1, hc.1.2, hc.2⟩
          simp only [hcond, Bool.false_eq_true, if_false, UpdateCloudMappingById, record_calls,
            record_store, List.length_append, List.length_singleton]
          cases h1 : F (g.calls.length + 1) with
          | some err => exact ⟨rfl, Or.inl rfl⟩
          | none => exact ⟨rfl, Or.inr (Or.inr ⟨_, hlast, rfl⟩)⟩

/-- The effect of `UpdateOrgMapping` on the reservations and the cloud mappings,
for every fault oracle: the cloud mappings are as before, and the reservations
are as before or owner ids were rewritten. -/
theorem update_frame (F : Faults) (newOwnerId currentMail : String)
    (payload : MappingUpdatePayload) (g g1 : Gateway)
    (h : g1 = (UpdateOrgMapping F newOwnerId currentMail payload g).2) :
    g1.store.clouds = g.store.clouds
    ∧ (g1.store.orgs = g.store.orgs
      ∨ ∃ uuid ownerId, g1.store.orgs = updateOrgOwner uuid ownerId g.store.orgs) := by
  subst h
  cases hname : validateOrgName payload.OrganizationName with
  | false =>
    unfold UpdateOrgMapping
    simp only [hname, Bool.not_false, if_true]
    exact ⟨trivial, Or.inl trivial⟩
  | true =>
    cases hnew : validateEmail payload.NewOwnersEmail with
    | false =>
      unfold UpdateOrgMapping
      simp only [hname, hnew, Bool.not_false, Bool.not_true, Bool.false_eq_true, if_true,
        if_false]
      exact ⟨trivial, Or.inl trivial⟩
    | true =>
      cases hcur : validateEmail currentMail with
      | false =>
        unfold UpdateOrgMapping
        rw [service_own_invalid _ _ _ _ hcur]
        simp only [hname, hnew, Bool.not_true, Bool.false_eq_true, if_false]
        exact ⟨trivial, Or.inl trivial⟩
      | true =>
        cases h0 : F g.calls.length with
        | some err =>
          unfold UpdateOrgMapping
          rw [service_own_fault F _ _ _ err hcur h0]
          simp only [hname, hnew, Bool.not_true, Bool.false_eq_true, if_false]
          exact ⟨rfl, Or.inl rfl⟩
        | none =>
          unfold UpdateOrgMapping
          rw [service_own_ok F _ _ _ hcur h0]
          cases hown : ownLookup g.store payload.OrganizationName currentMail with
          | none =>
            simp only [hname, hnew, Option.isSome_none, Bool.not_true, Bool.not_false,
              Bool.false_eq_true, if_false, if_true]
            exact ⟨rfl, Or.inl rfl⟩
          | some m =>
            simp only [hname, hnew, Option.isSome_some, Bool.not_true, Bool.false_eq_true,
              if_false]
            cases h1 : F (g.calls.length + 1) with
            | some err =>
              simp only [GetOwnerByEmail, record_calls, record_store, List.length_append,
                List.length_singleton, h1]
              exact ⟨trivial, Or.inl trivial⟩
            | none =>
              rw [repo_owner_ok F _ _ (by simpa using h1)]
              rcases hO : ownerLookup g.store payload.NewOwnersEmail with _ | o
              swap
              · simp only [record_store, hO, Option.isSome_some, if_true]
                cases h2 : F (g.calls.length + 1 + 1) with
                | some err =>
                  simp only [GetOwnerByEmail, record_calls, record_store, List.length_append,
                    List.length_singleton, h2]
                  exact ⟨trivial, Or.inl trivial⟩
                | none =>
                  rw [repo_owner_ok F _ _ (by simpa using h2)]
                  simp only [record_store, hO, UpdateOrgReservationById, record_calls,
                    List.length_append, List.length_singleton]
                  cases h3 : F (g.calls.length + 1 + 1 + 1) with
                  | some err =>
                    exact ⟨rfl, Or.inl rfl⟩
                  | none =>
                    simp only [GetOrgReservationByName, record_calls, record_store,
                      List.length_append, List.length_singleton]
                    cases h4 : F (g.calls.length + 1 + 1 + 1 + 1) with
                    | some err => exact ⟨rfl, Or.inr ⟨_, _, rfl⟩⟩
                    | none =>
                      simp only
                      generalize (GetOrgReservationByOrgNameQuery _ _).head? = q
                      cases q <;> exact ⟨rfl, Or.inr ⟨_, _, rfl⟩⟩
              · simp only [record_store, hO, Option.isSome_none, Bool.false_eq_true, if_false,
                  InsertNewOwner, record_calls, List.length_append, List.length_singleton]
                cases h2 : F (g.calls.length + 1 + 1) with
                | some err =>
                    exact ⟨rfl, Or.inl rfl⟩
                | none =>
                  simp only [UpdateOrgReservationById, record_calls, record_store,
                    List.length_append, List.length_singleton]
                  cases h3 : F (g.calls.length + 1 + 1 + 1) with
                  | some err =>
                    exact ⟨rfl, Or.inl rfl⟩
                  | none =>
                    simp only [GetOrgReservationByName, record_calls, record_store,
                      List.length_append, List.length_singleton]
                    cases h4 : F (g.calls.length + 1 + 1 + 1 + 1) with
                    | some err => exact ⟨rfl, Or.inr ⟨_, _, rfl⟩⟩
                    | none =>
                      simp only
                      generalize (GetOrgReservationByOrgNameQuery _ _).head? = q
                      cases q <;> exact ⟨rfl, Or.inr ⟨_, _, rfl⟩⟩

/-- The three invariants are kept when the reservation ids of `MAPPED_CLOUDS`
become a sublist and `ORGANIZATION_RESERVATION` keeps its uuids or gains one that
is fresh. -/
theorem cloud_inv_of_sublist {s s1 : Store} {newUuid : String}
    (h : s.cloudsHaveParent ∧ s.uniqueCloudIds ∧ s.uniqueUuids)
    (hnew : newUuid ∉ s.orgs.map fun r => r.Uuid)
    (hids : (s1.clouds.map fun c => c.ReservationId).Sublist
      (s.clouds.map fun c => c.ReservationId))
    (huuids : (s1.orgs.map fun r => r.Uuid) = (s.orgs.map fun r => r.Uuid)
      ∨ (s1.orgs.map fun r => r.Uuid) = (s.orgs.map fun r => r.Uuid) ++ [newUuid]) :
    s1.cloudsHaveParent ∧ s1.uniqueCloudIds ∧ s1.uniqueUuids := by
  obtain ⟨h1, h2, h3⟩ := h
  rw [cloudsHaveParent_iff] at h1 ⊢
  unfold Store.uniqueCloudIds Store.uniqueUuids at *
  rcases huuids with hu | hu
  · rw [hu]
    exact ⟨fun id hid => h1 id (hids.subset hid), h2.sublist hids, h3⟩
  · rw [hu]
    refine ⟨fun id hid => List.mem_append_left _ (h1 id (hids.subset hid)), h2.sublist hids, ?_⟩
    rw [List.nodup_append]
    refine ⟨h3, List.nodup_singleton _, ?_⟩
    intro id hid hid1
    rw [List.mem_singleton] at hid1
    subst hid1
    exact hnew hid

/-- The three invariants are kept when a reservation with a fresh uuid and its
cloud mapping are inserted. -/
theorem cloud_inv_of_insert {s s1 : Store} {newUuid : String}
    (h : s.cloudsHaveParent ∧ s.uniqueCloudIds ∧ s.uniqueUuids)
    (hnew : newUuid ∉ s.orgs.map fun r => r.Uuid)
    (hids : (s1.clouds.map fun c => c.ReservationId)
      = (s.clouds.map fun c => c.ReservationId) ++ [newUuid])
    (huuids : (s1.orgs.map fun r => r.Uuid) = (s.orgs.map fun r => r.Uuid) ++ [newUuid]) :
    s1.cloudsHaveParent ∧ s1.uniqueCloudIds ∧ s1.uniqueUuids := by
  obtain ⟨h1, h2, h3⟩ := h
  rw [cloudsHaveParent_iff] at h1 ⊢
  unfold Store.uniqueCloudIds Store.uniqueUuids at *
  rw [hids, huuids]
  refine ⟨?_, ?_, ?_⟩
  · intro id hid
    rcases List.mem_append.1 hid with hid | hid
    · exact List.mem_append_left _ (h1 id hid)
    · exact List.mem_append_right _ hid
  · rw [List.nodup_append]
    refine ⟨h2, List.nodup_singleton _, ?_⟩
    intro id hid hid1
    rw [List.mem_singleton] at hid1
    subst hid1
    exact hnew (h1 _ hid)
  · rw [List.nodup_append]
    refine ⟨h3, List.nodup_singleton _, ?_⟩
    intro id hid hid1
    rw [List.mem_singleton] at hid1
    subst hid1
    exact hnew hid

theorem step_cloud_inv (F : Faults) (op : Op) (g : Gateway) (hfresh : op.fresh g = true)
    (h : g.store.cloudsHaveParent ∧ g.store.uniqueCloudIds ∧ g.store.uniqueUuids) :
    (Op.run F op g).store.cloudsHaveParent
      ∧ (Op.run F op g).store.uniqueCloudIds
      ∧ (Op.run F op g).store.uniqueUuids := by
  cases op with
  | create newOwnerId newUuid p =>
    have hnew : newUuid ∉ g.store.orgs.map fun r => r.Uuid := by
      intro hmem
      obtain ⟨r, hr, hru⟩ := List.mem_map.1 hmem
      simp only [Op.fresh, Bool.not_eq_true', List.any_eq_false, beq_iff_eq] at hfresh
      exact hfresh r hr hru
    rcases create_frame F newOwnerId newUuid p g
        (Op.run F (.create newOwnerId newUuid p) g) rfl
      with ⟨hc, ho | ⟨ownerId, ho⟩⟩ | ⟨m, -, ho, hc⟩ | ⟨ownerId, ho, hc⟩
    · exact cloud_inv_of_sublist h hnew (by rw [hc]) (Or.inl (by rw [ho]))
    · exact cloud_inv_of_sublist h hnew (by rw [hc]) (Or.inr (by rw [ho]; simp))
    · exact cloud_inv_of_sublist h hnew (by rw [hc, ids_updateClouds]) (Or.inl (by rw [ho]))
    · exact cloud_inv_of_insert h hnew (by rw [hc]; simp) (by rw [ho]; simp)
  | update newOwnerId currentMail p =>
    rcases update_frame F newOwnerId currentMail p g
        (Op.run F (.update newOwnerId currentMail p) g) rfl with ⟨hc, ho | ⟨uuid, ownerId, ho⟩⟩
    · exact cloud_inv_of_lists h (by rw [hc]) (by rw [ho])
    · exact cloud_inv_of_lists h (by rw [hc]) (by rw [ho, uuids_updateOrgOwner])
  | delete email p =>
    rcases delete_frame F email p g
        (Op.run F (.delete email p) g) rfl with ⟨ho, hc | ⟨id, hc⟩ | ⟨cloud, -, hc⟩⟩
    · exact cloud_inv_of_lists h (by rw [hc]) (by rw [ho])
    · exact cloud_inv_of_lists h (by rw [hc]; exact (List.filter_sublist _).map _) (by rw [ho])
    · exact cloud_inv_of_lists h (by rw [hc, ids_updateClouds]) (by rw [ho])

theorem step_flags (F : Faults) (op : Op) (g : Gateway) (hkey : op.keyKnown = true)
    (h : ∀ c ∈ g.store.clouds, noFlag c = false) :
    ∀ c ∈ (Op.run F op g).store.clouds, noFlag c = false := by
  cases op with
  | create newOwnerId newUuid p =>
    rcases create_frame F newOwnerId newUuid p g
        (Op.run F (.create newOwnerId newUuid p) g) rfl
      with ⟨hc, -⟩ | ⟨m, hdiff, -, hc⟩ | ⟨ownerId, -, hc⟩
    · intro c hcm
      exact h c (hc ▸ hcm)
    · intro c hcm
      exact flags_updateClouds _ _ (setCloud_changed_flag hdiff) h c (hc ▸ hcm)
    · intro c hcm
      have hcm1 : c ∈ g.store.clouds
          ++ [{ setCloud p.CloudService {} with ReservationId := newUuid }] := hc ▸ hcm
      rcases List.mem_append.1 hcm1 with h1 | h1
      · exact h c h1
      · rw [List.mem_singleton] at h1
        subst h1
        exact setCloud_known_flag {} hkey
  | update newOwnerId currentMail p =>
    obtain ⟨hc, -⟩ := update_frame F newOwnerId currentMail p g
        (Op.run F (.update newOwnerId currentMail p) g) rfl
    intro c hcm
    exact h c (hc ▸ hcm)
  | delete email p =>
    rcases delete_frame F email p g
        (Op.run F (.delete email p) g) rfl with ⟨-, hc | ⟨id, hc⟩ | ⟨cloud, hcloud, hc⟩⟩
    · intro c hcm
      exact h c (hc ▸ hcm)
    · intro c hcm
      have hcm1 : c ∈ g.store.clouds.filter fun c => !(c.ReservationId == id) := hc ▸ hcm
      exact h c (List.mem_filter.1 hcm1).1
    · intro c hcm
      exact flags_updateClouds _ _ hcloud h c (hc ▸ hcm)

theorem runOps_cloud_inv (F : Faults) :
    ∀ (ops : List Op) (g : Gateway), freshRun F ops g = true →
      (g.store.cloudsHaveParent ∧ g.store.uniqueCloudIds ∧ g.store.uniqueUuids) →
      (runOps F ops g).store.cloudsHaveParent
        ∧ (runOps F ops g).store.uniqueCloudIds
        ∧ (runOps F ops g).store.uniqueUuids := by
  intro ops
  induction ops with
  | nil => intro g _ h; exact h
  | cons op ops ih =>
    intro g hf h
    simp only [freshRun, Bool.and_eq_true] at hf
    exact ih _ hf.2 (step_cloud_inv F op g hf.1 h)

theorem runOps_flags (F : Faults) :
    ∀ (ops : List Op) (g : Gateway), (∀ op ∈ ops, op.keyKnown = true) →
      (∀ c ∈ g.store.clouds, noFlag c = false) →
      ∀ c ∈ (runOps F ops g).store.clouds, noFlag c = false := by
  intro ops
  induction ops with
  | nil => intro g _ h; exact h
  | cons op ops ih =>
    intro g hk h
    exact ih _ (fun o ho => hk o (List.mem_cons_of_mem _ ho))
      (step_flags F op g (hk op (List.mem_cons_self _ _)) h)

theorem filter_id_length_le_one (l : List CloudReservation) (id : String)
    (h : (l.map fun c => c.ReservationId).Nodup) :
    (l.filter fun c => c.ReservationId == id).length ≤ 1 := by
  induction l with
  | nil => simp
  | cons c l ih =>
    rw [List.map_cons, List.nodup_cons] at h
    by_cases hc : c.ReservationId = id
    · have hnil : l.filter (fun c => c.ReservationId == id) = [] := by
        rw [List.filter_eq_nil_iff]
        intro c1 hc1 h1
        apply h.1
        rw [hc]
        exact List.mem_map.2 ⟨c1, hc1, by simpa using h1⟩
      rw [List.filter_cons_of_pos (by simpa using hc), hnil]
      simp
    · rw [List.filter_cons_of_neg (by simpa using hc)]
      exact ih h.2

/-! ### The matcher and the two patterns -/

namespace Regex

theorem matchList_never (l : List Char) : matchList never l = false := by
  induction l with
  | nil => rfl
  | cons c cs ih => exact ih

theorem matchList_eps (l : List Char) : matchList eps l = true ↔ l = [] := by
  cases l with
  | nil => exact ⟨fun _ => rfl, fun _ => rfl⟩
  | cons c cs =>
    constructor
    · intro h
      have : matchList never cs = true := h
      rw [matchList_never] at this
      cases this
    · intro h; cases h

theorem matchList_alt (a b : Regex) (l : List Char) :
    matchList (alt a b) l = (matchList a l || matchList b l) := by
  induction l generalizing a b with
  | nil => rfl
  | cons c cs ih => exact ih _ _

theorem matchList_cat (a b : Regex) (l : List Char) :
    matchList (cat a b) l = true ↔
      ∃ x y, l = x ++ y ∧ matchList a x = true ∧ matchList b y = true := by
  induction l generalizing a with
  | nil =>
    constructor
    · intro h
      have h1 : (nullable a && nullable b) = true := h
      rw [Bool.and_eq_true] at h1
      exact ⟨[], [], rfl, h1.1, h1.2⟩
    · rintro ⟨x, y, hxy, hx, hy⟩
      have hx0 : x = [] := (List.append_eq_nil.1 hxy.symm).1
      have hy0 : y = [] := (List.append_eq_nil.1 hxy.symm).2
      subst hx0; subst hy0
      show (nullable a && nullable b) = true
      rw [Bool.and_eq_true]
      exact ⟨hx, hy⟩
  | cons c cs ih =>
    have hstep : matchList (cat a b) (c :: cs) = matchList (deriv c (cat a b)) cs := rfl
    rw [hstep]
    cases hn : nullable a with
    | true =>
      have hd : deriv c (cat a b) = alt (cat (deriv c a) b) (deriv c b) := by
        simp only [deriv, hn, if_true]
      rw [hd, matchList_alt, Bool.or_eq_true, ih]
      constructor
      · rintro (⟨x, y, hxy, hx, hy⟩ | h)
        · exact ⟨c :: x, y, by rw [hxy]; rfl, hx, hy⟩
        · exact ⟨[], c :: cs, rfl, hn, h⟩
      · rintro ⟨x, y, hxy, hx, hy⟩
        cases x with
        | nil =>
          right
          rw [List.nil_append] at hxy
          rw [← hxy] at hy
          exact hy
        | cons d x =>
          left
          rw [List.cons_append] at hxy
          obtain ⟨rfl, rfl⟩ := List.cons.inj hxy
          exact ⟨x, y, rfl, hx, hy⟩
    | false =>
      have hd : deriv c (cat a b) = cat (deriv c a) b := by
        simp only [deriv, hn, Bool.false_eq_true, if_false]
      rw [hd, ih]
      constructor
      · rintro ⟨x, y, hxy, hx, hy⟩
        exact ⟨c :: x, y, by rw [hxy]; rfl, hx, hy⟩
      · rintro ⟨x, y, hxy, hx, hy⟩
        cases x with
        | nil =>
          have : nullable a = true := hx
          rw [hn] at this
          cases this
        | cons d x =>
          rw [List.cons_append] at hxy
          obtain ⟨rfl, rfl⟩ := List.cons.inj hxy
          exact ⟨x, y, rfl, hx, hy⟩

theorem matchList_cls (p : Char → Bool) (l : List Char) :
    matchList (cls p) l = true ↔ ∃ c, l = [c] ∧ p c = true := by
  cases l with
  | nil =>
    constructor
    · intro h; cases h
    · rintro ⟨c, h, -⟩; cases h
  | cons c cs =>
    have hstep : matchList (cls p) (c :: cs) = matchList (if p c then eps else never) cs := rfl
    rw [hstep]
    cases hp : p c with
    | true =>
      simp only [if_true]
      rw [matchList_eps]
      constructor
      · rintro rfl; exact ⟨c, rfl, hp⟩
      · rintro ⟨d, h, -⟩
        exact (List.cons.inj h).2
    | false =>
      simp only [Bool.false_eq_true, if_false]
      rw [matchList_never]
      constructor
      · intro h; cases h
      · rintro ⟨d, h, hd⟩
        obtain ⟨rfl, -⟩ := List.cons.inj h
        rw [hp] at hd
        cases hd

theorem matchList_star_cls (p : Char → Bool) (l : List Char) :
    matchList (star (cls p)) l = true ↔ ∀ c ∈ l, p c = true := by
  induction l with
  | nil => exact ⟨fun _ c hc => (by cases hc), fun _ => rfl⟩
  | cons c cs ih =>
    have hstep : matchList (star (cls p)) (c :: cs)
        = matchList (cat (if p c then eps else never) (star (cls p))) cs := rfl
    rw [hstep, matchList_cat]
    constructor
    · rintro ⟨x, y, hxy, hx, hy⟩
      cases hp : p c with
      | false =>
        rw [hp] at hx
        simp only [Bool.false_eq_true, if_false] at hx
        rw [matchList_never] at hx
        cases hx
      | true =>
        rw [hp] at hx
        simp only [if_true] at hx
        rw [matchList_eps] at hx
        subst hx
        rw [List.nil_append] at hxy
        subst hxy
        intro d hd
        rcases List.mem_cons.1 hd with rfl | hd
        · exact hp
        · exact ih.1 hy d hd
    · intro h
      refine ⟨[], cs, rfl, ?_, ih.2 fun d hd => h d (List.mem_cons_of_mem _ hd)⟩
      rw [h c (List.mem_cons_self _ _)]
      rfl

theorem matchList_plus_cls (p : Char → Bool) (l : List Char) :
    matchList (plus (cls p)) l = true ↔ l ≠ [] ∧ ∀ c ∈ l, p c = true := by
  unfold plus
  rw [matchList_cat]
  constructor
  · rintro ⟨x, y, hxy, hx, hy⟩
    obtain ⟨c, rfl, hc⟩ := (matchList_cls p x).1 hx
    subst hxy
    refine ⟨by simp, ?_⟩
    intro d hd
    rcases List.mem_cons.1 hd with rfl | hd
    · exact hc
    · exact (matchList_star_cls p y).1 hy d hd
  · rintro ⟨hne, h⟩
    cases l with
    | nil => exact absurd rfl hne
    | cons c cs =>
      exact ⟨[c], cs, rfl, (matchList_cls p [c]).2 ⟨c, rfl, h c (List.mem_cons_self _ _)⟩,
        (matchList_star_cls p cs).2 fun d hd => h d (List.mem_cons_of_mem _ hd)⟩

theorem matchList_opt (a : Regex) (l : List Char) :
    matchList (opt a) l = true ↔ matchList a l = true ∨ l = [] := by
  unfold opt
  rw [matchList_alt, Bool.or_eq_true, matchList_eps]

end Regex

theorem inRange_lower (c : Char) : inRange 'a' 'z' c = c.isLower := by
  simp only [inRange, Char.isLower, Char.toNat, ge_iff_le, UInt32.le_def, BitVec.le_def]
  rfl

theorem inRange_upper (c : Char) : inRange 'A' 'Z' c = c.isUpper := by
  simp only [inRange, Char.isUpper, Char.toNat, ge_iff_le, UInt32.le_def, BitVec.le_def]
  rfl

theorem inRange_digit (c : Char) : inRange '0' '9' c = c.isDigit := by
  simp only [inRange, Char.isDigit, Char.toNat, ge_iff_le, UInt32.le_def, BitVec.le_def]
  rfl

theorem orgNameClass_eq (c : Char) : orgNameClass c = isNameChar c := by
  unfold orgNameClass isNameChar Char.isAlpha
  rw [inRange_lower, inRange_upper, inRange_digit, Bool.or_comm c.isLower c.isUpper]

theorem emailLocalClass_eq (c : Char) : emailLocalClass c = isLocalChar c := by
  unfold emailLocalClass isLocalChar
  rw [inRange_lower, inRange_digit]

theorem emailDomainClass_eq (c : Char) : emailDomainClass c = isDomainChar c := by
  unfold emailDomainClass isDomainChar
  rw [inRange_lower, inRange_digit]

theorem lowerClass_eq (c : Char) : lowerClass c = c.isLower := inRange_lower c

theorem orgNameClass_toNat {c : Char} (h : orgNameClass c = true) :
    (97 ≤ c.toNat ∧ c.toNat ≤ 122) ∨ (65 ≤ c.toNat ∧ c.toNat ≤ 90)
      ∨ (48 ≤ c.toNat ∧ c.toNat ≤ 57) ∨ c.toNat = 95 := by
  unfold orgNameClass inRange at h
  simp only [Bool.or_eq_true, Bool.and_eq_true, decide_eq_true_eq, beq_iff_eq] at h
  rcases h with ((h | h) | h) | h
  · exact Or.inl h
  · exact Or.inr (Or.inl h)
  · exact Or.inr (Or.inr (Or.inl h))
  · subst h; exact Or.inr (Or.inr (Or.inr rfl))

theorem validateOrgName_true_iff (s : String) :
    validateOrgName s = true ↔ ∀ c ∈ s.toList, orgNameClass c = true := by
  unfold validateOrgName orgNameRegex Regex.MatchString
  exact Regex.matchList_star_cls _ _

theorem matchList_tld (t : List Char) :
    Regex.matchList
        (.cat (.cls lowerClass)
          (.cat (.cls lowerClass)
            (.opt (.cat (.cls lowerClass) (.opt (.cls lowerClass)))))) t = true
      ↔ 2 ≤ t.length ∧ t.length ≤ 4 ∧ ∀ c ∈ t, lowerClass c = true := by
  constructor
  · intro h
    obtain ⟨x, y, rfl, hx, hy⟩ := (Regex.matchList_cat _ _ _).1 h
    obtain ⟨c1, rfl, h1⟩ := (Regex.matchList_cls _ _).1 hx
    obtain ⟨x2, y2, rfl, hx2, hy2⟩ := (Regex.matchList_cat _ _ _).1 hy
    obtain ⟨c2, rfl, h2⟩ := (Regex.matchList_cls _ _).1 hx2
    rcases (Regex.matchList_opt _ _).1 hy2 with h3 | rfl
    · obtain ⟨x3, y3, rfl, hx3, hy3⟩ := (Regex.matchList_cat _ _ _).1 h3
      obtain ⟨c3, rfl, k3⟩ := (Regex.matchList_cls _ _).1 hx3
      rcases (Regex.matchList_opt _ _).1 hy3 with h4 | rfl
      · obtain ⟨c4, rfl, k4⟩ := (Regex.matchList_cls _ _).1 h4
        refine ⟨by simp, by simp, ?_⟩
        simp [h1, h2, k3, k4]
      · refine ⟨by simp, by simp, ?_⟩
        simp [h1, h2, k3]
    · refine ⟨by simp, by simp, ?_⟩
      simp [h1, h2]
  · rintro ⟨hlo, hhi, hall⟩
    rcases t with _ | ⟨a, _ | ⟨b, _ | ⟨c, _ | ⟨d, _ | ⟨e, t⟩⟩⟩⟩⟩
    · simp at hlo
    · simp at hlo
    · have ha := hall a (by simp)
      have hb := hall b (by simp)
      exact (Regex.matchList_cat _ _ _).2 ⟨[a], [b], rfl, (Regex.matchList_cls _ _).2 ⟨a, rfl, ha⟩,
        (Regex.matchList_cat _ _ _).2 ⟨[b], [], rfl, (Regex.matchList_cls _ _).2 ⟨b, rfl, hb⟩,
          (Regex.matchList_opt _ _).2 (Or.inr rfl)⟩⟩
    · have ha := hall a (by simp)
      have hb := hall b (by simp)
      have hc := hall c (by simp)
      exact (Regex.matchList_cat _ _ _).2 ⟨[a], [b, c], rfl,
        (Regex.matchList_cls _ _).2 ⟨a, rfl, ha⟩,
        (Regex.matchList_cat _ _ _).2 ⟨[b], [c], rfl, (Regex.matchList_cls _ _).2 ⟨b, rfl, hb⟩,
          (Regex.matchList_opt _ _).2 (Or.inl
            ((Regex.matchList_cat _ _ _).2 ⟨[c], [], rfl,
              (Regex.matchList_cls _ _).2 ⟨c, rfl, hc⟩,
              (Regex.matchList_opt _ _).2 (Or.inr rfl)⟩))⟩⟩
    · have ha := hall a (by simp)
      have hb := hall b (by simp)
      have hc := hall c (by simp)
      have hd := hall d (by simp)
      exact (Regex.matchList_cat _ _ _).2 ⟨[a], [b, c, d], rfl,
        (Regex.matchList_cls _ _).2 ⟨a, rfl, ha⟩,
        (Regex.matchList_cat _ _ _).2 ⟨[b], [c, d], rfl,
          (Regex.matchList_cls _ _).2 ⟨b, rfl, hb⟩,
          (Regex.matchList_opt _ _).2 (Or.inl
            ((Regex.matchList_cat _ _ _).2 ⟨[c], [d], rfl,
              (Regex.matchList_cls _ _).2 ⟨c, rfl, hc⟩,
              (Regex.matchList_opt _ _).2 (Or.inl
                ((Regex.matchList_cls _ _).2 ⟨d, rfl, hd⟩))⟩))⟩⟩
    · simp at hhi

theorem matchList_emailRegex (l : List Char) :
    Regex.matchList emailRegex l = true ↔
      ∃ loc dom tld : List Char, l = loc ++ '@' :: (dom ++ '.' :: tld)
        ∧ loc ≠ [] ∧ (∀ c ∈ loc, emailLocalClass c = true)
        ∧ dom ≠ [] ∧ (∀ c ∈ dom, emailDomainClass c = true)
        ∧ 2 ≤ tld.length ∧ tld.length ≤ 4 ∧ ∀ c ∈ tld, lowerClass c = true := by
  unfold emailRegex
  constructor
  · intro h
    obtain ⟨loc, r1, rfl, hloc, h1⟩ := (Regex.matchList_cat _ _ _).1 h
    obtain ⟨at1, r2, rfl, hat, h2⟩ := (Regex.matchList_cat _ _ _).1 h1
    obtain ⟨dom, r3, rfl, hdom, h3⟩ := (Regex.matchList_cat _ _ _).1 h2
    obtain ⟨dot, tld, rfl, hdot, h4⟩ := (Regex.matchList_cat _ _ _).1 h3
    obtain ⟨c1, rfl, hc1⟩ := (Regex.matchList_cls _ _).1 hat
    obtain ⟨c2, rfl, hc2⟩ := (Regex.matchList_cls _ _).1 hdot
    have e1 : c1 = '@' := by simpa using hc1
    have e2 : c2 = '.' := by simpa using hc2
    subst e1; subst e2
    obtain ⟨hl1, hl2⟩ := (Regex.matchList_plus_cls _ _).1 hloc
    obtain ⟨hd1, hd2⟩ := (Regex.matchList_plus_cls _ _).1 hdom
    obtain ⟨ht1, ht2, ht3⟩ := (matchList_tld tld).1 h4
    exact ⟨loc, dom, tld, rfl, hl1, hl2, hd1, hd2, ht1, ht2, ht3⟩
  · rintro ⟨loc, dom, tld, rfl, hl1, hl2, hd1, hd2, ht1, ht2, ht3⟩
    refine (Regex.matchList_cat _ _ _).2 ⟨loc, _, rfl,
      (Regex.matchList_plus_cls _ _).2 ⟨hl1, hl2⟩, ?_⟩
    refine (Regex.matchList_cat _ _ _).2 ⟨['@'], _, rfl,
      (Regex.matchList_cls _ _).2 ⟨'@', rfl, by simp⟩, ?_⟩
    refine (Regex.matchList_cat _ _ _).2 ⟨dom, _, rfl,
      (Regex.matchList_plus_cls _ _).2 ⟨hd1, hd2⟩, ?_⟩
    exact (Regex.matchList_cat _ _ _).2 ⟨['.'], tld, rfl,
      (Regex.matchList_cls _ _).2 ⟨'.', rfl, by simp⟩, (matchList_tld tld).2 ⟨ht1, ht2, ht3⟩⟩

/-! ## The claims -/

/-- C1. In a store whose organization names and owner ids are unique, when
`emailA` owns the reservation `name` (the joined lookup answers), a
`CreateNewOrgReservation` for the same name by a different, valid `emailB` returns
no mapping and an error of code `Error_DUPLICATE_RESERVATION`, for every cloud
key; it sends the two lookups, no write, and leaves every table as it was. -/
theorem create_duplicate_for_other_owner (g : Gateway)
    (name emailA emailB key newOwnerId newUuid : String)
    (hnames : g.store.uniqueNames) (hids : g.store.uniqueOwnerIds)
    (hname : validateOrgName name = true) (hB : validateEmail emailB = true)
    (hne : emailA ≠ emailB)
    (hA : (GetOrgReservationByNameAndEmail noFaults name emailA g).1.1.isSome = true) :
    ∃ e,
      CreateNewOrgReservation noFaults newOwnerId newUuid
          { OrganizationName := name, OwnerEmail := emailB, CloudService := key } g
        = (.value (none, some e),
            { store := g.store
              calls := g.calls ++
                [.GetOrgReservationByNameAndEmail name emailB,
                 .GetOrgReservationByName name] })
      ∧ Is (some e) Error_DUPLICATE_RESERVATION = true := by
  rw [repo_own_noFaults] at hA
  obtain ⟨m, hm⟩ := Option.isSome_iff_exists.1 hA
  obtain ⟨r, o, c, hr, ho, hc, hro, hrc, hrn, hoe, -⟩ := ownLookup_some hm
  have hnone : ownLookup g.store name emailB = none := by
    rw [ownLookup_eq_none]
    rintro r1 hr1 o1 ho1 c1 - ⟨h1, -, h3, h4⟩
    have hrr : r1 = r := List.inj_on_of_nodup_map hnames hr1 hr (h3.trans hrn.symm)
    subst hrr
    have hoo : o1 = o := List.inj_on_of_nodup_map hids ho1 ho (h1.symm.trans hro)
    subst hoo
    exact hne (hoe.symm.trans h4)
  obtain ⟨r1, hr1⟩ := nameLookup_isSome_of_mem hr hrn
  exact ⟨_, create_taken newOwnerId newUuid
    { OrganizationName := name, OwnerEmail := emailB, CloudService := key } g r1 hB hname
    hnone hr1, Is_Newf _ _⟩

/-- While `a@x.com` holds `AcmeCorp`, the request of `b@x.com` with the key `"AG"` is
refused as a duplicate. -/
theorem create_duplicate_for_other_owner_witness :
    ∃ e,
      CreateNewOrgReservation noFaults "o2" "u2"
          { OrganizationName := "AcmeCorp", OwnerEmail := "b@x.com", CloudService := "AG" }
          { store := acmeStore }
        = (.value (none, some e),
            { store := acmeStore
              calls := [] ++
                [.GetOrgReservationByNameAndEmail "AcmeCorp" "b@x.com",
                 .GetOrgReservationByName "AcmeCorp"] })
      ∧ Is (some e) Error_DUPLICATE_RESERVATION = true :=
  create_duplicate_for_other_owner { store := acmeStore } "AcmeCorp" "a@x.com" "b@x.com" "AG"
    "o2" "u2" (by decide) (by decide) (by decide) (by decide) (by decide) (by decide)

/-- C2. `CreateNewOrgReservation` is idempotent on a gateway that does not fail:
when a first call returns a mapping `m` and no error, a second call with the same
payload returns the same mapping `m` (uuid, organization name, owner id, owner
email and cloud flags) and no error, leaves every table as it is and sends only
the `SELECT` of the joined lookup, so no insert, update or delete. `newUuid1` is
the reservation uuid drawn in the first call; it is not yet the reservation id of
a stored cloud mapping. -/
theorem create_twice_idempotent (g g1 : Gateway) (p : OrgReservationPayload)
    (newOwnerId1 newUuid1 newOwnerId2 newUuid2 : String) (m : OrgReservationMapping)
    (hfresh : ∀ c ∈ g.store.clouds, c.ReservationId ≠ newUuid1)
    (hfirst : CreateNewOrgReservation noFaults newOwnerId1 newUuid1 p g
      = (.value (some m, none), g1)) :
    CreateNewOrgReservation noFaults newOwnerId2 newUuid2 p g1
      = (.value (some m, none),
          { store := g1.store
            calls := g1.calls ++
              [.GetOrgReservationByNameAndEmail p.OrganizationName p.OwnerEmail] })
      ∧ (Call.GetOrgReservationByNameAndEmail p.OrganizationName p.OwnerEmail).isWrite
          = false := by
  refine ⟨?_, rfl⟩
  obtain ⟨hmail, hname⟩ := create_valid_of_success hfirst
  cases hown : ownLookup g.store p.OrganizationName p.OwnerEmail with
  | none =>
    cases hnm : nameLookup g.store p.OrganizationName with
    | some r =>
      rw [create_taken _ _ p g r hmail hname hown hnm] at hfirst
      simp at hfirst
    | none =>
      rw [create_free _ _ p g hmail hname hown hnm] at hfirst
      simp only [Prod.mk.injEq, Outcome.value.injEq, Option.some.injEq, and_true] at hfirst
      obtain ⟨hm, hg⟩ := hfirst
      subst hm hg
      exact create_owned_same _ _ p _ _ hmail hname
        (ownLookup_storeAfterCreate g.store _ _ p hnm hfresh) (setCloud_withId _ _ _)
  | some m0 =>
    by_cases hsame : setCloud p.CloudService m0.CloudMapping = m0.CloudMapping
    · rw [create_owned_same _ _ p g m0 hmail hname hown hsame] at hfirst
      simp only [Prod.mk.injEq, Outcome.value.injEq, Option.some.injEq, and_true] at hfirst
      obtain ⟨hm, hg⟩ := hfirst
      subst hm hg
      exact create_owned_same _ _ p _ _ hmail hname hown hsame
    · rw [create_owned_changed _ _ p g m0 hmail hname hown hsame] at hfirst
      simp only [Prod.mk.injEq, Outcome.value.injEq, Option.some.injEq, and_true] at hfirst
      obtain ⟨hm, hg⟩ := hfirst
      subst hm hg
      refine create_owned_same _ _ p _ _ hmail hname ?_ (setCloud_idem _ _)
      show ownLookup { g.store with
        clouds := updateClouds (setCloud p.CloudService m0.CloudMapping) g.store.clouds }
          p.OrganizationName p.OwnerEmail = _
      rw [ownLookup_updateClouds, hown, Option.map_some', updateRecord_setCloud hown]

/-- The first call creates the reservation `AcmeCorp` on the empty store; the
repeated call returns the same mapping and only reads. -/
theorem create_twice_idempotent_witness :
    CreateNewOrgReservation noFaults "o1" "u1"
        { OrganizationName := "AcmeCorp", OwnerEmail := "a@x.com", CloudService := "CH" } {}
      = (.value
          (some
            { OrgReservation := { Uuid := "u1", OrganizationName := "AcmeCorp", OwnerId := "o1" }
              Owner := { Id := "o1", Email := "a@x.com" }
              CloudMapping := { ReservationId := "u1", ChoreoCloud := true } }, none),
          acmeCreated)
    ∧ CreateNewOrgReservation noFaults "o2" "u2"
        { OrganizationName := "AcmeCorp", OwnerEmail := "a@x.com", CloudService := "CH" }
        acmeCreated
      = (.value
          (some
            { OrgReservation := { Uuid := "u1", OrganizationName := "AcmeCorp", OwnerId := "o1" }
              Owner := { Id := "o1", Email := "a@x.com" }
              CloudMapping := { ReservationId := "u1", ChoreoCloud := true } }, none),
          { store := acmeCreated.store
            calls := acmeCreated.calls ++
              [.GetOrgReservationByNameAndEmail "AcmeCorp" "a@x.com"] })
    ∧ (Call.GetOrgReservationByNameAndEmail "AcmeCorp" "a@x.com").isWrite = false :=
  ⟨by decide,
    create_twice_idempotent {} acmeCreated
      { OrganizationName := "AcmeCorp", OwnerEmail := "a@x.com", CloudService := "CH" }
      "o1" "u1" "o2" "u2" _ (by decide) (by decide)⟩

/-- C3. Round trip of a new reservation on a gateway that does not fail. When no
stored reservation is named `name`, the name and the email are valid and the
reservation uuid drawn is not yet the reservation id of a stored cloud mapping,
`CreateNewOrgReservation(name, email, key)` returns a mapping and no error, and
`GetOwnReservationWithNameAndMail(name, email)` then returns a present mapping
(`true`, no error) whose organization name is `name`, whose owner email is `email`
and each of whose cloud flags is set exactly when `key` is the key of that cloud:
for `key` among `"CH"`, `"AG"`, `"BL"` the flag of `key` is true and the other two
are false. -/
theorem create_then_lookup_own (g : Gateway) (name email key newOwnerId newUuid : String)
    (hname : validateOrgName name = true) (hmail : validateEmail email = true)
    (hfree : ∀ r ∈ g.store.orgs, r.OrganizationName ≠ name)
    (hfresh : ∀ c ∈ g.store.clouds, c.ReservationId ≠ newUuid) :
    ∃ m g1 m1 g2,
      CreateNewOrgReservation noFaults newOwnerId newUuid
          { OrganizationName := name, OwnerEmail := email, CloudService := key } g
        = (.value (some m, none), g1)
      ∧ GetOwnReservationWithNameAndMail noFaults name email g1 = ((some m1, true, none), g2)
      ∧ m1.OrgReservation.OrganizationName = name
      ∧ m1.Owner.Email = email
      ∧ m1.CloudMapping.ChoreoCloud = decide (key = ChoreoKey)
      ∧ m1.CloudMapping.AsgardioCloud = decide (key = AsgardioKey)
      ∧ m1.CloudMapping.BallerinaCloud = decide (key = BallerinaKey) := by
  have hnm : nameLookup g.store name = none := nameLookup_eq_none.2 hfree
  have hown : ownLookup g.store name email = none := by
    rw [ownLookup_eq_none]
    rintro r hr o - c - ⟨-, -, h3, -⟩
    exact hfree r hr h3
  have hlook : ownLookup (storeAfterCreate g.store newOwnerId newUuid
      { OrganizationName := name, OwnerEmail := email, CloudService := key }) name email
        = some (createdMapping g.store newOwnerId newUuid
          { OrganizationName := name, OwnerEmail := email, CloudService := key }) :=
    ownLookup_storeAfterCreate g.store newOwnerId newUuid
      { OrganizationName := name, OwnerEmail := email, CloudService := key } hnm hfresh
  have hflags := setCloud_flags key {}
  have hc := create_free newOwnerId newUuid
    { OrganizationName := name, OwnerEmail := email, CloudService := key } g hmail hname
    hown hnm
  obtain ⟨g1, hg1⟩ : ∃ g1 : Gateway, g1 =
      { store := storeAfterCreate g.store newOwnerId newUuid
          { OrganizationName := name, OwnerEmail := email, CloudService := key }
        calls := g.calls ++ callsOfCreate g.store newOwnerId newUuid
          { OrganizationName := name, OwnerEmail := email, CloudService := key } } :=
    ⟨_, rfl⟩
  rw [← hg1] at hc
  have hs : g1.store = storeAfterCreate g.store newOwnerId newUuid
      { OrganizationName := name, OwnerEmail := email, CloudService := key } := by rw [hg1]
  refine ⟨_, g1, createdMapping g.store newOwnerId newUuid
      { OrganizationName := name, OwnerEmail := email, CloudService := key },
    g1.record (.GetOrgReservationByNameAndEmail name email), hc, ?_, ?_⟩
  · rw [service_own_noFaults _ _ _ hmail, hs, hlook]
    rfl
  · refine ⟨rfl, resolveOwner_email _ _ _, ?_, ?_, ?_⟩
    · simpa [createdMapping] using hflags.1
    · simpa [createdMapping] using hflags.2.1
    · simpa [createdMapping] using hflags.2.2

/-- The round trip of `"AcmeCorp"`, `"a@x.com"`, `"CH"` on the empty store:
`choreoCloud` is true, `asgardioCloud` and `ballerinaCloud` are false. -/
theorem create_then_lookup_own_witness :
    ∃ m g1 m1 g2,
      CreateNewOrgReservation noFaults "o1" "u1"
          { OrganizationName := "AcmeCorp", OwnerEmail := "a@x.com", CloudService := "CH" } {}
        = (.value (some m, none), g1)
      ∧ GetOwnReservationWithNameAndMail noFaults "AcmeCorp" "a@x.com" g1
          = ((some m1, true, none), g2)
      ∧ m1.OrgReservation.OrganizationName = "AcmeCorp"
      ∧ m1.Owner.Email = "a@x.com"
      ∧ m1.CloudMapping.ChoreoCloud = true
      ∧ m1.CloudMapping.AsgardioCloud = false
      ∧ m1.CloudMapping.BallerinaCloud = false :=
  create_then_lookup_own {} "AcmeCorp" "a@x.com" "CH" "o1" "u1" (by decide) (by decide)
    (by decide) (by decide)

/-- C4. Extending an owned reservation on a gateway that does not fail. When the
joined lookup answers the mapping `m` for the valid `name` and `email`,
`CreateNewOrgReservation(name, email, key)` returns a mapping `m1` and no error;
`m1` has the reservation (uuid, name, owner id) and the owner of `m`, and each of
its cloud flags is the flag of `m` or the flag of `key`, so no flag is cleared and
for `key` among `"CH"`, `"AG"`, `"BL"` the flag of `key` is true. The joined lookup
after the call answers `m1`, so the stored flags are those of `m1` under the same
uuid. The tables `OWNER` and `ORGANIZATION_RESERVATION` are as before and
`MAPPED_CLOUDS` holds the same reservation ids as before. -/
theorem create_extends_owned (g : Gateway) (name email key newOwnerId newUuid : String)
    (m : OrgReservationMapping)
    (hname : validateOrgName name = true) (hmail : validateEmail email = true)
    (hown : (GetOrgReservationByNameAndEmail noFaults name email g).1.1 = some m) :
    ∃ m1 g1,
      CreateNewOrgReservation noFaults newOwnerId newUuid
          { OrganizationName := name, OwnerEmail := email, CloudService := key } g
        = (.value (some m1, none), g1)
      ∧ m1.OrgReservation = m.OrgReservation
      ∧ m1.Owner = m.Owner
      ∧ m1.CloudMapping.ReservationId = m.OrgReservation.Uuid
      ∧ m1.CloudMapping.ChoreoCloud = (m.CloudMapping.ChoreoCloud || decide (key = ChoreoKey))
      ∧ m1.CloudMapping.AsgardioCloud
          = (m.CloudMapping.AsgardioCloud || decide (key = AsgardioKey))
      ∧ m1.CloudMapping.BallerinaCloud
          = (m.CloudMapping.BallerinaCloud || decide (key = BallerinaKey))
      ∧ (GetOrgReservationByNameAndEmail noFaults name email g1).1.1 = some m1
      ∧ g1.store.owners = g.store.owners
      ∧ g1.store.orgs = g.store.orgs
      ∧ g1.store.clouds.map (fun c => c.ReservationId)
          = g.store.clouds.map (fun c => c.ReservationId) := by
  rw [repo_own_noFaults] at hown
  simp only at hown
  have hflags := setCloud_flags key m.CloudMapping
  have hid := ownLookup_cloud_id hown
  by_cases hsame : setCloud key m.CloudMapping = m.CloudMapping
  · refine ⟨_, _, create_owned_same newOwnerId newUuid
      { OrganizationName := name, OwnerEmail := email, CloudService := key } g m hmail hname
      hown hsame, rfl, rfl, hid, ?_, ?_, ?_, ?_, rfl, rfl, rfl⟩
    · rw [← hflags.1, hsame]
    · rw [← hflags.2.1, hsame]
    · rw [← hflags.2.2, hsame]
    · rw [repo_own_noFaults]
      exact hown
  · refine ⟨_, _, create_owned_changed newOwnerId newUuid
      { OrganizationName := name, OwnerEmail := email, CloudService := key } g m hmail hname
      hown hsame, rfl, rfl, ?_, hflags.1, hflags.2.1, hflags.2.2, ?_, rfl, rfl, ?_⟩
    · exact (setCloud_id key m.CloudMapping).trans hid
    · rw [repo_own_noFaults]
      show ownLookup { g.store with
        clouds := updateClouds (setCloud key m.CloudMapping) g.store.clouds } name email = _
      rw [ownLookup_updateClouds, hown, Option.map_some', updateRecord_setCloud hown]
    · show (updateClouds (setCloud key m.CloudMapping) g.store.clouds).map _ = _
      unfold updateClouds
      rw [List.map_map]
      apply List.map_congr_left
      intro c _
      simp only [Function.comp]
      split <;> rfl

/-- The owner of `AcmeCorp` (Choreo cloud) extends it with the key `"AG"`. -/
theorem create_extends_owned_witness :
    ∃ m1 g1,
      CreateNewOrgReservation noFaults "o2" "u2"
          { OrganizationName := "AcmeCorp", OwnerEmail := "a@x.com", CloudService := "AG" }
          { store := acmeStore }
        = (.value (some m1, none), g1)
      ∧ m1.OrgReservation = { Uuid := "u1", OrganizationName := "AcmeCorp", OwnerId := "o1" }
      ∧ m1.Owner = { Id := "o1", Email := "a@x.com" }
      ∧ m1.CloudMapping.ReservationId = "u1"
      ∧ m1.CloudMapping.ChoreoCloud = true
      ∧ m1.CloudMapping.AsgardioCloud = true
      ∧ m1.CloudMapping.BallerinaCloud = false
      ∧ (GetOrgReservationByNameAndEmail noFaults "AcmeCorp" "a@x.com" g1).1.1 = some m1
      ∧ g1.store.owners = acmeStore.owners
      ∧ g1.store.orgs = acmeStore.orgs
      ∧ g1.store.clouds.map (fun c => c.ReservationId) = ["u1"] :=
  create_extends_owned { store := acmeStore } "AcmeCorp" "a@x.com" "AG" "o2" "u2"
    { OrgReservation := { Uuid := "u1", OrganizationName := "AcmeCorp", OwnerId := "o1" }
      Owner := { Id := "o1", Email := "a@x.com" }
      CloudMapping := { ReservationId := "u1", ChoreoCloud := true } }
    (by decide) (by decide) (by decide)

/-- C5. A payload whose owner email fails `validateEmail` or whose organization
name fails `validateOrgName` makes `CreateNewOrgReservation` return no mapping and
an error of code `Error_INVALID_REQUEST`, whatever the store holds and however the
gateway behaves; the gateway is handed back as it was received, so no statement,
read or write, was sent to it. -/
theorem create_invalid_payload_rejected (F : Faults) (g : Gateway)
    (newOwnerId newUuid : String) (p : OrgReservationPayload)
    (h : validateEmail p.OwnerEmail = false ∨ validateOrgName p.OrganizationName = false) :
    ∃ e,
      CreateNewOrgReservation F newOwnerId newUuid p g = (.value (none, some e), g)
      ∧ Is (some e) Error_INVALID_REQUEST = true := by
  unfold CreateNewOrgReservation
  by_cases hmail : validateEmail p.OwnerEmail = true
  · have hname : validateOrgName p.OrganizationName = false := by
      rcases h with h | h
      · rw [hmail] at h; cases h
      · exact h
    refine ⟨Newf Error_INVALID_REQUEST none
      "Organization reservation should contain only alpha numeric characters", ?_,
      Is_Newf _ _⟩
    simp only [hmail, hname]
    rfl
  · refine ⟨Newf Error_INVALID_REQUEST none "Email is invalid", ?_, Is_Newf _ _⟩
    simp only [hmail]
    rfl

/-- The organization name `"acme corp!"` and the owner email `"not-an-email"` are
rejected on a store that holds `AcmeCorp`. -/
theorem create_invalid_payload_rejected_witness :
    (∃ e,
      CreateNewOrgReservation noFaults "o2" "u2"
          { OrganizationName := "acme corp!", OwnerEmail := "a@x.com", CloudService := "CH" }
          { store := acmeStore }
        = (.value (none, some e), { store := acmeStore })
      ∧ Is (some e) Error_INVALID_REQUEST = true)
    ∧ (∃ e,
      CreateNewOrgReservation noFaults "o2" "u2"
          { OrganizationName := "AcmeCorp", OwnerEmail := "not-an-email", CloudService := "CH" }
          { store := acmeStore }
        = (.value (none, some e), { store := acmeStore })
      ∧ Is (some e) Error_INVALID_REQUEST = true) :=
  ⟨create_invalid_payload_rejected noFaults { store := acmeStore } "o2" "u2"
      { OrganizationName := "acme corp!", OwnerEmail := "a@x.com", CloudService := "CH" }
      (Or.inr (by decide)),
    create_invalid_payload_rejected noFaults { store := acmeStore } "o2" "u2"
      { OrganizationName := "AcmeCorp", OwnerEmail := "not-an-email", CloudService := "CH" }
      (Or.inl (by decide))⟩

/-- C6, as stated, fails: on the empty store `"not-an-email"` owns no reservation
named `AcmeCorp`, the name and the new email are valid, and `UpdateOrgMapping`
answers `Error_INVALID_REQUEST`, not `Error_NOT_FOUND`. -/
theorem transfer_invalid_current_email_counterexample :
    validateOrgName "AcmeCorp" = true
    ∧ validateEmail "b@x.com" = true
    ∧ (GetOrgReservationByNameAndEmail noFaults "AcmeCorp" "not-an-email" {}).1.1 = none
    ∧ UpdateOrgMapping noFaults "o1" "not-an-email"
          { OrganizationName := "AcmeCorp", NewOwnersEmail := "b@x.com" } {}
        = (.value (none, some (Newf Error_INVALID_REQUEST none "Email is invalid")), {})
    ∧ ¬ ∃ e g1,
        UpdateOrgMapping noFaults "o1" "not-an-email"
            { OrganizationName := "AcmeCorp", NewOwnersEmail := "b@x.com" } {}
          = (.value (none, some e), g1)
        ∧ Is (some e) Error_NOT_FOUND = true := by
  have hres : UpdateOrgMapping noFaults "o1" "not-an-email"
      { OrganizationName := "AcmeCorp", NewOwnersEmail := "b@x.com" } {}
        = (.value (none, some (Newf Error_INVALID_REQUEST none "Email is invalid")), {}) := by
    decide
  refine ⟨by decide, by decide, by decide, hres, ?_⟩
  rintro ⟨e, g1, h, his⟩
  rw [hres] at h
  simp only [Prod.mk.injEq, Outcome.value.injEq, Option.some.injEq, true_and] at h
  rw [← h.1] at his
  revert his
  decide

/-- C6, amended. On a gateway that does not fail, when the organization name, the
new owner's email and `currentMail` have a valid shape and the joined lookup for
the name and `currentMail` is absent, `UpdateOrgMapping` returns no mapping and an
error of code `Error_NOT_FOUND`, sends only the `SELECT` of the joined lookup and
leaves every table as it was; this does not depend on whether the name is held by
another owner. -/
theorem transfer_not_owned (g : Gateway) (name newEmail currentMail newOwnerId : String)
    (hname : validateOrgName name = true) (hnew : validateEmail newEmail = true)
    (hcur : validateEmail currentMail = true)
    (habsent : (GetOrgReservationByNameAndEmail noFaults name currentMail g).1.1 = none) :
    ∃ e,
      UpdateOrgMapping noFaults newOwnerId currentMail
          { OrganizationName := name, NewOwnersEmail := newEmail } g
        = (.value (none, some e),
            { store := g.store
              calls := g.calls ++ [.GetOrgReservationByNameAndEmail name currentMail] })
      ∧ Is (some e) Error_NOT_FOUND = true := by
  rw [repo_own_noFaults] at habsent
  simp only at habsent
  exact ⟨_, update_not_found newOwnerId currentMail
    { OrganizationName := name, NewOwnersEmail := newEmail } g hname hnew hcur habsent,
    Is_Newf _ _⟩

/-- `b@x.com` does not own `AcmeCorp`, which `a@x.com` holds. -/
theorem transfer_not_owned_witness :
    ∃ e,
      UpdateOrgMapping noFaults "o3" "b@x.com"
          { OrganizationName := "AcmeCorp", NewOwnersEmail := "c@x.com" }
          { store := twoOwnersStore }
        = (.value (none, some e),
            { store := twoOwnersStore
              calls := [] ++ [.GetOrgReservationByNameAndEmail "AcmeCorp" "b@x.com"] })
      ∧ Is (some e) Error_NOT_FOUND = true :=
  transfer_not_owned { store := twoOwnersStore } "AcmeCorp" "c@x.com" "b@x.com" "o3"
    (by decide) (by decide) (by decide) (by decide)

/-- C7. Postcondition of a transfer on a gateway that does not fail, in a store
whose organization names and reservation uuids are unique. When the joined lookup
answers the mapping `m` for `name` and `currentMail` and the name and both emails
are valid, `UpdateOrgMapping` returns a mapping `res` and no error. The owner of
`res` is the `OWNER` row found for `newEmail` when there is one, and then `OWNER` is
unchanged; otherwise it is the row with the fresh id and `newEmail`, the only row
added to `OWNER`. The reservation of `res` is the reservation of `m` (same uuid,
same name) with the id of that owner as `ownerId`; the cloud mapping of `res` is
that of `m`. In `ORGANIZATION_RESERVATION` the row of `m` gets the new `ownerId` and
every other row is as before; `MAPPED_CLOUDS` is as before. -/
theorem transfer_postcondition (g : Gateway) (name currentMail newEmail newOwnerId : String)
    (m : OrgReservationMapping)
    (hnames : g.store.uniqueNames) (huuids : g.store.uniqueUuids)
    (hname : validateOrgName name = true) (hnew : validateEmail newEmail = true)
    (hcur : validateEmail currentMail = true)
    (hown : (GetOrgReservationByNameAndEmail noFaults name currentMail g).1.1 = some m) :
    ∃ res g1 newOwner,
      UpdateOrgMapping noFaults newOwnerId currentMail
          { OrganizationName := name, NewOwnersEmail := newEmail } g
        = (.value (some res, none), g1)
      ∧ res.Owner = newOwner
      ∧ newOwner.Email = newEmail
      ∧ (((GetOwnerByEmail noFaults newEmail g).1.1 = some newOwner
            ∧ g1.store.owners = g.store.owners)
          ∨ ((GetOwnerByEmail noFaults newEmail g).1.1 = none
            ∧ newOwner = { Id := newOwnerId, Email := newEmail }
            ∧ g1.store.owners = g.store.owners ++ [newOwner]))
      ∧ res.OrgReservation = { m.OrgReservation with OwnerId := newOwner.Id }
      ∧ m.OrgReservation.OrganizationName = name
      ∧ res.CloudMapping = m.CloudMapping
      ∧ m.OrgReservation ∈ g.store.orgs
      ∧ g1.store.orgs = g.store.orgs.map (fun r =>
          if r = m.OrgReservation then { r with OwnerId := newOwner.Id } else r)
      ∧ g1.store.clouds = g.store.clouds := by
  rw [repo_own_noFaults] at hown
  simp only at hown
  have hmem := ownLookup_org_mem hown
  have hmname := (ownLookup_name hown).1
  have hlook := nameLookup_of_unique hnames hmem hmname
  have hu : nameLookup (storeAfterTransfer g.store newOwnerId newEmail m.OrgReservation.Uuid)
      name = some { m.OrgReservation with
        OwnerId := (resolveOwner g.store newOwnerId newEmail).Id } := by
    rw [nameLookup_updateOrgOwner g.store _ m.OrgReservation.Uuid
      (resolveOwner g.store newOwnerId newEmail).Id name rfl, hlook]
    simp
  have hexec := update_found newOwnerId currentMail
    { OrganizationName := name, NewOwnersEmail := newEmail } g m _ hname hnew hcur hown hu
  have horgs : updateOrgOwner m.OrgReservation.Uuid
      (resolveOwner g.store newOwnerId newEmail).Id g.store.orgs
      = g.store.orgs.map (fun r =>
          if r = m.OrgReservation then
            { r with OwnerId := (resolveOwner g.store newOwnerId newEmail).Id }
          else r) := by
    unfold updateOrgOwner
    apply List.map_congr_left
    intro r hr
    by_cases hru : r.Uuid = m.OrgReservation.Uuid
    · have : r = m.OrgReservation := List.inj_on_of_nodup_map huuids hr hmem hru
      simp [this]
    · have : r ≠ m.OrgReservation := fun h => hru (by rw [h])
      simp [hru, this]
  refine ⟨_, _, resolveOwner g.store newOwnerId newEmail, hexec, rfl,
    resolveOwner_email _ _ _, ?_, rfl, hmname, rfl, hmem, horgs, rfl⟩
  rw [repo_owner_noFaults]
  simp only [storeAfterTransfer, resolveOwner]
  cases hO : ownerLookup g.store newEmail with
  | none => exact Or.inr ⟨rfl, rfl, rfl⟩
  | some o => exact Or.inl ⟨rfl, rfl⟩

/-- The transfer of `AcmeCorp` from `a@x.com` to the stored owner `b@x.com`. -/
theorem transfer_postcondition_witness :
    ∃ res g1 newOwner,
      UpdateOrgMapping noFaults "o3" "a@x.com"
          { OrganizationName := "AcmeCorp", NewOwnersEmail := "b@x.com" }
          { store := twoOwnersStore }
        = (.value (some res, none), g1)
      ∧ res.Owner = newOwner
      ∧ newOwner.Email = "b@x.com"
      ∧ (((GetOwnerByEmail noFaults "b@x.com" { store := twoOwnersStore }).1.1 = some newOwner
            ∧ g1.store.owners = twoOwnersStore.owners)
          ∨ ((GetOwnerByEmail noFaults "b@x.com" { store := twoOwnersStore }).1.1 = none
            ∧ newOwner = { Id := "o3", Email := "b@x.com" }
            ∧ g1.store.owners = twoOwnersStore.owners ++ [newOwner]))
      ∧ res.OrgReservation
          = { Uuid := "u1", OrganizationName := "AcmeCorp", OwnerId := newOwner.Id }
      ∧ "AcmeCorp" = "AcmeCorp"
      ∧ res.CloudMapping
          = { ReservationId := "u1", ChoreoCloud := true, AsgardioCloud := true }
      ∧ ({ Uuid := "u1", OrganizationName := "AcmeCorp", OwnerId := "o1" } : OrgReservation)
          ∈ twoOwnersStore.orgs
      ∧ g1.store.orgs = twoOwnersStore.orgs.map (fun r =>
          if r = { Uuid := "u1", OrganizationName := "AcmeCorp", OwnerId := "o1" } then
            { r with OwnerId := newOwner.Id }
          else r)
      ∧ g1.store.clouds = twoOwnersStore.clouds :=
  transfer_postcondition { store := twoOwnersStore } "AcmeCorp" "a@x.com" "b@x.com" "o3"
    { OrgReservation := { Uuid := "u1", OrganizationName := "AcmeCorp", OwnerId := "o1" }
      Owner := { Id := "o1", Email := "a@x.com" }
      CloudMapping := { ReservationId := "u1", ChoreoCloud := true, AsgardioCloud := true } }
    (by decide) (by decide) (by decide) (by decide) (by decide) (by decide)

/-- C8. On a gateway that does not fail, when `email` is valid and the joined
lookup for `payload.OrganizationName` and `email` is absent,
`DeleteReservationsOfOwner` returns an error of code `Error_NOT_FOUND`, sends only
the `SELECT` of the lookup and leaves every table as it was. -/
theorem delete_not_owned (g : Gateway) (email : String) (payload : ReservationDeletePayload)
    (hmail : validateEmail email = true)
    (habsent : (GetOrgReservationByNameAndEmail noFaults payload.OrganizationName email g).1.1
      = none) :
    ∃ e,
      DeleteReservationsOfOwner noFaults email payload g
        = (.value (some e),
            { store := g.store
              calls := g.calls ++
                [.GetOrgReservationByNameAndEmail payload.OrganizationName email] })
      ∧ Is (some e) Error_NOT_FOUND = true := by
  rw [repo_own_noFaults] at habsent
  simp only at habsent
  refine ⟨Newf Error_NOT_FOUND none
      (payload.OrganizationName ++ " is not found in the registry with your ownership"), ?_,
    Is_Newf _ _⟩
  unfold DeleteReservationsOfOwner
  rw [service_own_noFaults _ _ _ hmail, habsent]
  rfl

/-- The owner `b@x.com` does not hold `AcmeCorp`. -/
theorem delete_not_owned_witness :
    ∃ e,
      DeleteReservationsOfOwner noFaults "b@x.com"
          { OrganizationName := "AcmeCorp", CloudService := "CH" } { store := acmeStore }
        = (.value (some e),
            { store := acmeStore
              calls := [] ++ [.GetOrgReservationByNameAndEmail "AcmeCorp" "b@x.com"] })
      ∧ Is (some e) Error_NOT_FOUND = true :=
  delete_not_owned { store := acmeStore } "b@x.com"
    { OrganizationName := "AcmeCorp", CloudService := "CH" } (by decide) (by decide)

/-- C9. For an `email` that fails `validateEmail`, `DeleteReservationsOfOwner`
returns an error of code `Error_INVALID_REQUEST` for every payload, store and
gateway behaviour, and hands the gateway back as it was received: no statement is
sent, hence no write. The error comes from `GetOwnReservationWithNameAndMail`. -/
theorem delete_invalid_email_rejected (F : Faults) (g : Gateway) (email : String)
    (payload : ReservationDeletePayload) (h : validateEmail email = false) :
    ∃ e,
      DeleteReservationsOfOwner F email payload g = (.value (some e), g)
      ∧ Is (some e) Error_INVALID_REQUEST = true
      ∧ GetOwnReservationWithNameAndMail F payload.OrganizationName email g
          = ((none, false, some e), g) := by
  refine ⟨Newf Error_INVALID_REQUEST none "Email is invalid", ?_, Is_Newf _ _, ?_⟩
  · unfold DeleteReservationsOfOwner GetOwnReservationWithNameAndMail
    simp only [h]
    rfl
  · unfold GetOwnReservationWithNameAndMail
    simp only [h]
    rfl

/-- The email `"not-an-email"` is rejected before the gateway is reached. -/
theorem delete_invalid_email_rejected_witness :
    ∃ e,
      DeleteReservationsOfOwner noFaults "not-an-email"
          { OrganizationName := "AcmeCorp", CloudService := "CH" } { store := acmeStore }
        = (.value (some e), { store := acmeStore })
      ∧ Is (some e) Error_INVALID_REQUEST = true
      ∧ GetOwnReservationWithNameAndMail noFaults "AcmeCorp" "not-an-email"
          { store := acmeStore }
          = ((none, false, some e), { store := acmeStore }) :=
  delete_invalid_email_rejected noFaults { store := acmeStore } "not-an-email"
    { OrganizationName := "AcmeCorp", CloudService := "CH" } (by decide)

/-- C10. On a gateway that does not fail, when `email` is valid and the joined
lookup answers the mapping `m` (flags `f`) for `name` and `email`,
`DeleteReservationsOfOwner(email, name, key)` returns no error and works with
`withoutFlag key f`, the flags `f` with the flag of `key` false. When all three
flags of it are false, the call sends, after the lookup, the single statement
`DeleteCloudMappingEntryById` with the uuid of the reservation, which removes the
rows of `MAPPED_CLOUDS` with that reservation id, and no update. Otherwise it
sends, after the lookup, the single statement `UpdateCloudMappingById` with those
flags, which writes them to the rows with that reservation id, and no delete. -/
theorem delete_retracts_flag (g : Gateway) (email name key : String)
    (m : OrgReservationMapping) (hmail : validateEmail email = true)
    (hown : (GetOrgReservationByNameAndEmail noFaults name email g).1.1 = some m) :
    (withoutFlag key m.CloudMapping).ReservationId = m.OrgReservation.Uuid
    ∧ DeleteReservationsOfOwner noFaults email
          { OrganizationName := name, CloudService := key } g
        = if (withoutFlag key m.CloudMapping).ChoreoCloud = false
              ∧ (withoutFlag key m.CloudMapping).AsgardioCloud = false
              ∧ (withoutFlag key m.CloudMapping).BallerinaCloud = false then
            (.value none,
              { store :=
                  { g.store with
                    clouds := g.store.clouds.filter fun c =>
                      !(c.ReservationId == m.OrgReservation.Uuid) }
                calls := g.calls ++
                  [.GetOrgReservationByNameAndEmail name email,
                   .DeleteCloudMappingEntryById m.OrgReservation.Uuid] })
          else
            (.value none,
              { store :=
                  { g.store with
                    clouds := updateClouds (withoutFlag key m.CloudMapping) g.store.clouds }
                calls := g.calls ++
                  [.GetOrgReservationByNameAndEmail name email,
                   .UpdateCloudMappingById (withoutFlag key m.CloudMapping)] }) := by
  rw [repo_own_noFaults] at hown
  simp only at hown
  have hid := ownLookup_cloud_id hown
  refine ⟨hid, ?_⟩
  unfold DeleteReservationsOfOwner
  rw [service_own_noFaults _ _ _ hmail, hown]
  have hclear := clearCloud_eq_withoutFlag key m.CloudMapping
  unfold clearCloud at hclear
  simp only [Option.isSome_some, hclear]
  by_cases hall : (withoutFlag key m.CloudMapping).ChoreoCloud = false
      ∧ (withoutFlag key m.CloudMapping).AsgardioCloud = false
      ∧ (withoutFlag key m.CloudMapping).BallerinaCloud = false
  · rw [if_pos hall]
    have hrid : (withoutFlag key m.CloudMapping).ReservationId = m.OrgReservation.Uuid := hid
    simp [hall.1, hall.2.1, hall.2.2, DeleteCloudMappingEntryById, noFaults, Gateway.record,
      hrid]
  · rw [if_neg hall]
    have hcond : ¬ (((withoutFlag key m.CloudMapping).BallerinaCloud = false
        && (withoutFlag key m.CloudMapping).ChoreoCloud = false
        && (withoutFlag key m.CloudMapping).AsgardioCloud = false) = true) := by
      intro h
      simp only [Bool.and_eq_true, decide_eq_true_eq] at h
      exact hall ⟨h.1.2, h.2, h.1.1⟩
    rw [if_neg hcond]
    simp [UpdateCloudMappingById, noFaults, Gateway.record, updateClouds]

/-- Retracting `"CH"`, the only flag of `AcmeCorp`, deletes the cloud mapping. -/
theorem delete_retracts_flag_witness :
    (withoutFlag "CH" { ReservationId := "u1", ChoreoCloud := true }).ReservationId = "u1"
    ∧ DeleteReservationsOfOwner noFaults "a@x.com"
          { OrganizationName := "AcmeCorp", CloudService := "CH" } { store := acmeStore }
        = if (withoutFlag "CH" { ReservationId := "u1", ChoreoCloud := true }).ChoreoCloud
                = false
              ∧ (withoutFlag "CH" { ReservationId := "u1", ChoreoCloud := true }).AsgardioCloud
                = false
              ∧ (withoutFlag "CH" { ReservationId := "u1", ChoreoCloud := true }).BallerinaCloud
                = false then
            (.value none,
              { store :=
                  { acmeStore with
                    clouds := acmeStore.clouds.filter fun c => !(c.ReservationId == "u1") }
                calls := [] ++
                  [.GetOrgReservationByNameAndEmail "AcmeCorp" "a@x.com",
                   .DeleteCloudMappingEntryById "u1"] })
          else
            (.value none,
              { store :=
                  { acmeStore with
                    clouds := updateClouds
                      (withoutFlag "CH" { ReservationId := "u1", ChoreoCloud := true })
                      acmeStore.clouds }
                calls := [] ++
                  [.GetOrgReservationByNameAndEmail "AcmeCorp" "a@x.com",
                   .UpdateCloudMappingById
                     (withoutFlag "CH" { ReservationId := "u1", ChoreoCloud := true })] }) :=
  delete_retracts_flag { store := acmeStore } "a@x.com" "AcmeCorp" "CH"
    { OrgReservation := { Uuid := "u1", OrganizationName := "AcmeCorp", OwnerId := "o1" }
      Owner := { Id := "o1", Email := "a@x.com" }
      CloudMapping := { ReservationId := "u1", ChoreoCloud := true } }
    (by decide) (by decide)

/-- C11. On a gateway that does not fail, when `email` is valid and the joined
lookup answers the mapping `m` for `name` and `email` with at least one active
flag, one call of `DeleteReservationsOfOwner` for each key of an active flag, in
any order (`keys` is a permutation of the active keys), makes every call return
no error, and afterwards no row of `MAPPED_CLOUDS` has the uuid of the reservation
as reservation id. -/
theorem retract_every_active_flag (g : Gateway) (email name : String)
    (m : OrgReservationMapping) (keys : List String)
    (hmail : validateEmail email = true)
    (hown : (GetOrgReservationByNameAndEmail noFaults name email g).1.1 = some m)
    (hactive : activeKeys m.CloudMapping ≠ [])
    (hperm : keys.Perm (activeKeys m.CloudMapping)) :
    (retractEach noFaults email name keys g).1 = keys.map (fun _ => Outcome.value none)
    ∧ ∀ c ∈ (retractEach noFaults email name keys g).2.store.clouds,
        c.ReservationId ≠ m.OrgReservation.Uuid := by
  rw [repo_own_noFaults] at hown
  simp only at hown
  have hne : keys ≠ [] := by
    intro h
    rw [h] at hperm
    exact hactive (List.Perm.nil_eq hperm).symm
  have hspec := retractEach_spec email name hmail keys g m hown hne
    ((List.Perm.nodup_iff hperm).2 (activeKeys_nodup _)) (fun k => List.Perm.mem_iff hperm)
  exact ⟨hspec.1, hspec.2.1⟩

/-- The owner of `AcmeCorp` in the store of two owners retracts `"AG"` and then
`"CH"`. -/
theorem retract_every_active_flag_witness :
    (retractEach noFaults "a@x.com" "AcmeCorp" ["AG", "CH"] { store := twoOwnersStore }).1
        = [Outcome.value none, Outcome.value none]
    ∧ ∀ c ∈ (retractEach noFaults "a@x.com" "AcmeCorp" ["AG", "CH"]
          { store := twoOwnersStore }).2.store.clouds,
        c.ReservationId ≠ "u1" :=
  retract_every_active_flag { store := twoOwnersStore } "a@x.com" "AcmeCorp"
    { OrgReservation := { Uuid := "u1", OrganizationName := "AcmeCorp", OwnerId := "o1" }
      Owner := { Id := "o1", Email := "a@x.com" }
      CloudMapping := { ReservationId := "u1", ChoreoCloud := true, AsgardioCloud := true } }
    ["AG", "CH"] (by decide) (by decide) (by decide) (by decide)

/-- C12, as stated, fails. On the empty store `CreateNewOrgReservation` with the
unrecognized key `"XX"` stores a cloud mapping with no flag; `a@x.com` then owns
`AcmeCorp`, and `DeleteReservationsOfOwner` with the same key returns no error
but removes the cloud mapping, so that the joined lookup is absent afterwards. -/
theorem unrecognized_key_delete_counterexample :
    ("XX" ≠ ChoreoKey ∧ "XX" ≠ AsgardioKey ∧ "XX" ≠ BallerinaKey)
    ∧ (CreateNewOrgReservation noFaults "o1" "u1"
        { OrganizationName := "AcmeCorp", OwnerEmail := "a@x.com", CloudService := "XX" } {}).1
      = .value
          (some
            { OrgReservation := { Uuid := "u1", OrganizationName := "AcmeCorp", OwnerId := "o1" }
              Owner := { Id := "o1", Email := "a@x.com" }
              CloudMapping := { ReservationId := "u1" } }, none)
    ∧ (GetOrgReservationByNameAndEmail noFaults "AcmeCorp" "a@x.com"
        (CreateNewOrgReservation noFaults "o1" "u1"
          { OrganizationName := "AcmeCorp", OwnerEmail := "a@x.com", CloudService := "XX" }
          {}).2).1.1
      = some
          { OrgReservation := { Uuid := "u1", OrganizationName := "AcmeCorp", OwnerId := "o1" }
            Owner := { Id := "o1", Email := "a@x.com" }
            CloudMapping := { ReservationId := "u1" } }
    ∧ (DeleteReservationsOfOwner noFaults "a@x.com"
        { OrganizationName := "AcmeCorp", CloudService := "XX" }
        (CreateNewOrgReservation noFaults "o1" "u1"
          { OrganizationName := "AcmeCorp", OwnerEmail := "a@x.com", CloudService := "XX" }
          {}).2).1
      = .value none
    ∧ (DeleteReservationsOfOwner noFaults "a@x.com"
        { OrganizationName := "AcmeCorp", CloudService := "XX" }
        (CreateNewOrgReservation noFaults "o1" "u1"
          { OrganizationName := "AcmeCorp", OwnerEmail := "a@x.com", CloudService := "XX" }
          {}).2).2.store.clouds
      = []
    ∧ (GetOrgReservationByNameAndEmail noFaults "AcmeCorp" "a@x.com"
        (DeleteReservationsOfOwner noFaults "a@x.com"
          { OrganizationName := "AcmeCorp", CloudService := "XX" }
          (CreateNewOrgReservation noFaults "o1" "u1"
            { OrganizationName := "AcmeCorp", OwnerEmail := "a@x.com", CloudService := "XX" }
            {}).2).2).1.1
      = none := by
  decide

/-- C12, amended. On a gateway that does not fail, for a reservation the joined
lookup answers (mapping `m`) for a valid `name` and `email`, and a cloud key other
than `"CH"`, `"AG"` and `"BL"`: `CreateNewOrgReservation` returns `m` and no error
and sends only the lookup, so the store is as before; and when at least one flag
of `m` is active, `DeleteReservationsOfOwner` returns no error, writes the flags
of `m` back with `UpdateCloudMappingById`, and the joined lookup afterwards
answers `m` again: the cloud mapping is present with its three flags unchanged. -/
theorem unrecognized_key_ignored (g : Gateway) (name email key newOwnerId newUuid : String)
    (m : OrgReservationMapping)
    (hname : validateOrgName name = true) (hmail : validateEmail email = true)
    (h1 : key ≠ ChoreoKey) (h2 : key ≠ AsgardioKey) (h3 : key ≠ BallerinaKey)
    (hown : (GetOrgReservationByNameAndEmail noFaults name email g).1.1 = some m) :
    CreateNewOrgReservation noFaults newOwnerId newUuid
        { OrganizationName := name, OwnerEmail := email, CloudService := key } g
      = (.value (some m, none),
          { store := g.store
            calls := g.calls ++ [.GetOrgReservationByNameAndEmail name email] })
    ∧ ((m.CloudMapping.ChoreoCloud = true ∨ m.CloudMapping.AsgardioCloud = true
          ∨ m.CloudMapping.BallerinaCloud = true) →
        DeleteReservationsOfOwner noFaults email
            { OrganizationName := name, CloudService := key } g
          = (.value none,
              { store := { g.store with clouds := updateClouds m.CloudMapping g.store.clouds }
                calls := g.calls ++
                  [.GetOrgReservationByNameAndEmail name email,
                   .UpdateCloudMappingById m.CloudMapping] })
        ∧ (GetOrgReservationByNameAndEmail noFaults name email
            { store := { g.store with clouds := updateClouds m.CloudMapping g.store.clouds }
              calls := g.calls ++
                [.GetOrgReservationByNameAndEmail name email,
                 .UpdateCloudMappingById m.CloudMapping] }).1.1 = some m) := by
  rw [repo_own_noFaults] at hown
  simp only at hown
  constructor
  · exact create_owned_same newOwnerId newUuid
      { OrganizationName := name, OwnerEmail := email, CloudService := key } g m hmail hname
      hown (setCloud_other key _ h1 h2 h3)
  · intro hflag
    have hw := withoutFlag_other key m.CloudMapping h1 h2 h3
    have hmore : noFlag (withoutFlag key m.CloudMapping) = false := by
      rw [hw]; exact noFlag_eq_false_of_flag _ hflag
    have hd := delete_owned_more g email name key m hmail hown hmore
    rw [hw] at hd
    refine ⟨hd, ?_⟩
    rw [repo_own_noFaults]
    have hl := ownLookup_after_retract key hown
    rw [hw] at hl
    exact hl

/-- The key `"XX"` on `AcmeCorp`, which `a@x.com` holds in the Choreo cloud. -/
theorem unrecognized_key_ignored_witness :
    CreateNewOrgReservation noFaults "o2" "u2"
        { OrganizationName := "AcmeCorp", OwnerEmail := "a@x.com", CloudService := "XX" }
        { store := acmeStore }
      = (.value
          (some
            { OrgReservation := { Uuid := "u1", OrganizationName := "AcmeCorp", OwnerId := "o1" }
              Owner := { Id := "o1", Email := "a@x.com" }
              CloudMapping := { ReservationId := "u1", ChoreoCloud := true } }, none),
          { store := acmeStore
            calls := [] ++ [.GetOrgReservationByNameAndEmail "AcmeCorp" "a@x.com"] })
    ∧ DeleteReservationsOfOwner noFaults "a@x.com"
          { OrganizationName := "AcmeCorp", CloudService := "XX" } { store := acmeStore }
        = (.value none,
            { store :=
                { acmeStore with
                  clouds := updateClouds { ReservationId := "u1", ChoreoCloud := true }
                    acmeStore.clouds }
              calls := [] ++
                [.GetOrgReservationByNameAndEmail "AcmeCorp" "a@x.com",
                 .UpdateCloudMappingById { ReservationId := "u1", ChoreoCloud := true }] })
    ∧ (GetOrgReservationByNameAndEmail noFaults "AcmeCorp" "a@x.com"
          { store :=
              { acmeStore with
                clouds := updateClouds { ReservationId := "u1", ChoreoCloud := true }
                  acmeStore.clouds }
            calls := [] ++
              [.GetOrgReservationByNameAndEmail "AcmeCorp" "a@x.com",
               .UpdateCloudMappingById { ReservationId := "u1", ChoreoCloud := true }] }).1.1
        = some
            { OrgReservation := { Uuid := "u1", OrganizationName := "AcmeCorp", OwnerId := "o1" }
              Owner := { Id := "o1", Email := "a@x.com" }
              CloudMapping := { ReservationId := "u1", ChoreoCloud := true } } :=
  have h := unrecognized_key_ignored { store := acmeStore } "AcmeCorp" "a@x.com" "XX" "o2" "u2"
    { OrgReservation := { Uuid := "u1", OrganizationName := "AcmeCorp", OwnerId := "o1" }
      Owner := { Id := "o1", Email := "a@x.com" }
      CloudMapping := { ReservationId := "u1", ChoreoCloud := true } }
    (by decide) (by decide) (by decide) (by decide) (by decide) (by decide)
  ⟨h.1, h.2 (Or.inl rfl)⟩

/-- C13, as stated, fails. When `a@x.com` retracts `"CH"`, the last active flag of
`AcmeCorp`, the call returns no error and the cloud mapping is gone, but the row of
`ORGANIZATION_RESERVATION` is still stored. -/
theorem retract_last_flag_counterexample :
    (DeleteReservationsOfOwner noFaults "a@x.com"
        { OrganizationName := "AcmeCorp", CloudService := "CH" } { store := acmeStore }).1
      = .value none
    ∧ (DeleteReservationsOfOwner noFaults "a@x.com"
        { OrganizationName := "AcmeCorp", CloudService := "CH" }
        { store := acmeStore }).2.store.clouds = []
    ∧ ({ Uuid := "u1", OrganizationName := "AcmeCorp", OwnerId := "o1" } : OrgReservation)
        ∈ (DeleteReservationsOfOwner noFaults "a@x.com"
            { OrganizationName := "AcmeCorp", CloudService := "CH" }
            { store := acmeStore }).2.store.orgs := by
  decide

/-- C13, amended. On a gateway that does not fail, when `email` is valid, the
joined lookup answers the mapping `m` for `name` and `email`, and the flags of `m`
without the flag of `key` are all false (the call retracts the last active flag),
`DeleteReservationsOfOwner` returns no error and sends `DeleteCloudMappingEntryById`
as its only write; afterwards no row of `MAPPED_CLOUDS` has the uuid of the
reservation as reservation id, while the tables `ORGANIZATION_RESERVATION` and
`OWNER` are as before: the reservation record is still stored. -/
theorem retract_last_flag_keeps_reservation (g : Gateway) (email name key : String)
    (m : OrgReservationMapping) (hmail : validateEmail email = true)
    (hown : (GetOrgReservationByNameAndEmail noFaults name email g).1.1 = some m)
    (hlast : (withoutFlag key m.CloudMapping).ChoreoCloud = false
      ∧ (withoutFlag key m.CloudMapping).AsgardioCloud = false
      ∧ (withoutFlag key m.CloudMapping).BallerinaCloud = false) :
    ∃ g1,
      DeleteReservationsOfOwner noFaults email
          { OrganizationName := name, CloudService := key } g = (.value none, g1)
      ∧ g1.calls = g.calls ++
          [.GetOrgReservationByNameAndEmail name email,
           .DeleteCloudMappingEntryById m.OrgReservation.Uuid]
      ∧ (∀ c ∈ g1.store.clouds, c.ReservationId ≠ m.OrgReservation.Uuid)
      ∧ m.OrgReservation ∈ g1.store.orgs
      ∧ g1.store.orgs = g.store.orgs
      ∧ g1.store.owners = g.store.owners := by
  rw [repo_own_noFaults] at hown
  simp only at hown
  have hmem : m.OrgReservation ∈ g.store.orgs := ownLookup_org_mem hown
  refine ⟨_, delete_owned_last g email name key m hmail hown (noFlag_of_flags _ hlast), rfl,
    ?_, hmem, rfl, rfl⟩
  intro c hc
  have hc2 : c ∈ g.store.clouds.filter fun c =>
      !(c.ReservationId == m.OrgReservation.Uuid) := hc
  simpa using (List.mem_filter.1 hc2).2

/-- The owner of `AcmeCorp` retracts `"CH"`, its only flag. -/
theorem retract_last_flag_keeps_reservation_witness :
    ∃ g1,
      DeleteReservationsOfOwner noFaults "a@x.com"
          { OrganizationName := "AcmeCorp", CloudService := "CH" } { store := acmeStore }
        = (.value none, g1)
      ∧ g1.calls = [] ++
          [.GetOrgReservationByNameAndEmail "AcmeCorp" "a@x.com",
           .DeleteCloudMappingEntryById "u1"]
      ∧ (∀ c ∈ g1.store.clouds, c.ReservationId ≠ "u1")
      ∧ ({ Uuid := "u1", OrganizationName := "AcmeCorp", OwnerId := "o1" } : OrgReservation)
          ∈ g1.store.orgs
      ∧ g1.store.orgs = acmeStore.orgs
      ∧ g1.store.owners = acmeStore.owners :=
  retract_last_flag_keeps_reservation { store := acmeStore } "a@x.com" "AcmeCorp" "CH"
    { OrgReservation := { Uuid := "u1", OrganizationName := "AcmeCorp", OwnerId := "o1" }
      Owner := { Id := "o1", Email := "a@x.com" }
      CloudMapping := { ReservationId := "u1", ChoreoCloud := true } }
    (by decide) (by decide) (by decide)

/-- C14. On a gateway that does not fail and a store whose organization names are
unique, when the valid `email` owns the reservation with the valid name `name`
(the joined lookup answers `m`) and `DeleteReservationsOfOwner` retracts its last
active flag, the call returns no error and in the store after it the row of
`ORGANIZATION_RESERVATION` is still there, `SearchReservationByName(name)` returns
`name` and no error, and `CreateNewOrgReservation(name, otherEmail, key2)` returns
an error of code `Error_DUPLICATE_RESERVATION` and changes no table, for every
valid `otherEmail`, in particular every one different from the owner's, and every
key. -/
theorem name_stays_reserved_after_retract (g : Gateway)
    (email name key otherEmail key2 newOwnerId newUuid : String)
    (m : OrgReservationMapping) (hnames : g.store.uniqueNames)
    (hmail : validateEmail email = true) (hname : validateOrgName name = true)
    (hother : validateEmail otherEmail = true)
    (hown : (GetOrgReservationByNameAndEmail noFaults name email g).1.1 = some m)
    (hlast : (withoutFlag key m.CloudMapping).ChoreoCloud = false
      ∧ (withoutFlag key m.CloudMapping).AsgardioCloud = false
      ∧ (withoutFlag key m.CloudMapping).BallerinaCloud = false) :
    ∃ g1,
      DeleteReservationsOfOwner noFaults email
          { OrganizationName := name, CloudService := key } g = (.value none, g1)
      ∧ m.OrgReservation ∈ g1.store.orgs
      ∧ m.OrgReservation.OrganizationName = name
      ∧ SearchReservationByName noFaults name g1
          = ((name, none), g1.record (.GetOrgReservationByName name))
      ∧ ∃ e g2,
          CreateNewOrgReservation noFaults newOwnerId newUuid
              { OrganizationName := name, OwnerEmail := otherEmail, CloudService := key2 } g1
            = (.value (none, some e), g2)
          ∧ Is (some e) Error_DUPLICATE_RESERVATION = true
          ∧ g2.store = g1.store := by
  rw [repo_own_noFaults] at hown
  simp only at hown
  have hmem := ownLookup_org_mem hown
  have hmname := (ownLookup_name hown).1
  have hlook : nameLookup g.store name = some m.OrgReservation :=
    nameLookup_of_unique hnames hmem hmname
  have hexec := delete_owned_last g email name key m hmail hown (noFlag_of_flags _ hlast)
  refine ⟨_, hexec, hmem, hmname, ?_, ?_⟩
  · rw [search_noFaults]
    have h1 : nameLookup
        { g.store with
          clouds := g.store.clouds.filter fun c =>
            !(c.ReservationId == m.OrgReservation.Uuid) } name = some m.OrgReservation := hlook
    simp only [h1, hmname]
  · have hnone : ownLookup
        { g.store with
          clouds := g.store.clouds.filter fun c =>
            !(c.ReservationId == m.OrgReservation.Uuid) } name otherEmail = none := by
      apply ownLookup_none_of_no_cloud
      intro r hr hrn c hc
      have hrr : r = m.OrgReservation :=
        List.inj_on_of_nodup_map hnames hr hmem (hrn.trans hmname.symm)
      have hc2 : c ∈ g.store.clouds.filter fun c =>
          !(c.ReservationId == m.OrgReservation.Uuid) := hc
      rw [hrr]
      simpa using (List.mem_filter.1 hc2).2
    exact ⟨_, _, create_taken newOwnerId newUuid
      { OrganizationName := name, OwnerEmail := otherEmail, CloudService := key2 } _
      m.OrgReservation hother hname hnone hlook, Is_Newf _ _, rfl⟩

/-- After `a@x.com` retracts `"CH"` from `AcmeCorp`, the name is still found and
`b@x.com` cannot reserve it. -/
theorem name_stays_reserved_after_retract_witness :
    ∃ g1,
      DeleteReservationsOfOwner noFaults "a@x.com"
          { OrganizationName := "AcmeCorp", CloudService := "CH" } { store := acmeStore }
        = (.value none, g1)
      ∧ ({ Uuid := "u1", OrganizationName := "AcmeCorp", OwnerId := "o1" } : OrgReservation)
          ∈ g1.store.orgs
      ∧ "AcmeCorp" = "AcmeCorp"
      ∧ SearchReservationByName noFaults "AcmeCorp" g1
          = (("AcmeCorp", none), g1.record (.GetOrgReservationByName "AcmeCorp"))
      ∧ ∃ e g2,
          CreateNewOrgReservation noFaults "o2" "u2"
              { OrganizationName := "AcmeCorp", OwnerEmail := "b@x.com", CloudService := "AG" }
              g1
            = (.value (none, some e), g2)
          ∧ Is (some e) Error_DUPLICATE_RESERVATION = true
          ∧ g2.store = g1.store :=
  name_stays_reserved_after_retract { store := acmeStore } "a@x.com" "AcmeCorp" "CH"
    "b@x.com" "AG" "o2" "u2"
    { OrgReservation := { Uuid := "u1", OrganizationName := "AcmeCorp", OwnerId := "o1" }
      Owner := { Id := "o1", Email := "a@x.com" }
      CloudMapping := { ReservationId := "u1", ChoreoCloud := true } }
    (by decide) (by decide) (by decide) (by decide) (by decide) (by decide)

/-- C15: the code at the failing input. `a@x.com` reserves `AcmeCorp` on the empty
store and retracts its only flag. The row of `ORGANIZATION_RESERVATION` named
`AcmeCorp` then has the owner id `o1`, the id of the only `OWNER` row, whose email is
`a@x.com`; yet a new `CreateNewOrgReservation` by `a@x.com` for `AcmeCorp` returns
the error of code `Error_DUPLICATE_RESERVATION`, "already reserved by another
user". -/
theorem owner_refused_as_duplicate_after_retract :
    (DeleteReservationsOfOwner noFaults "a@x.com"
        { OrganizationName := "AcmeCorp", CloudService := "CH" }
        (CreateNewOrgReservation noFaults "o1" "u1"
          { OrganizationName := "AcmeCorp", OwnerEmail := "a@x.com", CloudService := "CH" }
          {}).2).1 = .value none
    ∧ (DeleteReservationsOfOwner noFaults "a@x.com"
        { OrganizationName := "AcmeCorp", CloudService := "CH" }
        (CreateNewOrgReservation noFaults "o1" "u1"
          { OrganizationName := "AcmeCorp", OwnerEmail := "a@x.com", CloudService := "CH" }
          {}).2).2.store
      = { owners := [{ Id := "o1", Email := "a@x.com" }]
          orgs := [{ Uuid := "u1", OrganizationName := "AcmeCorp", OwnerId := "o1" }]
          clouds := [] }
    ∧ (CreateNewOrgReservation noFaults "o2" "u2"
        { OrganizationName := "AcmeCorp", OwnerEmail := "a@x.com", CloudService := "AG" }
        (DeleteReservationsOfOwner noFaults "a@x.com"
          { OrganizationName := "AcmeCorp", CloudService := "CH" }
          (CreateNewOrgReservation noFaults "o1" "u1"
            { OrganizationName := "AcmeCorp", OwnerEmail := "a@x.com", CloudService := "CH" }
            {}).2).2).1
      = .value (none,
          some (Newf Error_DUPLICATE_RESERVATION none
            "AcmeCorp is already reserved by another user"))
    ∧ Is (some (Newf Error_DUPLICATE_RESERVATION none
          "AcmeCorp is already reserved by another user")) Error_DUPLICATE_RESERVATION
        = true := by
  decide

/-- C16. On a gateway that does not fail, `SearchReservationByName(orgName)`
returns `orgName` and no error when some row of `ORGANIZATION_RESERVATION` has that
organization name, and returns an error of code `Error_NOT_FOUND` when no row has
it, for every store and every string. The result is the same on any two stores
whose reservations carry the same organization names, whatever their owners and
cloud mappings. -/
theorem search_by_name (g : Gateway) (orgName : String) :
    ((∃ r ∈ g.store.orgs, r.OrganizationName = orgName) →
        SearchReservationByName noFaults orgName g
          = ((orgName, none), g.record (.GetOrgReservationByName orgName)))
    ∧ ((∀ r ∈ g.store.orgs, r.OrganizationName ≠ orgName) →
        ∃ e, SearchReservationByName noFaults orgName g
            = (("", some e), g.record (.GetOrgReservationByName orgName))
          ∧ Is (some e) Error_NOT_FOUND = true)
    ∧ (∀ g1 : Gateway,
        g1.store.orgs.map (fun r => r.OrganizationName)
            = g.store.orgs.map (fun r => r.OrganizationName) →
          (SearchReservationByName noFaults orgName g1).1
            = (SearchReservationByName noFaults orgName g).1) := by
  refine ⟨?_, ?_, ?_⟩
  · rintro ⟨r, hr, hn⟩
    obtain ⟨r1, h1⟩ := nameLookup_isSome_of_mem hr hn
    rw [search_noFaults, h1]
    simp only [nameLookup_name h1]
  · intro h
    rw [search_noFaults, nameLookup_eq_none.2 h]
    exact ⟨_, rfl, Is_Newf _ _⟩
  · intro g1 h
    have hc := nameLookup_congr orgName h
    rw [search_noFaults, search_noFaults]
    cases h1 : nameLookup g1.store orgName with
    | none =>
      cases h2 : nameLookup g.store orgName with
      | none => rfl
      | some r2 => rw [h1, h2] at hc; cases hc
    | some r1 =>
      cases h2 : nameLookup g.store orgName with
      | none => rw [h1, h2] at hc; cases hc
      | some r2 =>
        rw [h1, h2] at hc
        simp only [Option.map_some', Option.some.injEq] at hc
        simp only [hc]

/-- `AcmeCorp` is found in the store that holds it, `Globex` is not, and the
answer for `AcmeCorp` is the same in the store where it has another owner. -/
theorem search_by_name_witness :
    SearchReservationByName noFaults "AcmeCorp" { store := acmeStore }
        = (("AcmeCorp", none),
            { store := acmeStore, calls := [] ++ [.GetOrgReservationByName "AcmeCorp"] })
    ∧ (∃ e, SearchReservationByName noFaults "Globex" { store := acmeStore }
            = (("", some e),
                { store := acmeStore, calls := [] ++ [.GetOrgReservationByName "Globex"] })
          ∧ Is (some e) Error_NOT_FOUND = true)
    ∧ (SearchReservationByName noFaults "AcmeCorp"
          { store := { orgs := [{ Uuid := "u9", OrganizationName := "AcmeCorp", OwnerId := "o9" }] } }).1
        = (SearchReservationByName noFaults "AcmeCorp" { store := acmeStore }).1 :=
  ⟨(search_by_name { store := acmeStore } "AcmeCorp").1 (by decide),
    (search_by_name { store := acmeStore } "Globex").2.1 (by decide),
    (search_by_name { store := acmeStore } "AcmeCorp").2.2 _ (by decide)⟩

/-- C17. On a gateway that does not fail and a store whose owner ids are unique,
`GetReservationsOfOwner(email)` returns, in table order, the organization names of
the rows of `ORGANIZATION_RESERVATION` whose `ownerId` is the id of an `OWNER` row
with that email, and no error, when there is such a row; when there is none (the
owner holds nothing, or no `OWNER` row has that email) it returns an error of code
`Error_NOT_FOUND`. -/
theorem reservations_of_owner (g : Gateway) (email : String) (hids : g.store.uniqueOwnerIds) :
    ((g.store.orgs.filter (ownedBy g.store email)) ≠ [] →
        GetReservationsOfOwner noFaults email g
          = (((g.store.orgs.filter (ownedBy g.store email)).map fun r => r.OrganizationName,
                none),
              g.record (.FindOrgReservationsByEmail email)))
    ∧ ((g.store.orgs.filter (ownedBy g.store email)) = [] →
        ∃ e, GetReservationsOfOwner noFaults email g
            = (([], some e), g.record (.FindOrgReservationsByEmail email))
          ∧ Is (some e) Error_NOT_FOUND = true) := by
  have hq := select_names_eq g.store email hids
  constructor
  · intro hne
    have hne2 : ((g.store.orgs.filter (ownedBy g.store email)).map
        fun r => r.OrganizationName) ≠ [] := by
      simpa using hne
    unfold GetReservationsOfOwner FindOrgReservationsByEmail
    simp only [noFaults, hq, hne2, ne_eq, not_false_eq_true, if_true]
  · intro he
    refine ⟨Newf Error_NOT_FOUND none "No reservations are not found in the registry", ?_,
      Is_Newf _ _⟩
    unfold GetReservationsOfOwner FindOrgReservationsByEmail
    simp only [noFaults, hq, he, List.map_nil, ne_eq, not_true_eq_false, if_false]

/-- In the store of two owners `a@x.com` holds `AcmeCorp` and `c@x.com` holds
nothing. -/
theorem reservations_of_owner_witness :
    GetReservationsOfOwner noFaults "a@x.com" { store := twoOwnersStore }
        = ((["AcmeCorp"], none),
            { store := twoOwnersStore, calls := [.FindOrgReservationsByEmail "a@x.com"] })
    ∧ (∃ e, GetReservationsOfOwner noFaults "c@x.com" { store := twoOwnersStore }
            = (([], some e),
                { store := twoOwnersStore, calls := [.FindOrgReservationsByEmail "c@x.com"] })
          ∧ Is (some e) Error_NOT_FOUND = true) :=
  ⟨(reservations_of_owner { store := twoOwnersStore } "a@x.com" (by decide)).1 (by decide),
    (reservations_of_owner { store := twoOwnersStore } "c@x.com" (by decide)).2 (by decide)⟩

/-- C18: the code at the failing input. `a@x.com` reserves `AcmeCorp` with the key
`"CH"` on the empty store; the lookup of its own reservation then returns the
mapping with the Choreo flag, `true` and no error. `a@x.com` retracts `"CH"`, its
only flag. Afterwards the row of `ORGANIZATION_RESERVATION` named `AcmeCorp` still
has the owner id `o1`, the id of the `OWNER` row with the email `a@x.com`, and
`GetReservationsOfOwner("a@x.com")` returns `AcmeCorp`; yet
`GetOwnReservationWithNameAndMail("AcmeCorp", "a@x.com")` returns no mapping,
`false` and no error. (On `twoOwnersStore`, where `Globex` of `b@x.com` has its cloud
mapping, the lookup returns the stored flags.) -/
theorem lookup_misses_owned_reservation :
    validateEmail "a@x.com" = true
    ∧ (CreateNewOrgReservation noFaults "o1" "u1"
        { OrganizationName := "AcmeCorp", OwnerEmail := "a@x.com", CloudService := "CH" } {}).2
      = acmeCreated
    ∧ (GetOwnReservationWithNameAndMail noFaults "AcmeCorp" "a@x.com" acmeCreated).1
      = (some
          { OrgReservation := { Uuid := "u1", OrganizationName := "AcmeCorp", OwnerId := "o1" }
            Owner := { Id := "o1", Email := "a@x.com" }
            CloudMapping := { ReservationId := "u1", ChoreoCloud := true } }, true, none)
    ∧ (GetOwnReservationWithNameAndMail noFaults "Globex" "b@x.com"
        { store := twoOwnersStore }).1
      = (some
          { OrgReservation := { Uuid := "u2", OrganizationName := "Globex", OwnerId := "o2" }
            Owner := { Id := "o2", Email := "b@x.com" }
            CloudMapping := { ReservationId := "u2", BallerinaCloud := true } }, true, none)
    ∧ (DeleteReservationsOfOwner noFaults "a@x.com"
        { OrganizationName := "AcmeCorp", CloudService := "CH" } acmeCreated).1 = .value none
    ∧ (DeleteReservationsOfOwner noFaults "a@x.com"
        { OrganizationName := "AcmeCorp", CloudService := "CH" } acmeCreated).2.store
      = { owners := [{ Id := "o1", Email := "a@x.com" }]
          orgs := [{ Uuid := "u1", OrganizationName := "AcmeCorp", OwnerId := "o1" }]
          clouds := [] }
    ∧ ownedBy
        { owners := [{ Id := "o1", Email := "a@x.com" }]
          orgs := [{ Uuid := "u1", OrganizationName := "AcmeCorp", OwnerId := "o1" }]
          clouds := [] }
        "a@x.com" { Uuid := "u1", OrganizationName := "AcmeCorp", OwnerId := "o1" } = true
    ∧ (GetReservationsOfOwner noFaults "a@x.com"
        (DeleteReservationsOfOwner noFaults "a@x.com"
          { OrganizationName := "AcmeCorp", CloudService := "CH" } acmeCreated).2).1
      = (["AcmeCorp"], none)
    ∧ (GetOwnReservationWithNameAndMail noFaults "AcmeCorp" "a@x.com"
        (DeleteReservationsOfOwner noFaults "a@x.com"
          { OrganizationName := "AcmeCorp", CloudService := "CH" } acmeCreated).2).1
      = (none, false, none) := by
  decide

/-- C19, as stated, fails. On the empty store, when the sixth statement of the
call, `InsertNewCloudMappingEntry`, fails, `CreateNewOrgReservation` returns that
error, and the store holds the new `OWNER` row and the new reservation row: it is
not the store before the call. -/
theorem create_partial_write_counterexample :
    CreateNewOrgReservation (failAt 5 (.other "driver: bad connection")) "o1" "u1"
        { OrganizationName := "AcmeCorp", OwnerEmail := "a@x.com", CloudService := "CH" } {}
      = (.value (none, some (.other "driver: bad connection")),
          { store :=
              { owners := [{ Id := "o1", Email := "a@x.com" }]
                orgs := [{ Uuid := "u1", OrganizationName := "AcmeCorp", OwnerId := "o1" }]
                clouds := [] }
            calls :=
              [.GetOrgReservationByNameAndEmail "AcmeCorp" "a@x.com",
               .GetOrgReservationByName "AcmeCorp",
               .GetOwnerByEmail "a@x.com",
               .InsertNewOwner { Id := "o1", Email := "a@x.com" },
               .InsertNewOrgReservation
                 { Uuid := "u1", OrganizationName := "AcmeCorp", OwnerId := "o1" },
               .InsertNewCloudMappingEntry { ReservationId := "u1", ChoreoCloud := true }] })
    ∧ (CreateNewOrgReservation (failAt 5 (.other "driver: bad connection")) "o1" "u1"
        { OrganizationName := "AcmeCorp", OwnerEmail := "a@x.com", CloudService := "CH" }
        {}).2.store ≠ ({} : Gateway).store := by
  decide

/-- C19, amended. The writes of `CreateNewOrgReservation` are separate statements
and none is undone. For every store and every behaviour of the gateway, when the
call returns an error, `MAPPED_CLOUDS` is as before and no earlier row is changed
or removed, while the rows inserted before the failing statement stay: `OWNER` is
as before or has the new owner appended, `ORGANIZATION_RESERVATION` is as before or
has the new reservation appended. In particular, for a valid payload with a free
name and an email without `OWNER` row, when `InsertNewCloudMappingEntry` (the
sixth statement) fails with `err` and the five statements before it are executed,
the call returns `err` and leaves behind the reservation inserted just before and
the newly inserted owner. -/
theorem create_error_keeps_earlier_inserts (F : Faults) (g g1 : Gateway)
    (newOwnerId newUuid : String) (p : OrgReservationPayload)
    (r : Option OrgReservationMapping) (e err : GoError) :
    (CreateNewOrgReservation F newOwnerId newUuid p g = (.value (r, some e), g1) →
        g1.store.clouds = g.store.clouds
        ∧ (g1.store.owners = g.store.owners
            ∨ g1.store.owners = g.store.owners ++ [{ Id := newOwnerId, Email := p.OwnerEmail }])
        ∧ (g1.store.orgs = g.store.orgs
            ∨ ∃ ownerId, g1.store.orgs = g.store.orgs ++
                [{ Uuid := newUuid
                   OrganizationName := p.OrganizationName
                   OwnerId := ownerId }]))
    ∧ (validateEmail p.OwnerEmail = true → validateOrgName p.OrganizationName = true →
        (GetOrgReservationByNameAndEmail noFaults p.OrganizationName p.OwnerEmail g).1.1 = none →
        (GetOrgReservationByName noFaults p.OrganizationName g).1.1 = none →
        (GetOwnerByEmail noFaults p.OwnerEmail g).1.1 = none →
        CreateNewOrgReservation (failAt (g.calls.length + 5) err) newOwnerId newUuid p g
          = (.value (none, some err),
              { store :=
                  { owners := g.store.owners ++ [{ Id := newOwnerId, Email := p.OwnerEmail }]
                    orgs := g.store.orgs ++
                      [{ Uuid := newUuid
                         OrganizationName := p.OrganizationName
                         OwnerId := newOwnerId }]
                    clouds := g.store.clouds }
                calls := g.calls ++
                  [.GetOrgReservationByNameAndEmail p.OrganizationName p.OwnerEmail,
                   .GetOrgReservationByName p.OrganizationName,
                   .GetOwnerByEmail p.OwnerEmail,
                   .InsertNewOwner { Id := newOwnerId, Email := p.OwnerEmail },
                   .InsertNewOrgReservation
                      { Uuid := newUuid
                        OrganizationName := p.OrganizationName
                        OwnerId := newOwnerId },
                   .InsertNewCloudMappingEntry
                      { setCloud p.CloudService {} with ReservationId := newUuid }] })) := by
  refine ⟨create_error_frame F g g1 newOwnerId newUuid p r e, ?_⟩
  intro hmail hname hown hfree hnew
  rw [repo_own_noFaults] at hown
  rw [repo_name_noFaults] at hfree
  rw [repo_owner_noFaults] at hnew
  exact create_cloud_insert_fails g newOwnerId newUuid p err hmail hname hown hfree hnew

/-- On a store that holds `AcmeCorp`, the reservation of `Globex` by the new owner
`c@x.com` fails at its second insert, and fails at its third insert. -/
theorem create_error_keeps_earlier_inserts_witness :
    ((acmeStore.clouds = acmeStore.clouds
        ∧ (acmeStore.owners ++ [{ Id := "o3", Email := "c@x.com" }] = acmeStore.owners
            ∨ acmeStore.owners ++ [{ Id := "o3", Email := "c@x.com" }]
                = acmeStore.owners ++ [{ Id := "o3", Email := "c@x.com" }])
        ∧ (acmeStore.orgs = acmeStore.orgs
            ∨ ∃ ownerId, acmeStore.orgs = acmeStore.orgs ++
                [{ Uuid := "u3", OrganizationName := "Globex", OwnerId := ownerId }]))
    ∧ CreateNewOrgReservation (failAt 5 (.other "driver: bad connection")) "o3" "u3"
          { OrganizationName := "Globex", OwnerEmail := "c@x.com", CloudService := "BL" }
          { store := acmeStore }
        = (.value (none, some (.other "driver: bad connection")),
            { store :=
                { owners := acmeStore.owners ++ [{ Id := "o3", Email := "c@x.com" }]
                  orgs := acmeStore.orgs ++
                    [{ Uuid := "u3", OrganizationName := "Globex", OwnerId := "o3" }]
                  clouds := acmeStore.clouds }
              calls := [] ++
                [.GetOrgReservationByNameAndEmail "Globex" "c@x.com",
                 .GetOrgReservationByName "Globex",
                 .GetOwnerByEmail "c@x.com",
                 .InsertNewOwner { Id := "o3", Email := "c@x.com" },
                 .InsertNewOrgReservation
                    { Uuid := "u3", OrganizationName := "Globex", OwnerId := "o3" },
                 .InsertNewCloudMappingEntry
                    { setCloud "BL" {} with ReservationId := "u3" }] })) :=
  have h := create_error_keeps_earlier_inserts (failAt 4 (.other "driver: bad connection"))
    { store := acmeStore }
    { store := { acmeStore with owners := acmeStore.owners ++ [{ Id := "o3", Email := "c@x.com" }] }
      calls :=
        [.GetOrgReservationByNameAndEmail "Globex" "c@x.com",
         .GetOrgReservationByName "Globex",
         .GetOwnerByEmail "c@x.com",
         .InsertNewOwner { Id := "o3", Email := "c@x.com" },
         .InsertNewOrgReservation { Uuid := "u3", OrganizationName := "Globex", OwnerId := "o3" }] }
    "o3" "u3" { OrganizationName := "Globex", OwnerEmail := "c@x.com", CloudService := "BL" }
    none (.other "driver: bad connection") (.other "driver: bad connection")
  ⟨h.1 (by decide), h.2 (by decide) (by decide) (by decide) (by decide) (by decide)⟩

/-- C20: the code at the failing input. `a@x.com` holds `AcmeCorp`; the payload of
`b@x.com` for `AcmeCorp` is valid and `b@x.com` does not own the name. The second
statement of the call, `GetOrgReservationByName`, fails with a driver error, which
is not of code `Error_DUPLICATE_RESERVATION`. `CreateNewOrgReservation` does not
return that error: it returns a mapping and no error, after inserting an owner, a
second reservation named `AcmeCorp` and a cloud mapping. -/
theorem create_swallows_lookup_fault :
    validateEmail "b@x.com" = true
    ∧ validateOrgName "AcmeCorp" = true
    ∧ (GetOrgReservationByNameAndEmail noFaults "AcmeCorp" "b@x.com"
        { store := acmeStore }).1.1 = none
    ∧ (GetOrgReservationByName (failAt 1 (.other "driver: bad connection")) "AcmeCorp"
        { store := acmeStore
          calls := [.GetOrgReservationByNameAndEmail "AcmeCorp" "b@x.com"] }).1
      = (none, some (.other "driver: bad connection"))
    ∧ Is (some (.other "driver: bad connection")) Error_DUPLICATE_RESERVATION = false
    ∧ CreateNewOrgReservation (failAt 1 (.other "driver: bad connection")) "o2" "u2"
        { OrganizationName := "AcmeCorp", OwnerEmail := "b@x.com", CloudService := "AG" }
        { store := acmeStore }
      = (.value
          (some
            { OrgReservation := { Uuid := "u2", OrganizationName := "AcmeCorp", OwnerId := "o2" }
              Owner := { Id := "o2", Email := "b@x.com" }
              CloudMapping := { ReservationId := "u2", AsgardioCloud := true } }, none),
          { store :=
              { owners := [{ Id := "o1", Email := "a@x.com" }, { Id := "o2", Email := "b@x.com" }]
                orgs := [{ Uuid := "u1", OrganizationName := "AcmeCorp", OwnerId := "o1" },
                  { Uuid := "u2", OrganizationName := "AcmeCorp", OwnerId := "o2" }]
                clouds := [{ ReservationId := "u1", ChoreoCloud := true },
                  { ReservationId := "u2", AsgardioCloud := true }] }
            calls :=
              [.GetOrgReservationByNameAndEmail "AcmeCorp" "b@x.com",
               .GetOrgReservationByName "AcmeCorp",
               .GetOwnerByEmail "b@x.com",
               .InsertNewOwner { Id := "o2", Email := "b@x.com" },
               .InsertNewOrgReservation
                 { Uuid := "u2", OrganizationName := "AcmeCorp", OwnerId := "o2" },
               .InsertNewCloudMappingEntry { ReservationId := "u2", AsgardioCloud := true }] }) := by
  decide

/-- C21, as stated, fails. On the empty store the name `AcmeCorp` is free, the
existence check of `CreateNewOrgReservation` finds nothing, and the statement
`InsertNewOrgReservation` (number 4 of the call) fails with the driver's
duplicate-entry error: the call returns that error itself, and `errors.Is` of it
and `Error_DUPLICATE_RESERVATION` is false; its code is `Error_UNKNOWN`. -/
theorem insert_uniqueness_violation_counterexample :
    nameLookup ({} : Gateway).store "AcmeCorp" = none
    ∧ (CreateNewOrgReservation (failAt 4 duplicateEntry) "o1" "u1"
          { OrganizationName := "AcmeCorp", OwnerEmail := "a@x.com", CloudService := "CH" }
          {}).1 = .value (none, some duplicateEntry)
    ∧ (CreateNewOrgReservation (failAt 4 duplicateEntry) "o1" "u1"
          { OrganizationName := "AcmeCorp", OwnerEmail := "a@x.com", CloudService := "CH" }
          {}).2.calls.getLast?
        = some (.InsertNewOrgReservation
            { Uuid := "u1", OrganizationName := "AcmeCorp", OwnerId := "o1" })
    ∧ Is (some duplicateEntry) Error_DUPLICATE_RESERVATION = false
    ∧ Is (some duplicateEntry) Error_UNKNOWN = true := by
  decide

/-- C21, amended. When the payload is valid, the existence check finds the name
free, the statements of the call before `InsertNewOrgReservation` are executed
and `InsertNewOrgReservation` fails with `err`, `CreateNewOrgReservation` returns
no mapping and the error `err` of the gateway unchanged; the failed insert is the
last statement sent, and the reservations and cloud mappings are as before. Hence
the code of the returned error is that of the gateway's error: for an error of
the SQL driver (`GoError.other`) `errors.Is(err, Error_DUPLICATE_RESERVATION)` is
false and the code is `Error_UNKNOWN`; for a `*serviceError` it is true exactly
when the gateway already gave it the code `Error_DUPLICATE_RESERVATION`. -/
theorem create_returns_insert_error_unchanged (F : Faults) (g : Gateway)
    (newOwnerId newUuid : String) (p : OrgReservationPayload) (err : GoError)
    (hmail : validateEmail p.OwnerEmail = true) (hname : validateOrgName p.OrganizationName = true)
    (hfree : (GetOrgReservationByOrgNameQuery g.store p.OrganizationName).head? = none)
    (hbefore : ∀ k, k < insertReservationIndex g p.OwnerEmail → g.calls.length ≤ k → F k = none)
    (hfail : F (insertReservationIndex g p.OwnerEmail) = some err) :
    ∃ g1,
      CreateNewOrgReservation F newOwnerId newUuid p g = (.value (none, some err), g1)
      ∧ g1.calls.getLast?
          = some (.InsertNewOrgReservation
              { Uuid := newUuid
                OrganizationName := p.OrganizationName
                OwnerId := (resolveOwner g.store newOwnerId p.OwnerEmail).Id })
      ∧ g1.store.orgs = g.store.orgs ∧ g1.store.clouds = g.store.clouds
      ∧ (∀ text, err = .other text →
          Is (some err) Error_DUPLICATE_RESERVATION = false
          ∧ FromError (some err)
              = some { Code := Error_UNKNOWN, Message := "unknown error", Cause := text })
      ∧ ∀ e, err = .serviceError e →
          (Is (some err) Error_DUPLICATE_RESERVATION = true
            ↔ e.Code = Error_DUPLICATE_RESERVATION) := by
  have hfree1 : nameLookup g.store p.OrganizationName = none := by
    rw [← hfree]; exact (head?_filter_eq_find? _ _).symm
  refine ⟨_, create_org_insert_fails F g newOwnerId newUuid p err hmail hname hfree1
    (fun k h1 h2 => hbefore k h2 h1) hfail, ?_, rfl, rfl, ?_, ?_⟩
  · simp only [← List.append_assoc]
    exact List.getLast?_concat _
  · rintro text rfl
    exact ⟨rfl, rfl⟩
  · rintro e rfl
    simp [Is, FromError]

/-- On the empty store, with the insert of the reservation `AcmeCorp` failing
with the driver's duplicate-entry error. -/
theorem create_returns_insert_error_unchanged_witness :
    ∃ g1,
      CreateNewOrgReservation (failAt 4 duplicateEntry) "o1" "u1"
          { OrganizationName := "AcmeCorp", OwnerEmail := "a@x.com", CloudService := "CH" } {}
        = (.value (none, some duplicateEntry), g1)
      ∧ g1.calls.getLast?
          = some (.InsertNewOrgReservation
              { Uuid := "u1"
                OrganizationName := "AcmeCorp"
                OwnerId := (resolveOwner ({} : Gateway).store "o1" "a@x.com").Id })
      ∧ g1.store.orgs = ({} : Gateway).store.orgs ∧ g1.store.clouds = ({} : Gateway).store.clouds
      ∧ (∀ text, duplicateEntry = .other text →
          Is (some duplicateEntry) Error_DUPLICATE_RESERVATION = false
          ∧ FromError (some duplicateEntry)
              = some { Code := Error_UNKNOWN, Message := "unknown error", Cause := text })
      ∧ ∀ e, duplicateEntry = .serviceError e →
          (Is (some duplicateEntry) Error_DUPLICATE_RESERVATION = true
            ↔ e.Code = Error_DUPLICATE_RESERVATION) :=
  create_returns_insert_error_unchanged (failAt 4 duplicateEntry) {} "o1" "u1"
    { OrganizationName := "AcmeCorp", OwnerEmail := "a@x.com", CloudService := "CH" }
    duplicateEntry (by decide) (by decide) (by decide) (by decide) (by decide)

/-- C22. On a gateway that does not fail, after every sequence of calls of
`CreateNewOrgReservation`, `UpdateOrgMapping` and `DeleteReservationsOfOwner`
started on the empty store, with any arguments and any values drawn by
`uuid.NewString()`, no two rows of `ORGANIZATION_RESERVATION` have the same
organization name. -/
theorem names_unique_in_reachable_states (ops : List Op) :
    (runOps noFaults ops {}).store.uniqueNames :=
  runOps_invariant Store.uniqueNames step_uniqueNames ops {} List.nodup_nil

/-- After the calls of `sampleOps` the organization names are unique. -/
theorem names_unique_in_reachable_states_witness :
    (runOps noFaults sampleOps {}).store.uniqueNames :=
  names_unique_in_reachable_states sampleOps

/-- C23. On a gateway that does not fail and a store with at most one owner for
each email, after a call of `CreateNewOrgReservation`, `UpdateOrgMapping` or
`DeleteReservationsOfOwner` (the three forms of `op`) the store still has at most
one owner for each email, and the table `OWNER` is the table before the call
followed by at most one new row: every earlier row is still there, with its id
and its email. -/
theorem owners_unique_and_kept (op : Op) (g : Gateway) (h : g.store.uniqueEmails) :
    (Op.run noFaults op g).store.uniqueEmails
    ∧ (∃ added, (Op.run noFaults op g).store.owners = g.store.owners ++ added
        ∧ added.length ≤ 1)
    ∧ ∀ o ∈ g.store.owners, o ∈ (Op.run noFaults op g).store.owners := by
  obtain ⟨h1, added, h2, h3⟩ := step_owners op g h
  refine ⟨h1, ⟨added, h2, h3⟩, ?_⟩
  intro o ho
  rw [h2]
  exact List.mem_append_left _ ho

/-- While `a@x.com` holds `AcmeCorp`, `b@x.com` reserves `Globex`: the owner of
`a@x.com` stays and one owner is added. -/
theorem owners_unique_and_kept_witness :
    (Op.run noFaults
        (.create "o2" "u2"
          { OrganizationName := "Globex", OwnerEmail := "b@x.com", CloudService := "CH" })
        { store := acmeStore }).store.uniqueEmails
    ∧ (∃ added,
        (Op.run noFaults
          (.create "o2" "u2"
            { OrganizationName := "Globex", OwnerEmail := "b@x.com", CloudService := "CH" })
          { store := acmeStore }).store.owners
          = ({ store := acmeStore } : Gateway).store.owners ++ added
        ∧ added.length ≤ 1)
    ∧ ∀ o ∈ ({ store := acmeStore } : Gateway).store.owners,
        o ∈ (Op.run noFaults
          (.create "o2" "u2"
            { OrganizationName := "Globex", OwnerEmail := "b@x.com", CloudService := "CH" })
          { store := acmeStore }).store.owners :=
  owners_unique_and_kept
    (.create "o2" "u2"
      { OrganizationName := "Globex", OwnerEmail := "b@x.com", CloudService := "CH" })
    { store := acmeStore } (by decide)

/-- C24, as stated, fails. On a gateway that does not fail, started on the empty
store: `CreateNewOrgReservation` for `AcmeCorp` with the cloud key `"XX"` succeeds
and stores a cloud mapping whose three flags are false; and after
`CreateNewOrgReservation` for `AcmeCorp` with the key `"CH"` and a successful
`DeleteReservationsOfOwner` with the key `"CH"` the reservation `AcmeCorp` is
stored without any cloud mapping. -/
theorem cloud_invariant_counterexample :
    (CreateNewOrgReservation noFaults "o1" "u1"
        { OrganizationName := "AcmeCorp", OwnerEmail := "a@x.com", CloudService := "XX" } {}).1
      = .value
          (some
            { OrgReservation := { Uuid := "u1", OrganizationName := "AcmeCorp", OwnerId := "o1" }
              Owner := { Id := "o1", Email := "a@x.com" }
              CloudMapping := { ReservationId := "u1" } }, none)
    ∧ (runOps noFaults
        [.create "o1" "u1"
          { OrganizationName := "AcmeCorp", OwnerEmail := "a@x.com", CloudService := "XX" }]
        {}).store.clouds
      = [{ ReservationId := "u1", ChoreoCloud := false, AsgardioCloud := false,
           BallerinaCloud := false }]
    ∧ runOps noFaults
        [.create "o1" "u1"
          { OrganizationName := "AcmeCorp", OwnerEmail := "a@x.com", CloudService := "CH" }]
        {} = acmeCreated
    ∧ (DeleteReservationsOfOwner noFaults "a@x.com"
        { OrganizationName := "AcmeCorp", CloudService := "CH" } acmeCreated).1 = .value none
    ∧ (runOps noFaults
        [.create "o1" "u1"
          { OrganizationName := "AcmeCorp", OwnerEmail := "a@x.com", CloudService := "CH" },
         .delete "a@x.com" { OrganizationName := "AcmeCorp", CloudService := "CH" }]
        {}).store
      = { owners := [{ Id := "o1", Email := "a@x.com" }]
          orgs := [{ Uuid := "u1", OrganizationName := "AcmeCorp", OwnerId := "o1" }]
          clouds := [] } := by
  decide

/-- C24, amended. For every behaviour of the gateway (any statement may fail),
after every sequence of calls of `CreateNewOrgReservation`, `UpdateOrgMapping` and
`DeleteReservationsOfOwner` started on the empty store, successful or not, with
any arguments and cloud keys, in which every uuid drawn for a reservation is
fresh: every row of `MAPPED_CLOUDS` has a row of `ORGANIZATION_RESERVATION` with its
reservation id as uuid, no two rows of `MAPPED_CLOUDS` have the same reservation
id, no two reservations the same uuid, so that every reservation has at most one
cloud mapping (none once its last flag was retracted); and when every
`CreateNewOrgReservation` of the sequence carries one of the keys `"CH"`, `"AG"`,
`"BL"`, no stored cloud mapping has all three flags false. -/
theorem cloud_invariant_of_reachable (F : Faults) (ops : List Op)
    (hfresh : freshRun F ops {} = true) :
    (runOps F ops {}).store.cloudsHaveParent
    ∧ (runOps F ops {}).store.uniqueCloudIds
    ∧ (runOps F ops {}).store.uniqueUuids
    ∧ (∀ r ∈ (runOps F ops {}).store.orgs,
        ((runOps F ops {}).store.clouds.filter
          fun c => c.ReservationId == r.Uuid).length ≤ 1)
    ∧ ((∀ op ∈ ops, op.keyKnown = true) →
        ∀ c ∈ (runOps F ops {}).store.clouds, noFlag c = false) := by
  have h0 : ({} : Gateway).store.cloudsHaveParent ∧ ({} : Gateway).store.uniqueCloudIds
      ∧ ({} : Gateway).store.uniqueUuids :=
    ⟨fun c hc => (by cases hc), List.nodup_nil, List.nodup_nil⟩
  obtain ⟨h1, h2, h3⟩ := runOps_cloud_inv F ops {} hfresh h0
  refine ⟨h1, h2, h3, fun r _ => filter_id_length_le_one _ _ h2, fun hk => ?_⟩
  exact runOps_flags F ops {} hk (fun c hc => (by cases hc))

/-- After the calls of `sampleOps` on a gateway that does not fail the store holds
`AcmeCorp` with the Asgardio flag and `Globex` with the Ballerina flag, and the
invariants hold. -/
theorem cloud_invariant_of_reachable_witness :
    (runOps noFaults sampleOps {}).store.cloudsHaveParent
    ∧ (runOps noFaults sampleOps {}).store.uniqueCloudIds
    ∧ (runOps noFaults sampleOps {}).store.uniqueUuids
    ∧ (∀ r ∈ (runOps noFaults sampleOps {}).store.orgs,
        ((runOps noFaults sampleOps {}).store.clouds.filter
          fun c => c.ReservationId == r.Uuid).length ≤ 1)
    ∧ ((∀ op ∈ sampleOps, op.keyKnown = true) →
        ∀ c ∈ (runOps noFaults sampleOps {}).store.clouds, noFlag c = false) :=
  cloud_invariant_of_reachable noFaults sampleOps (by decide)

/-- C25. `validateOrgName(s)` is true exactly when every character of `s` is an
ASCII letter, an ASCII digit or the underscore. Hence a string that contains a
space, a newline, an ASCII punctuation character other than the underscore, or a
character outside ASCII is rejected. -/
theorem validateOrgName_iff (s : String) :
    (validateOrgName s = true ↔ ∀ c ∈ s.toList, isNameChar c = true)
    ∧ ((∃ c ∈ s.toList, c = ' ' ∨ c = '\n' ∨ isOtherPunctuation c = true ∨ 127 < c.toNat) →
        validateOrgName s = false) := by
  have hiff : validateOrgName s = true ↔ ∀ c ∈ s.toList, isNameChar c = true := by
    rw [validateOrgName_true_iff]
    constructor
    · intro h c hc; rw [← orgNameClass_eq]; exact h c hc
    · intro h c hc; rw [orgNameClass_eq]; exact h c hc
  refine ⟨hiff, ?_⟩
  rintro ⟨c, hc, hbad⟩
  cases hv : validateOrgName s with
  | false => rfl
  | true =>
    exfalso
    have hcls := (validateOrgName_true_iff s).1 hv c hc
    have hn := orgNameClass_toNat hcls
    rcases hbad with rfl | rfl | hp | hbig
    · revert hn; decide
    · revert hn; decide
    · unfold isOtherPunctuation at hp
      simp only [Bool.and_eq_true, Bool.or_eq_true, decide_eq_true_eq, Bool.not_eq_true',
        beq_eq_false_iff_ne, ne_eq] at hp
      obtain ⟨hr, hne⟩ := hp
      have h95 : c.toNat ≠ 95 := by
        intro h
        apply hne
        apply Char.ext
        apply UInt32.ext
        exact h
      omega
    · omega

/-- The name `Acme_Corp1`. -/
theorem validateOrgName_iff_witness :
    (validateOrgName "Acme_Corp1" = true ↔ ∀ c ∈ "Acme_Corp1".toList, isNameChar c = true)
    ∧ ((∃ c ∈ "Acme_Corp1".toList,
          c = ' ' ∨ c = '\n' ∨ isOtherPunctuation c = true ∨ 127 < c.toNat) →
        validateOrgName "Acme_Corp1" = false) :=
  validateOrgName_iff "Acme_Corp1"

/-- C26. `validateEmail(e)` is true exactly when `e` is `local@domain.tld` with a
non-empty `local` over `[a-z0-9._%+-]`, a non-empty `domain` over `[a-z0-9.-]` and
a `tld` of two to four lowercase ASCII letters. Hence a string that contains an
uppercase ASCII letter and a string without `@` are rejected, and so is
`"not-an-email"`. -/
theorem validateEmail_iff (e : String) :
    (validateEmail e = true ↔
      ∃ loc dom tld : String, e = loc ++ "@" ++ dom ++ "." ++ tld
        ∧ loc ≠ "" ∧ (∀ c ∈ loc.toList, isLocalChar c = true)
        ∧ dom ≠ "" ∧ (∀ c ∈ dom.toList, isDomainChar c = true)
        ∧ 2 ≤ tld.length ∧ tld.length ≤ 4 ∧ ∀ c ∈ tld.toList, c.isLower = true)
    ∧ ((∃ c ∈ e.toList, c.isUpper = true) → validateEmail e = false)
    ∧ ('@' ∉ e.toList → validateEmail e = false)
    ∧ validateEmail "not-an-email" = false := by
  have hlist : validateEmail e = true ↔
      ∃ loc dom tld : List Char, e.toList = loc ++ '@' :: (dom ++ '.' :: tld)
        ∧ loc ≠ [] ∧ (∀ c ∈ loc, emailLocalClass c = true)
        ∧ dom ≠ [] ∧ (∀ c ∈ dom, emailDomainClass c = true)
        ∧ 2 ≤ tld.length ∧ tld.length ≤ 4 ∧ ∀ c ∈ tld, lowerClass c = true :=
    matchList_emailRegex e.toList
  refine ⟨?_, ?_, ?_, by decide⟩
  · rw [hlist]
    constructor
    · rintro ⟨loc, dom, tld, h, hl1, hl2, hd1, hd2, ht1, ht2, ht3⟩
      refine ⟨⟨loc⟩, ⟨dom⟩, ⟨tld⟩, ?_, ?_, ?_, ?_, ?_, ht1, ht2, ?_⟩
      · apply String.ext
        simp only [String.data_append]
        rw [show e.data = e.toList from rfl, h]
        simp
      · intro h0
        apply hl1
        exact congrArg String.data h0
      · intro c hc; rw [← emailLocalClass_eq]; exact hl2 c hc
      · intro h0
        apply hd1
        exact congrArg String.data h0
      · intro c hc; rw [← emailDomainClass_eq]; exact hd2 c hc
      · intro c hc; rw [← lowerClass_eq]; exact ht3 c hc
    · rintro ⟨loc, dom, tld, rfl, hl1, hl2, hd1, hd2, ht1, ht2, ht3⟩
      refine ⟨loc.toList, dom.toList, tld.toList, ?_, ?_, ?_, ?_, ?_, ht1, ht2, ?_⟩
      · show (loc ++ "@" ++ dom ++ "." ++ tld).data = _
        simp only [String.data_append]
        simp
      · intro h0
        apply hl1
        exact String.ext h0
      · intro c hc; rw [emailLocalClass_eq]; exact hl2 c hc
      · intro h0
        apply hd1
        exact String.ext h0
      · intro c hc; rw [emailDomainClass_eq]; exact hd2 c hc
      · intro c hc; rw [lowerClass_eq]; exact ht3 c hc
  · rintro ⟨c, hc, hup⟩
    cases hv : validateEmail e with
    | false => rfl
    | true =>
      exfalso
      obtain ⟨loc, dom, tld, h, -, hl2, -, hd2, -, -, ht3⟩ := hlist.1 hv
      rw [h] at hc
      have hnat : 65 ≤ c.toNat ∧ c.toNat ≤ 90 := by
        rw [← inRange_upper] at hup
        simpa [inRange] using hup
      simp only [List.mem_append, List.mem_cons] at hc
      rcases hc with hc | rfl | hc | rfl | hc
      · have := hl2 c hc
        unfold emailLocalClass inRange at this
        simp only [Bool.or_eq_true, Bool.and_eq_true, decide_eq_true_eq, beq_iff_eq] at this
        rcases this with (((((h1 | h1) | rfl) | rfl) | rfl) | rfl) | rfl
        · have : 'a'.toNat = 97 := rfl
          omega
        · have : '9'.toNat = 57 := rfl
          omega
        all_goals revert hnat; decide
      · revert hnat; decide
      · have := hd2 c hc
        unfold emailDomainClass inRange at this
        simp only [Bool.or_eq_true, Bool.and_eq_true, decide_eq_true_eq, beq_iff_eq] at this
        rcases this with ((h1 | h1) | rfl) | rfl
        · have : 'a'.toNat = 97 := rfl
          omega
        · have : '9'.toNat = 57 := rfl
          omega
        all_goals revert hnat; decide
      · revert hnat; decide
      · have := ht3 c hc
        unfold lowerClass inRange at this
        simp only [Bool.and_eq_true, decide_eq_true_eq] at this
        have : 'a'.toNat = 97 := rfl
        omega
  · intro hno
    cases hv : validateEmail e with
    | false => rfl
    | true =>
      exfalso
      obtain ⟨loc, dom, tld, h, -⟩ := hlist.1 hv
      apply hno
      rw [h]
      simp

/-- The address `a@x.com`. -/
theorem validateEmail_iff_witness :
    (validateEmail "a@x.com" = true ↔
      ∃ loc dom tld : String, "a@x.com" = loc ++ "@" ++ dom ++ "." ++ tld
        ∧ loc ≠ "" ∧ (∀ c ∈ loc.toList, isLocalChar c = true)
        ∧ dom ≠ "" ∧ (∀ c ∈ dom.toList, isDomainChar c = true)
        ∧ 2 ≤ tld.length ∧ tld.length ≤ 4 ∧ ∀ c ∈ tld.toList, c.isLower = true)
    ∧ ((∃ c ∈ "a@x.com".toList, c.isUpper = true) → validateEmail "a@x.com" = false)
    ∧ ('@' ∉ "a@x.com".toList → validateEmail "a@x.com" = false)
    ∧ validateEmail "not-an-email" = false :=
  validateEmail_iff "a@x.com"

/-- C27, as stated, fails. The repository `r1` holds the reservation `AcmeCorp`
and `r2` is empty; `s1` is built on `r1` and then `s2` on `r2`. The field
`orgNameMapper` of `s1` refers to `r1`, and `SearchReservationByName("AcmeCorp")`
on the contents of `r1` answers `AcmeCorp`; invoked on `s1` it returns an error of
code `Error_NOT_FOUND`, its `SELECT` is recorded in `r2`, and `r1` has received no
statement. -/
theorem two_services_share_repository_counterexample :
    firstService.orgNameMapper = 0
    ∧ afterFirst.repositories[0]? = some { store := acmeStore }
    ∧ (SearchReservationByName noFaults "AcmeCorp" { store := acmeStore }).1
        = ("AcmeCorp", none)
    ∧ firstService.SearchReservationByName noFaults "AcmeCorp"
          (NewOrgReservationService 1 afterFirst).2
        = (.value
            ("", some (Newf Error_NOT_FOUND none "AcmeCorp is not found in the registry")),
            { repositories :=
                [{ store := acmeStore },
                 { store := {}, calls := [.GetOrgReservationByName "AcmeCorp"] }]
              repo := some 1 }) := by
  decide

/-- C27, amended. After `NewOrgReservationService(r)`, for every state of the
package before the call, every content `g` of the repository `r`, every fault
oracle and all arguments: the new service refers to `r`, the package variable
`repo` refers to `r`, and each of the seven methods, invoked on any service `s`
(the new one or one built earlier on another repository), gives the result of the
operation on `g` and puts the gateway after the operation in the place of `r`;
every other repository is as before. -/
theorem service_uses_latest_repository (w : Package) (r : Nat) (g : Gateway) (s : Service)
    (F : Faults) (orgName email currentMail newOwnerId newUuid : String)
    (payload : OrgReservationPayload) (updatePayload : MappingUpdatePayload)
    (deletePayload : ReservationDeletePayload)
    (hr : w.repositories[r]? = some g) :
    NewOrgReservationService r w
      = ({ orgNameMapper := r }, { repositories := w.repositories, repo := some r })
    ∧ s.CreateNewOrgReservation F newOwnerId newUuid payload (NewOrgReservationService r w).2
        = ((CreateNewOrgReservation F newOwnerId newUuid payload g).1,
            { repositories :=
                w.repositories.set r (CreateNewOrgReservation F newOwnerId newUuid payload g).2
              repo := some r })
    ∧ s.GetOrgReservationByOrgName F orgName (NewOrgReservationService r w).2
        = (.value (GetOrgReservationByOrgName F orgName g).1,
            { repositories := w.repositories.set r (GetOrgReservationByOrgName F orgName g).2
              repo := some r })
    ∧ s.GetOwnReservationWithNameAndMail F orgName email (NewOrgReservationService r w).2
        = (.value (GetOwnReservationWithNameAndMail F orgName email g).1,
            { repositories :=
                w.repositories.set r (GetOwnReservationWithNameAndMail F orgName email g).2
              repo := some r })
    ∧ s.UpdateOrgMapping F newOwnerId currentMail updatePayload (NewOrgReservationService r w).2
        = ((UpdateOrgMapping F newOwnerId currentMail updatePayload g).1,
            { repositories :=
                w.repositories.set r (UpdateOrgMapping F newOwnerId currentMail updatePayload g).2
              repo := some r })
    ∧ s.SearchReservationByName F orgName (NewOrgReservationService r w).2
        = (.value (SearchReservationByName F orgName g).1,
            { repositories := w.repositories.set r (SearchReservationByName F orgName g).2
              repo := some r })
    ∧ s.GetReservationsOfOwner F email (NewOrgReservationService r w).2
        = (.value (GetReservationsOfOwner F email g).1,
            { repositories := w.repositories.set r (GetReservationsOfOwner F email g).2
              repo := some r })
    ∧ s.DeleteReservationsOfOwner F email deletePayload (NewOrgReservationService r w).2
        = ((DeleteReservationsOfOwner F email deletePayload g).1,
            { repositories :=
                w.repositories.set r (DeleteReservationsOfOwner F email deletePayload g).2
              repo := some r })
    ∧ ∀ (g1 : Gateway) (j : Nat), j ≠ r →
        (w.repositories.set r g1)[j]? = w.repositories[j]? := by
  refine ⟨rfl, ?_, ?_, ?_, ?_, ?_, ?_, ?_, ?_⟩
  · simp only [Service.CreateNewOrgReservation, NewOrgReservationService, hr]
  · simp only [Service.GetOrgReservationByOrgName, NewOrgReservationService, hr]
  · simp only [Service.GetOwnReservationWithNameAndMail, NewOrgReservationService, hr]
  · simp only [Service.UpdateOrgMapping, NewOrgReservationService, hr]
  · simp only [Service.SearchReservationByName, NewOrgReservationService, hr]
  · simp only [Service.GetReservationsOfOwner, NewOrgReservationService, hr]
  · simp only [Service.DeleteReservationsOfOwner, NewOrgReservationService, hr]
  · intro g1 j hj
    exact List.getElem?_set_ne (Ne.symm hj)

/-- The service built on the repository 0, which holds `AcmeCorp`, after a second
service was built on the empty repository 1: its methods act on the repository
1. -/
theorem service_uses_latest_repository_witness :
    NewOrgReservationService 1 afterFirst
      = ({ orgNameMapper := 1 }, { repositories := afterFirst.repositories, repo := some 1 })
    ∧ firstService.CreateNewOrgReservation noFaults "o2" "u2"
          { OrganizationName := "AcmeCorp", OwnerEmail := "b@x.com", CloudService := "AG" }
          (NewOrgReservationService 1 afterFirst).2
        = ((CreateNewOrgReservation noFaults "o2" "u2"
              { OrganizationName := "AcmeCorp", OwnerEmail := "b@x.com", CloudService := "AG" }
              {}).1,
            { repositories :=
                afterFirst.repositories.set 1
                  (CreateNewOrgReservation noFaults "o2" "u2"
                    { OrganizationName := "AcmeCorp", OwnerEmail := "b@x.com",
                      CloudService := "AG" } {}).2
              repo := some 1 })
    ∧ firstService.GetOrgReservationByOrgName noFaults "AcmeCorp"
          (NewOrgReservationService 1 afterFirst).2
        = (.value (GetOrgReservationByOrgName noFaults "AcmeCorp" {}).1,
            { repositories :=
                afterFirst.repositories.set 1 (GetOrgReservationByOrgName noFaults "AcmeCorp" {}).2
              repo := some 1 })
    ∧ firstService.GetOwnReservationWithNameAndMail noFaults "AcmeCorp" "a@x.com"
          (NewOrgReservationService 1 afterFirst).2
        = (.value (GetOwnReservationWithNameAndMail noFaults "AcmeCorp" "a@x.com" {}).1,
            { repositories :=
                afterFirst.repositories.set 1
                  (GetOwnReservationWithNameAndMail noFaults "AcmeCorp" "a@x.com" {}).2
              repo := some 1 })
    ∧ firstService.UpdateOrgMapping noFaults "o2" "a@x.com"
          { OrganizationName := "AcmeCorp", NewOwnersEmail := "b@x.com" }
          (NewOrgReservationService 1 afterFirst).2
        = ((UpdateOrgMapping noFaults "o2" "a@x.com"
              { OrganizationName := "AcmeCorp", NewOwnersEmail := "b@x.com" } {}).1,
            { repositories :=
                afterFirst.repositories.set 1
                  (UpdateOrgMapping noFaults "o2" "a@x.com"
                    { OrganizationName := "AcmeCorp", NewOwnersEmail := "b@x.com" } {}).2
              repo := some 1 })
    ∧ firstService.SearchReservationByName noFaults "AcmeCorp"
          (NewOrgReservationService 1 afterFirst).2
        = (.value (SearchReservationByName noFaults "AcmeCorp" {}).1,
            { repositories :=
                afterFirst.repositories.set 1 (SearchReservationByName noFaults "AcmeCorp" {}).2
              repo := some 1 })
    ∧ firstService.GetReservationsOfOwner noFaults "a@x.com"
          (NewOrgReservationService 1 afterFirst).2
        = (.value (GetReservationsOfOwner noFaults "a@x.com" {}).1,
            { repositories :=
                afterFirst.repositories.set 1 (GetReservationsOfOwner noFaults "a@x.com" {}).2
              repo := some 1 })
    ∧ firstService.DeleteReservationsOfOwner noFaults "a@x.com"
          { OrganizationName := "AcmeCorp", CloudService := "CH" }
          (NewOrgReservationService 1 afterFirst).2
        = ((DeleteReservationsOfOwner noFaults "a@x.com"
              { OrganizationName := "AcmeCorp", CloudService := "CH" } {}).1,
            { repositories :=
                afterFirst.repositories.set 1
                  (DeleteReservationsOfOwner noFaults "a@x.com"
                    { OrganizationName := "AcmeCorp", CloudService := "CH" } {}).2
              repo := some 1 })
    ∧ ∀ (g1 : Gateway) (j : Nat), j ≠ 1 →
        (afterFirst.repositories.set 1 g1)[j]? = afterFirst.repositories[j]? :=
  service_uses_latest_repository afterFirst 1 {} firstService noFaults "AcmeCorp" "a@x.com"
    "a@x.com" "o2" "u2"
    { OrganizationName := "AcmeCorp", OwnerEmail := "b@x.com", CloudService := "AG" }
    { OrganizationName := "AcmeCorp", NewOwnersEmail := "b@x.com" }
    { OrganizationName := "AcmeCorp", CloudService := "CH" } (by decide)

/-- C28. For every fault oracle, payload and gateway, `CreateNewOrgReservation`
returns (it does not panic), and what it returns is either a present mapping with
a nil error or an absent mapping with a non-nil error, never an absent mapping
with a nil error. The call never leaves by the `return nil, err` of line 148 of
`mapper.go`: `CreateNewOrgReservationTraced`, which computes the same result and
gateway, reports the line of the `return` statement taken, and it is not 148. -/
theorem create_never_nil_nil (F : Faults) (newOwnerId newUuid : String)
    (payload : OrgReservationPayload) (g : Gateway) :
    (∃ r g1, CreateNewOrgReservation F newOwnerId newUuid payload g = (.value r, g1)
      ∧ ((r.1.isSome = true ∧ r.2 = none) ∨ (r.1 = none ∧ r.2.isSome = true)))
    ∧ (CreateNewOrgReservationTraced F newOwnerId newUuid payload g).2
        = CreateNewOrgReservation F newOwnerId newUuid payload g
    ∧ (CreateNewOrgReservationTraced F newOwnerId newUuid payload g).1 ≠ 148 := by
  obtain ⟨line, r, g1, ht, hline, hor⟩ := traced_ok F newOwnerId newUuid payload g
  have hsnd := traced_snd F newOwnerId newUuid payload g
  rw [ht] at hsnd ⊢
  exact ⟨⟨r, g1, hsnd.symm, hor⟩, hsnd, hline⟩

/-- The call on the empty store whose insert of the reservation fails. -/
theorem create_never_nil_nil_witness :
    (∃ r g1,
      CreateNewOrgReservation (failAt 4 duplicateEntry) "o1" "u1"
          { OrganizationName := "AcmeCorp", OwnerEmail := "a@x.com", CloudService := "CH" } {}
        = (.value r, g1)
      ∧ ((r.1.isSome = true ∧ r.2 = none) ∨ (r.1 = none ∧ r.2.isSome = true)))
    ∧ (CreateNewOrgReservationTraced (failAt 4 duplicateEntry) "o1" "u1"
          { OrganizationName := "AcmeCorp", OwnerEmail := "a@x.com", CloudService := "CH" } {}).2
        = CreateNewOrgReservation (failAt 4 duplicateEntry) "o1" "u1"
            { OrganizationName := "AcmeCorp", OwnerEmail := "a@x.com", CloudService := "CH" } {}
    ∧ (CreateNewOrgReservationTraced (failAt 4 duplicateEntry) "o1" "u1"
          { OrganizationName := "AcmeCorp", OwnerEmail := "a@x.com", CloudService := "CH" } {}).1
        ≠ 148 :=
  create_never_nil_nil (failAt 4 duplicateEntry) "o1" "u1"
    { OrganizationName := "AcmeCorp", OwnerEmail := "a@x.com", CloudService := "CH" } {}

/-- C29. On a gateway that does not fail and a store whose organization names are
unique, when the valid `email` owns the reservation with the valid name `name`
(the joined lookup answers `m`) and `DeleteReservationsOfOwner` retracts its last
active flag, then in the store after the call `GetReservationsOfOwner(email)`
returns a list that contains `name` and no error, while
`GetOwnReservationWithNameAndMail(name, email)` returns `(nil, false, nil)`; a
further `DeleteReservationsOfOwner` of that owner for `name`, with any key, and a
further `UpdateOrgMapping` of that owner for `name` to any valid new email both
return an error of code `Error_NOT_FOUND` and change no table. -/
theorem reads_disagree_after_last_retract (g : Gateway)
    (email name key key2 newEmail newOwnerId : String)
    (m : OrgReservationMapping) (hnames : g.store.uniqueNames)
    (hmail : validateEmail email = true) (hname : validateOrgName name = true)
    (hnew : validateEmail newEmail = true)
    (hown : (GetOrgReservationByNameAndEmail noFaults name email g).1.1 = some m)
    (hlast : (withoutFlag key m.CloudMapping).ChoreoCloud = false
      ∧ (withoutFlag key m.CloudMapping).AsgardioCloud = false
      ∧ (withoutFlag key m.CloudMapping).BallerinaCloud = false) :
    ∃ g1,
      DeleteReservationsOfOwner noFaults email
          { OrganizationName := name, CloudService := key } g = (.value none, g1)
      ∧ (∃ names, (GetReservationsOfOwner noFaults email g1).1 = (names, none) ∧ name ∈ names)
      ∧ (GetOwnReservationWithNameAndMail noFaults name email g1).1 = (none, false, none)
      ∧ (∃ e g2,
          DeleteReservationsOfOwner noFaults email
              { OrganizationName := name, CloudService := key2 } g1 = (.value (some e), g2)
          ∧ Is (some e) Error_NOT_FOUND = true ∧ g2.store = g1.store)
      ∧ ∃ e g2,
          UpdateOrgMapping noFaults newOwnerId email
              { OrganizationName := name, NewOwnersEmail := newEmail } g1
            = (.value (none, some e), g2)
          ∧ Is (some e) Error_NOT_FOUND = true ∧ g2.store = g1.store := by
  rw [repo_own_noFaults] at hown
  simp only at hown
  obtain ⟨r, o, c, hr, ho, hc, hro, hrc, hrn, hoe, hm⟩ := ownLookup_some hown
  have hmem := ownLookup_org_mem hown
  have hmname := (ownLookup_name hown).1
  have hexec := delete_owned_last g email name key m hmail hown (noFlag_of_flags _ hlast)
  have hnone : ownLookup
      { g.store with
        clouds := g.store.clouds.filter fun c =>
          !(c.ReservationId == m.OrgReservation.Uuid) } name email = none := by
    apply ownLookup_none_of_no_cloud
    intro r1 hr1 hn1 c1 hc1
    have hrr : r1 = m.OrgReservation :=
      List.inj_on_of_nodup_map hnames hr1 hmem (hn1.trans hmname.symm)
    subst hrr
    have := (List.mem_filter.1 hc1).2
    simpa using this
  refine ⟨_, hexec, ?_, ?_, ?_, ?_⟩
  · rw [reservations_noFaults]
    have hin : name ∈ SelectOrgReservationsByEmailQuery
        { g.store with
          clouds := g.store.clouds.filter fun c =>
            !(c.ReservationId == m.OrgReservation.Uuid) } email := by
      have := mem_select_names (s := { g.store with
          clouds := g.store.clouds.filter fun c =>
            !(c.ReservationId == m.OrgReservation.Uuid) }) hr ho hro hoe
      rwa [hrn] at this
    refine ⟨_, ?_, hin⟩
    simp only
    rw [if_pos (List.ne_nil_of_mem hin)]
  · rw [service_own_noFaults _ _ _ hmail]
    simp only [hnone, Option.isSome_none]
  · refine ⟨_, _, delete_absent _ email { OrganizationName := name, CloudService := key2 }
      hmail hnone, Is_Newf _ _, rfl⟩
  · refine ⟨_, _, update_not_found newOwnerId email
      { OrganizationName := name, NewOwnersEmail := newEmail } _ hname hnew hmail hnone,
      Is_Newf _ _, rfl⟩

/-- After `a@x.com` retracts `"CH"`, the only flag of `AcmeCorp`, the list of its
reservations still names `AcmeCorp` and the lookup of its own reservation is
absent. -/
theorem reads_disagree_after_last_retract_witness :
    ∃ g1,
      DeleteReservationsOfOwner noFaults "a@x.com"
          { OrganizationName := "AcmeCorp", CloudService := "CH" } { store := acmeStore }
        = (.value none, g1)
      ∧ (∃ names, (GetReservationsOfOwner noFaults "a@x.com" g1).1 = (names, none)
          ∧ "AcmeCorp" ∈ names)
      ∧ (GetOwnReservationWithNameAndMail noFaults "AcmeCorp" "a@x.com" g1).1
          = (none, false, none)
      ∧ (∃ e g2,
          DeleteReservationsOfOwner noFaults "a@x.com"
              { OrganizationName := "AcmeCorp", CloudService := "AG" } g1
            = (.value (some e), g2)
          ∧ Is (some e) Error_NOT_FOUND = true ∧ g2.store = g1.store)
      ∧ ∃ e g2,
          UpdateOrgMapping noFaults "o2" "a@x.com"
              { OrganizationName := "AcmeCorp", NewOwnersEmail := "b@x.com" } g1
            = (.value (none, some e), g2)
          ∧ Is (some e) Error_NOT_FOUND = true ∧ g2.store = g1.store :=
  reads_disagree_after_last_retract { store := acmeStore } "a@x.com" "AcmeCorp" "CH" "AG"
    "b@x.com" "o2"
    { OrgReservation := { Uuid := "u1", OrganizationName := "AcmeCorp", OwnerId := "o1" }
      Owner := { Id := "o1", Email := "a@x.com" }
      CloudMapping := { ReservationId := "u1", ChoreoCloud := true } }
    (by decide) (by decide) (by decide) (by decide) (by decide) (by decide)

/-- C30. The empty organization name passes `validateOrgName`, and on a gateway
that does not fail, for a valid `email` and a store without a reservation named
`""`, `CreateNewOrgReservation` with the name `""` and the key `"CH"` returns a
mapping and no error; the mapping carries the empty name and the Choreo flag only,
and `ORGANIZATION_RESERVATION` gains exactly the row of the new reservation, whose
organization name is the empty string. -/
theorem create_accepts_empty_name (g : Gateway) (email newOwnerId newUuid : String)
    (hmail : validateEmail email = true)
    (hfree : ∀ r ∈ g.store.orgs, r.OrganizationName ≠ "") :
    validateOrgName "" = true
    ∧ ∃ m g1,
        CreateNewOrgReservation noFaults newOwnerId newUuid
            { OrganizationName := "", OwnerEmail := email, CloudService := "CH" } g
          = (.value (some m, none), g1)
        ∧ m.OrgReservation.OrganizationName = ""
        ∧ m.OrgReservation.Uuid = newUuid
        ∧ m.Owner.Email = email
        ∧ m.CloudMapping = { ReservationId := newUuid, ChoreoCloud := true }
        ∧ g1.store.orgs = g.store.orgs ++ [m.OrgReservation]
        ∧ g1.store.clouds = g.store.clouds ++ [m.CloudMapping] := by
  have hv : validateOrgName "" = true := by decide
  refine ⟨hv, ?_⟩
  have hname : nameLookup g.store "" = none := nameLookup_eq_none.2 hfree
  have hown : ownLookup g.store "" email = none := by
    rw [ownLookup_eq_none]
    rintro r hr o - c - ⟨-, -, h3, -⟩
    exact hfree r hr h3
  have h := create_free newOwnerId newUuid
    { OrganizationName := "", OwnerEmail := email, CloudService := "CH" } g hmail hv hown hname
  refine ⟨_, _, h, rfl, rfl, resolveOwner_email _ _ _, ?_, rfl, rfl⟩
  show ({ setCloud ChoreoKey {} with ReservationId := newUuid } : CloudReservation) = _
  rw [setCloud_CH]

/-- On the empty store `a@x.com` reserves the empty name. -/
theorem create_accepts_empty_name_witness :
    validateOrgName "" = true
    ∧ ∃ m g1,
        CreateNewOrgReservation noFaults "o1" "u1"
            { OrganizationName := "", OwnerEmail := "a@x.com", CloudService := "CH" } {}
          = (.value (some m, none), g1)
        ∧ m.OrgReservation.OrganizationName = ""
        ∧ m.OrgReservation.Uuid = "u1"
        ∧ m.Owner.Email = "a@x.com"
        ∧ m.CloudMapping = { ReservationId := "u1", ChoreoCloud := true }
        ∧ g1.store.orgs = ({} : Gateway).store.orgs ++ [m.OrgReservation]
        ∧ g1.store.clouds = ({} : Gateway).store.clouds ++ [m.CloudMapping] :=
  create_accepts_empty_name {} "a@x.com" "o1" "u1" (by decide) (by decide)

end OrgNameRegistry
